import Mathlib

/-!
# OpenRW audio decode pipeline: a shallow embedding of `SoundSource.cpp`

The definitions below follow `rwengine/src/audio/SoundSource.cpp` (the
branch compiled against a current libavcodec: `decodeFrames`,
`decodeAndResampleFrames`, `prepareCodecContext`, `HAVE_CH_LAYOUT`).

The codec / demux / resample library is an external collaborator.  Its
answers are data of the model: a packet carries the result of
`avcodec_send_packet` and the frames `avcodec_receive_frame` hands back
after it, a received frame carries what the resampler answers for it, and
`LibAV` carries the results of the setup calls.
-/

namespace OpenRW

/-! ## Machine integers -/

/-- Number of values of `size_t` (64-bit target). -/
def SIZE_MOD : Nat := 2 ^ 64

/-- Conversion of a signed value to `size_t` (modular). -/
def toSizeT (x : Int) : Nat := (x % (SIZE_MOD : Int)).toNat

/-- The conversion `static_cast<int>(x)` of a `size_t` value: the low 32 bits, read as
two's complement. -/
def toInt32 (x : Nat) : Int :=
  if x % 2 ^ 32 < 2 ^ 31 then ((x % 2 ^ 32 : Nat) : Int)
  else ((x % 2 ^ 32 : Nat) : Int) - 2 ^ 32

/-! ## Constants of `SoundSource.cpp` -/

/-- The constant `constexpr int kNumOutputChannels = 2;` -/
def kNumOutputChannels : Nat := 2

/-- The constant `constexpr size_t kNrFramesToPreload = 50;` -/
def kNrFramesToPreload : Nat := 50

/-- The constant `static constexpr size_t ioBufferSize = 4096;` in `prepareFormatContextSfx`. -/
def ioBufferSize : Nat := 4096

/-! ## The in-memory cursor and `read_packet` -/

/-- The struct `InputData`: the moving cursor over the in-memory blob (`ptr` is an
address, `size` the remaining length, a `size_t`). -/
structure InputData where
  ptr : Int
  size : Nat
deriving DecidableEq, Repr

/-- What one call of `read_packet` leaves behind: the returned `int`, the caller's buffer
(by offset) and the cursor. -/
structure ReadResult where
  ret : Int
  buf : Nat → Nat
  input : InputData

/-- The function `read_packet(opaque, buf, buf_size)`.  `mem` is the memory the cursor
reads from (by address), `buf` the caller's buffer (by offset).
```
buf_size = std::min(buf_size, static_cast<int>(input->size));
memcpy(buf, input->ptr, buf_size);
input->ptr += buf_size;
input->size -= buf_size;
return buf_size;
```
The length given to `memcpy` and the subtraction from `size` convert `buf_size` to
`size_t`. -/
def read_packet (mem : Int → Nat) (input : InputData) (buf : Nat → Nat) (buf_size : Int) :
    ReadResult :=
  let buf_size := min buf_size (toInt32 input.size)
  { ret := buf_size
    buf := fun i => if i < toSizeT buf_size then mem (input.ptr + (i : Int)) else buf i
    input := { ptr := input.ptr + buf_size
               size := toSizeT ((input.size : Int) - buf_size) } }

/-! ## Frames and packets -/

/-- A decoded `AVFrame`: `nb_samples` samples per channel, `data ch i` the `i`-th 16-bit
value of the channel array `data[ch]` (the `reinterpret_cast<int16_t*>` view). -/
structure AVFrame where
  nb_samples : Nat
  data : Nat → Nat → Int

/-- What the resampler library answers for one received frame: the result of
`swr_alloc_set_opts2`, whether `swr` is non-null after it, `swr_is_initialized` after
`swr_init`, the result of `swr_convert_frame` and the `resampled` frame it leaves. -/
structure SwrOutcome where
  allocErr : Int
  allocated : Bool
  initialized : Bool
  convertRet : Int
  resampled : AVFrame

/-- One iteration of `while (avcodec_receive_frame(codecContext, frame) == 0)`: the frame
received and the resampler's answers for it. -/
structure Received where
  frame : AVFrame
  swr : SwrOutcome

/-- A container packet as `av_read_frame` yields it: its stream, the result of
`avcodec_send_packet` for it and the frames `avcodec_receive_frame` returns afterwards
(until it returns non-zero). -/
structure AVPacket where
  stream_index : Int
  sendPacket : Int
  received : List Received

/-! ## The direct path: `decodeFrames` -/

/-- The write loop of `decodeFrames`:
```
for (size_t i = 0; i < static_cast<size_t>(frame->nb_samples); i++)
    for (size_t channel = 0; channel < channels; channel++)
        data.push_back(reinterpret_cast<int16_t*>(frame->data[channel])[i]);
```
-/
def writeSamples (channels : Nat) (frame : AVFrame) (data : List Int) : List Int :=
  (List.range frame.nb_samples).foldl
    (fun d i => (List.range channels).foldl (fun d channel => d ++ [frame.data channel i]) d)
    data

/-- The receive loop of `decodeFrames` for one packet: every received frame is written
when `receiveFrame == 0 && sendPacket == 0`. -/
def receiveFrames (channels : Nat) (sendPacket : Int) : List Received → List Int → List Int
  | [], data => data
  | r :: rest, data =>
    receiveFrames channels sendPacket rest
      (if sendPacket = 0 then writeSamples channels r.frame data else data)

/-- The members `decodeFrames` reads and writes: the unread packets of the container,
the counter `decodedFrames` and the sample buffer `data`. -/
structure Decoding where
  packets : List AVPacket
  decodedFrames : Nat
  data : List Int

/-- The loop of `decodeFrames(framesToDecode)`:
```
while ((framesToDecode == 0 || decodedFrames < framesToDecode) &&
       av_read_frame(formatContext, readingPacket) == 0) {
    if (readingPacket->stream_index == audioStream->index) { send; receive loop }
    av_packet_unref(readingPacket);
    ++decodedFrames;
}
```
`av_read_frame` is only called when the first conjunct holds; it fails at the end of the
input. -/
def decodeFramesLoop (framesToDecode : Nat) (audioIndex : Int) (channels : Nat) :
    List AVPacket → Nat → List Int → Decoding
  | [], decodedFrames, data =>
    { packets := [], decodedFrames := decodedFrames, data := data }
  | p :: rest, decodedFrames, data =>
    if framesToDecode = 0 ∨ decodedFrames < framesToDecode then
      decodeFramesLoop framesToDecode audioIndex channels rest
        ((decodedFrames + 1) % SIZE_MOD)
        (if p.stream_index = audioIndex then receiveFrames channels p.sendPacket p.received data
         else data)
    else
      { packets := p :: rest, decodedFrames := decodedFrames, data := data }

/-! ## The resample path: `decodeAndResampleFrames` -/

/-- The append loop of `decodeAndResampleFrames`:
```
for (size_t i = 0; i < static_cast<size_t>(resampled->nb_samples) * channels; i++)
    data.push_back(reinterpret_cast<int16_t*>(resampled->data[0])[i]);
```
(`nb_samples` is an `int` and `channels` is 2 on this path, so the product does not wrap.) -/
def appendResampled (channels : Nat) (resampled : AVFrame) (data : List Int) : List Int :=
  (List.range (resampled.nb_samples * channels)).foldl
    (fun d i => d ++ [resampled.data 0 i]) data

/-- The receive loop of `decodeAndResampleFrames` for one packet.  Returns the buffer,
`swr` and whether one of the three `return`s was taken.
```
if (!swr) {
    err = swr_alloc_set_opts2(&swr, ...);   if (err < 0) return;
    if (!swr) return;
    swr_init(swr);                          if (!swr_is_initialized(swr)) return;
}
if (receiveFrame == 0 && sendPacket == 0) {
    swr_config_frame; swr_convert_frame (a failure is only logged);
    append resampled->nb_samples * channels values; av_frame_unref(resampled);
}
```
-/
def resampleFrames (channels : Nat) (sendPacket : Int) :
    List Received → List Int → Bool → List Int × Bool × Bool
  | [], data, swr => (data, swr, false)
  | r :: rest, data, swr =>
    if swr = false ∧ r.swr.allocErr < 0 then (data, false, true)
    else if swr = false ∧ r.swr.allocated = false then (data, false, true)
    else if swr = false ∧ r.swr.initialized = false then (data, true, true)
    else
      resampleFrames channels sendPacket rest
        (if sendPacket = 0 then appendResampled channels r.swr.resampled data else data)
        true

/-- The members `decodeAndResampleFrames` reads and writes: those of `Decoding`, whether
`swr` is non-null, and whether the call left through one of the `return`s inside the
loop. -/
structure Resampling where
  packets : List AVPacket
  decodedFrames : Nat
  data : List Int
  swr : Bool
  aborted : Bool

/-- The loop of `decodeAndResampleFrames(filePath, framesToDecode)`; same guard as
`decodeFrames`, `++decodedFrames` after every packet read, and the three `return`s of the
receive loop leave the function at once (before `++decodedFrames`). -/
def resampleLoop (framesToDecode : Nat) (audioIndex : Int) (channels : Nat) :
    List AVPacket → Nat → List Int → Bool → Resampling
  | [], decodedFrames, data, swr =>
    { packets := [], decodedFrames := decodedFrames, data := data, swr := swr, aborted := false }
  | p :: rest, decodedFrames, data, swr =>
    if framesToDecode = 0 ∨ decodedFrames < framesToDecode then
      if p.stream_index = audioIndex then
        let r := resampleFrames channels p.sendPacket p.received data swr
        if r.2.2 then
          { packets := rest, decodedFrames := decodedFrames, data := r.1, swr := r.2.1,
            aborted := true }
        else
          resampleLoop framesToDecode audioIndex channels rest
            ((decodedFrames + 1) % SIZE_MOD) r.1 r.2.1
      else
        resampleLoop framesToDecode audioIndex channels rest
          ((decodedFrames + 1) % SIZE_MOD) data swr
    else
      { packets := p :: rest, decodedFrames := decodedFrames, data := data, swr := swr,
        aborted := false }

/-! ## The sound source, the libraries and the container loader -/

/-- The two member functions `loadFromFile` / `loadSfx` hand to `std::async`. -/
inductive LoadTask
  | decodeRestSoundFramesAndCleanup
  | decodeRestSfxFramesAndCleanup
deriving DecidableEq, Repr

/-- Calls on the handles of the decoding context, in the order the code makes them.  An
acquiring call is recorded when it succeeded, a releasing call whenever it is made;
`async` is the dispatch of the loader task. -/
inductive Call
  /-- The call `frame = av_frame_alloc()` returned a frame. -/
  | av_frame_alloc
  /-- The call `av_frame_free(&frame)`. -/
  | av_frame_free
  /-- The call `ioBuffer = av_malloc(size)`. -/
  | av_malloc (size : Nat)
  /-- The call `avio_alloc_context(ioBuffer, buffer_size, 0, &input, &read_packet, ...)`,
  with the cursor as it stands at the call. -/
  | avio_alloc_context (buffer_size : Nat) (input : InputData)
  /-- The call `formatContext = avformat_alloc_context()`. -/
  | avformat_alloc_context
  /-- The call `avformat_open_input(&formatContext, ...)` returned 0. -/
  | avformat_open_input
  /-- The call `av_free(formatContext->pb->buffer)`. -/
  | av_free_buffer
  /-- The call `avio_context_free(&formatContext->pb)`. -/
  | avio_context_free
  /-- The call `avformat_close_input(&formatContext)`. -/
  | avformat_close_input
  /-- The call `codecContext = avcodec_alloc_context3(codec)` returned a context. -/
  | avcodec_alloc_context3
  /-- The call `avcodec_free_context(&codecContext)`. -/
  | avcodec_free_context
  /-- The call `readingPacket = av_packet_alloc()`. -/
  | av_packet_alloc
  /-- The call `loadingThread = std::async(std::launch::async, task, this, ...)`. -/
  | async (task : LoadTask)
deriving DecidableEq, Repr

/-- The answers of libavformat / libavcodec (and of the allocator) to the setup calls of one
load, and the packets the opened container yields. -/
structure LibAV where
  /-- The call `av_frame_alloc()` returned non-null. -/
  frameAlloc : Bool
  /-- Result of `avformat_open_input`. -/
  openInput : Int
  /-- Result of `avformat_find_stream_info`. -/
  findStreamInfo : Int
  /-- Result of `av_find_best_stream`. -/
  bestStream : Int
  /-- The call `avcodec_alloc_context3(codec)` returned non-null. -/
  codecAlloc : Bool
  /-- Result of `avcodec_parameters_to_context`. -/
  parametersToContext : Int
  /-- Result of `avcodec_open2`. -/
  codecOpen : Int
  /-- The value `codecContext->sample_rate`. -/
  sample_rate : Int
  /-- The value `codecContext->ch_layout.nb_channels`. -/
  nb_channels : Int
  /-- Address returned by `std::make_unique<uint8_t[]>(input.size)`. -/
  inputDataStart : Int
  /-- The packets `av_read_frame` yields, in order, once the container is open. -/
  packets : List AVPacket

/-- The member `sdt.assetInfo`: the declared metadata of the asset (`LoaderSDT.hpp` is not
part of the sources; only the two members `SoundSource.cpp` reads are kept). -/
structure AssetInfo where
  size : Nat
  sampleRate : Nat
deriving DecidableEq, Repr

/-- Modelled from the spec: the container loader `LoaderSDT` (its code is not part of the
sources), "load asset N to memory as raw bytes, optionally as a synthesized
wave-header-prefixed buffer" and "declared asset metadata {sampleRate, byteSize}".
`load index asWave` is the loader's answer: the address of the blob (`none` for a null
result) and the `assetInfo` it leaves; `sizeofWaveHeader` is `sizeof(WaveHeader)`. -/
structure LoaderSDT where
  assetInfo : AssetInfo
  sizeofWaveHeader : Nat
  load : Nat → Bool → Option Int × AssetInfo

/-- The function `sdt.loadToMemory(index, asWave)`: returns the blob and updates
`sdt.assetInfo`. -/
def LoaderSDT.loadToMemory (sdt : LoaderSDT) (index : Nat) (asWave : Bool) :
    Option Int × LoaderSDT :=
  ((sdt.load index asWave).1, { sdt with assetInfo := (sdt.load index asWave).2 })

/-- The members of `SoundSource` that `SoundSource.cpp` reads or writes, the unread packets
of the open container, and the record of the calls made on the handles. -/
structure SoundSource where
  /-- The member `std::vector<int16_t> data`: the interleaved sample buffer. -/
  data : List Int
  channels : Nat
  sampleRate : Nat
  /-- The member `size_t decodedFrames`. -/
  decodedFrames : Nat
  /-- Whether `swr` is non-null. -/
  swr : Bool
  /-- The value `audioStream->index`. -/
  audioStreamIndex : Int
  /-- The value `raw_sound.get()` (`none` for null). -/
  raw_sound : Option Int
  /-- The value `inputDataStart.get()` (`none` for null). -/
  inputDataStart : Option Int
  input : InputData
  /-- The member `std::future<void> loadingThread`: the task it was given, `none` while it
  holds no task. -/
  loadingThread : Option LoadTask
  /-- The packets `av_read_frame(formatContext, ...)` has not returned yet. -/
  packets : List AVPacket
  /-- The handle calls made so far, oldest first. -/
  calls : List Call
  /-- Modelled from the spec: the "completion flag" of the AudioSource data model.  No
  function of `SoundSource.cpp` reads or writes such a member. -/
  completionFlag : Bool

/-- A source on which nothing has been loaded yet. -/
def SoundSource.fresh : SoundSource :=
  { data := [], channels := 0, sampleRate := 0, decodedFrames := 0, swr := false,
    audioStreamIndex := 0, raw_sound := none, inputDataStart := none,
    input := { ptr := 0, size := 0 }, loadingThread := none, packets := [], calls := [],
    completionFlag := false }

/-- Records one call. -/
def SoundSource.call (s : SoundSource) (c : Call) : SoundSource :=
  { s with calls := s.calls ++ [c] }

/-- The container is open: `packets` are what `av_read_frame` will yield. -/
def SoundSource.setPackets (s : SoundSource) (packets : List AVPacket) : SoundSource :=
  { s with packets := packets }

/-- Assignment of `audioStream` (kept: its `index`). -/
def SoundSource.setAudioStream (s : SoundSource) (index : Int) : SoundSource :=
  { s with audioStreamIndex := index }

/-- Assignment of `raw_sound`. -/
def SoundSource.setRawSound (s : SoundSource) (raw_sound : Option Int) : SoundSource :=
  { s with raw_sound := raw_sound }

/-- Assignment of `inputDataStart` and of the cursor `input`. -/
def SoundSource.setInput (s : SoundSource) (inputDataStart : Option Int) (input : InputData) :
    SoundSource :=
  { s with inputDataStart := inputDataStart, input := input }

/-- Assignment of `channels` and `sampleRate`. -/
def SoundSource.setMetadata (s : SoundSource) (channels sampleRate : Nat) : SoundSource :=
  { s with channels := channels, sampleRate := sampleRate }

/-- Assignment of `loadingThread`. -/
def SoundSource.setLoadingThread (s : SoundSource) (task : LoadTask) : SoundSource :=
  { s with loadingThread := some task }

/-- The function `SoundSource::decodeFrames(framesToDecode)`. -/
def decodeFrames (framesToDecode : Nat) (s : SoundSource) : SoundSource :=
  let d := decodeFramesLoop framesToDecode s.audioStreamIndex s.channels s.packets
    s.decodedFrames s.data
  { s with packets := d.packets, decodedFrames := d.decodedFrames, data := d.data }

/-- The function `SoundSource::decodeAndResampleFrames(filePath, framesToDecode)`: the loop, then
`av_frame_free(&resampled); swr_free(&swr);` unless the loop returned early. -/
def decodeAndResampleFrames (framesToDecode : Nat) (s : SoundSource) : SoundSource :=
  let d := resampleLoop framesToDecode s.audioStreamIndex s.channels s.packets
    s.decodedFrames s.data s.swr
  { s with packets := d.packets, decodedFrames := d.decodedFrames, data := d.data,
           swr := if d.aborted then d.swr else false }

/-! ## Setup stages -/

/-- The function `SoundSource::allocateAudioFrame()`. -/
def allocateAudioFrame (av : LibAV) (s : SoundSource) : Bool × SoundSource :=
  if av.frameAlloc then (true, s.call .av_frame_alloc) else (false, s)

/-- The function `SoundSource::allocateFormatContext(filePath)`: on failure
`av_frame_free(&frame)`. -/
def allocateFormatContext (av : LibAV) (s : SoundSource) : Bool × SoundSource :=
  if av.openInput ≠ 0 then (false, s.call .av_frame_free)
  else (true, (s.call .avformat_open_input).setPackets av.packets)

/-- The function `SoundSource::prepareFormatContextSfx(sdt, index, asWave)`.
```
raw_sound = sdt.loadToMemory(index, asWave);
if (!raw_sound) { av_frame_free(&frame); return false; }
input.size = sizeof(WaveHeader) + sdt.assetInfo.size;
inputDataStart = std::make_unique<uint8_t[]>(input.size);
input.ptr = inputDataStart.get();
auto ioBuffer = static_cast<uint8_t*>(av_malloc(ioBufferSize));
input.ptr = reinterpret_cast<uint8_t*>(raw_sound.get());
avioContext = avio_alloc_context(ioBuffer, ioBufferSize, 0, &input, &read_packet, ...);
formatContext = avformat_alloc_context();
formatContext->pb = avioContext;
if (avformat_open_input(&formatContext, "SDT", nullptr, nullptr) != 0) {
    av_free(formatContext->pb->buffer); avio_context_free(&formatContext->pb);
    av_frame_free(&frame); return false;
}
return true;
```
The first value given to `input.ptr` is overwritten before anything reads it, so the
cursor is written once, with its final value. -/
def prepareFormatContextSfx (av : LibAV) (sdt : LoaderSDT) (index : Nat) (asWave : Bool)
    (s : SoundSource) : Bool × SoundSource × LoaderSDT :=
  match sdt.loadToMemory index asWave with
  | (none, sdt) => (false, (s.setRawSound none).call .av_frame_free, sdt)
  | (some blob, sdt) =>
    let input : InputData :=
      { ptr := blob, size := (sdt.sizeofWaveHeader + sdt.assetInfo.size) % SIZE_MOD }
    let s := (s.setRawSound (some blob)).setInput (some av.inputDataStart) input
    let s := ((s.call (.av_malloc ioBufferSize)).call
      (.avio_alloc_context ioBufferSize input)).call .avformat_alloc_context
    if av.openInput ≠ 0 then
      (false, ((s.call .av_free_buffer).call .avio_context_free).call .av_frame_free, sdt)
    else
      (true, (s.call .avformat_open_input).setPackets av.packets, sdt)

/-- The function `SoundSource::findAudioStream(filePath)`. -/
def findAudioStream (av : LibAV) (s : SoundSource) : Bool × SoundSource :=
  if av.findStreamInfo < 0 then
    (false, (s.call .av_frame_free).call .avformat_close_input)
  else if av.bestStream < 0 then
    (false, (s.call .av_frame_free).call .avformat_close_input)
  else (true, s.setAudioStream av.bestStream)

/-- The function `SoundSource::findAudioStreamSfx()`. -/
def findAudioStreamSfx (av : LibAV) (s : SoundSource) : Bool × SoundSource :=
  if av.findStreamInfo < 0 then
    (false, (((s.call .av_free_buffer).call .avio_context_free).call .av_frame_free).call
      .avformat_close_input)
  else if av.bestStream < 0 then
    (false, (((s.call .av_free_buffer).call .avio_context_free).call .av_frame_free).call
      .avformat_close_input)
  else (true, s.setAudioStream av.bestStream)

/-- The function `SoundSource::prepareCodecContext()`. -/
def prepareCodecContext (av : LibAV) (s : SoundSource) : Bool × SoundSource :=
  if av.codecAlloc = false then
    (false, (s.call .av_frame_free).call .avformat_close_input)
  else
    let s := s.call .avcodec_alloc_context3
    if av.parametersToContext ≠ 0 then
      (false, (s.call .avcodec_free_context).call .avformat_close_input)
    else if av.codecOpen ≠ 0 then
      (false, (s.call .avcodec_free_context).call .avformat_close_input)
    else (true, s)

/-- The function `SoundSource::prepareCodecContextWrap()`. -/
def prepareCodecContextWrap (av : LibAV) (s : SoundSource) : Bool × SoundSource :=
  prepareCodecContext av s

/-- The function `SoundSource::prepareCodecContextSfx()`. -/
def prepareCodecContextSfx (av : LibAV) (s : SoundSource) : Bool × SoundSource :=
  if av.codecAlloc = false then
    (false, (((s.call .av_free_buffer).call .avio_context_free).call .av_frame_free).call
      .avformat_close_input)
  else
    let s := s.call .avcodec_alloc_context3
    if av.parametersToContext ≠ 0 then
      (false, (((s.call .av_free_buffer).call .avio_context_free).call
        .avcodec_free_context).call .avformat_close_input)
    else if av.codecOpen ≠ 0 then
      (false, (((s.call .av_free_buffer).call .avio_context_free).call
        .avcodec_free_context).call .avformat_close_input)
    else (true, s)

/-- The function `SoundSource::prepareCodecContextSfxWrap()`. -/
def prepareCodecContextSfxWrap (av : LibAV) (s : SoundSource) : Bool × SoundSource :=
  prepareCodecContextSfx av s

/-! ## Metadata, cleanup, and the two loads -/

/-- The function `SoundSource::exposeSoundMetadata()`. -/
def exposeSoundMetadata (av : LibAV) (s : SoundSource) : SoundSource :=
  s.setMetadata kNumOutputChannels (toSizeT av.sample_rate)

/-- The function `SoundSource::exposeSfxMetadata(sdt)`. -/
def exposeSfxMetadata (av : LibAV) (sdt : LoaderSDT) (s : SoundSource) : SoundSource :=
  s.setMetadata (toSizeT av.nb_channels) sdt.assetInfo.sampleRate

/-- The function `SoundSource::cleanupAfterSoundLoading()`. -/
def cleanupAfterSoundLoading (s : SoundSource) : SoundSource :=
  ((s.call .av_frame_free).call .avcodec_free_context).call .avformat_close_input

/-- The function `SoundSource::cleanupAfterSfxLoading()`. -/
def cleanupAfterSfxLoading (s : SoundSource) : SoundSource :=
  ((((s.call .av_frame_free).call .avcodec_free_context).call .av_free_buffer).call
    .avio_context_free).call .avformat_close_input

/-- The function `SoundSource::decodeFramesWrap(filePath)`. -/
def decodeFramesWrap (s : SoundSource) : SoundSource :=
  decodeAndResampleFrames kNrFramesToPreload s

/-- The function `SoundSource::decodeFramesSfxWrap()`. -/
def decodeFramesSfxWrap (s : SoundSource) : SoundSource :=
  decodeFrames kNrFramesToPreload s

/-- The function `SoundSource::decodeRestSoundFramesAndCleanup(filePath)`. -/
def decodeRestSoundFramesAndCleanup (s : SoundSource) : SoundSource :=
  cleanupAfterSoundLoading (decodeAndResampleFrames 0 s)

/-- The function `SoundSource::decodeRestSfxFramesAndCleanup()`. -/
def decodeRestSfxFramesAndCleanup (s : SoundSource) : SoundSource :=
  cleanupAfterSfxLoading (decodeFrames 0 s)

/-- The condition of `loadFromFile`:
`allocateAudioFrame() && allocateFormatContext(filePath) && findAudioStream(filePath) &&
prepareCodecContextWrap()`, evaluated left to right, stopping at the first `false`. -/
def setupSound (av : LibAV) (s : SoundSource) : Bool × SoundSource :=
  let r := allocateAudioFrame av s
  if r.1 = false then r else
  let r := allocateFormatContext av r.2
  if r.1 = false then r else
  let r := findAudioStream av r.2
  if r.1 = false then r else
  prepareCodecContextWrap av r.2

/-- The condition of `loadSfx`:
`allocateAudioFrame() && prepareFormatContextSfx(sdt, index, asWave) &&
findAudioStreamSfx() && prepareCodecContextSfxWrap()`. -/
def setupSfx (av : LibAV) (sdt : LoaderSDT) (index : Nat) (asWave : Bool) (s : SoundSource) :
    Bool × SoundSource × LoaderSDT :=
  let r := allocateAudioFrame av s
  if r.1 = false then (false, r.2, sdt) else
  let r := prepareFormatContextSfx av sdt index asWave r.2
  if r.1 = false then r else
  let sdt := r.2.2
  let r := findAudioStreamSfx av r.2.1
  if r.1 = false then (false, r.2, sdt) else
  let r := prepareCodecContextSfxWrap av r.2
  (r.1, r.2, sdt)

/-- The function `SoundSource::loadFromFile(filePath, streaming)`. -/
def loadFromFile (av : LibAV) (streaming : Bool) (s : SoundSource) : SoundSource :=
  let r := setupSound av s
  if r.1 then
    let s := exposeSoundMetadata av r.2
    let s := s.call .av_packet_alloc
    let s := decodeFramesWrap s
    if streaming then
      (s.call (.async .decodeRestSoundFramesAndCleanup)).setLoadingThread
        .decodeRestSoundFramesAndCleanup
    else decodeRestSoundFramesAndCleanup s
  else r.2

/-- The function `SoundSource::loadSfx(sdt, index, asWave, streaming)`. -/
def loadSfx (av : LibAV) (sdt : LoaderSDT) (index : Nat) (asWave : Bool) (streaming : Bool)
    (s : SoundSource) : SoundSource :=
  let r := setupSfx av sdt index asWave s
  if r.1 then
    let s := exposeSfxMetadata av r.2.2 r.2.1
    let s := s.call .av_packet_alloc
    let s := decodeFramesSfxWrap s
    if streaming then
      (s.call (.async .decodeRestSfxFramesAndCleanup)).setLoadingThread
        .decodeRestSfxFramesAndCleanup
    else decodeRestSfxFramesAndCleanup s
  else r.2.1

/-- The body of a dispatched loader task. -/
def LoadTask.run : LoadTask → SoundSource → SoundSource
  | .decodeRestSoundFramesAndCleanup, s => OpenRW.decodeRestSoundFramesAndCleanup s
  | .decodeRestSfxFramesAndCleanup, s => OpenRW.decodeRestSfxFramesAndCleanup s

/-- The source once the task held by `loadingThread` (if any) has run to its end. -/
def SoundSource.afterLoadingThread (s : SoundSource) : SoundSource :=
  match s.loadingThread with
  | none => s
  | some task => task.run s

/-! ## Reference functions used in the statements -/

/-- The samples of one frame in interleaved order: sample by sample, within a sample
channel by channel. -/
def interleave (channels : Nat) (frame : AVFrame) : List Int :=
  (List.range frame.nb_samples).flatMap fun i =>
    (List.range channels).map fun channel => frame.data channel i

/-- The decoded frames of a packet: those received after it, when the decoder accepted the
packet (`sendPacket == 0`, the condition under which the code writes a frame). -/
def AVPacket.decoded (p : AVPacket) : List Received :=
  if p.sendPacket = 0 then p.received else []

/-- The samples of the decoded frames of one packet, in frame order; nothing for a packet
of another stream. -/
def packetSamples (audioIndex : Int) (channels : Nat) (p : AVPacket) : List Int :=
  if p.stream_index = audioIndex then p.decoded.flatMap fun r => interleave channels r.frame
  else []

/-- The samples of the decoded frames of the selected stream, in packet order. -/
def streamSamples (audioIndex : Int) (channels : Nat) (packets : List AVPacket) : List Int :=
  packets.flatMap (packetSamples audioIndex channels)

/-- The first `nb_samples * channels` values of `resampled->data[0]`. -/
def resampledSamples (channels : Nat) (resampled : AVFrame) : List Int :=
  (List.range (resampled.nb_samples * channels)).map (resampled.data 0)

/-- The resampled output of the decoded frames of one packet; nothing for a packet of
another stream. -/
def packetResampled (audioIndex : Int) (channels : Nat) (p : AVPacket) : List Int :=
  if p.stream_index = audioIndex then
    p.decoded.flatMap fun r => resampledSamples channels r.swr.resampled
  else []

/-- The resampled output of the decoded frames of the selected stream, in packet order. -/
def streamResampled (audioIndex : Int) (channels : Nat) (packets : List AVPacket) : List Int :=
  packets.flatMap (packetResampled audioIndex channels)

/-- The resampler can be constructed at this frame: allocation reports no error, `swr` is
non-null and `swr_is_initialized` holds. -/
def Received.swrReady (r : Received) : Prop :=
  0 ≤ r.swr.allocErr ∧ r.swr.allocated = true ∧ r.swr.initialized = true

/-- The resampler can be constructed at every frame of the selected stream. -/
def resamplerReady (audioIndex : Int) (packets : List AVPacket) : Prop :=
  ∀ p ∈ packets, p.stream_index = audioIndex → ∀ r ∈ p.received, r.swrReady

/-- Number of packets of the selected stream among `packets`. -/
def selectedCount (audioIndex : Int) (packets : List AVPacket) : Nat :=
  (packets.filter fun p => p.stream_index = audioIndex).length

/-- Number of packets of the selected stream a call read, given the source before and
after it: those among the packets no longer unread. -/
def examinedSelected (before after : SoundSource) : Nat :=
  selectedCount before.audioStreamIndex
    (before.packets.take (before.packets.length - after.packets.length))

/-- The call is the dispatch of a loader task. -/
def Call.isAsync : Call → Bool
  | .async _ => true
  | _ => false

/-- The loader tasks dispatched so far, oldest first. -/
def SoundSource.dispatched (s : SoundSource) : List Call :=
  s.calls.filter Call.isAsync

/-- What no setup stage writes: the buffer, the exposed metadata, the counter, `swr`,
`loadingThread` and the completion flag are in `s'` as they are in `s`, and no task has
been dispatched in between. -/
def Untouched (s s' : SoundSource) : Prop :=
  s'.data = s.data ∧ s'.channels = s.channels ∧ s'.sampleRate = s.sampleRate ∧
  s'.decodedFrames = s.decodedFrames ∧ s'.swr = s.swr ∧
  s'.loadingThread = s.loadingThread ∧ s'.completionFlag = s.completionFlag ∧
  s'.dispatched = s.dispatched

/-- The source as the four stages of `loadFromFile` leave it when each of them
succeeds. -/
def setupSoundDone (av : LibAV) (s : SoundSource) : SoundSource :=
  ((((s.call .av_frame_alloc).call .avformat_open_input).setPackets av.packets).setAudioStream
    av.bestStream).call .avcodec_alloc_context3

/-- The source as the four stages of `loadSfx` leave it when each of them succeeds, the
loader having returned the blob at `blob` and left `info` in `sdt.assetInfo`. -/
def setupSfxDone (av : LibAV) (sdt : LoaderSDT) (blob : Int) (info : AssetInfo)
    (s : SoundSource) : SoundSource :=
  (((((((((s.call .av_frame_alloc).setRawSound (some blob)).setInput (some av.inputDataStart)
    { ptr := blob, size := (sdt.sizeofWaveHeader + info.size) % SIZE_MOD }).call
    (.av_malloc ioBufferSize)).call
    (.avio_alloc_context ioBufferSize
      { ptr := blob, size := (sdt.sizeofWaveHeader + info.size) % SIZE_MOD })).call
    .avformat_alloc_context).call .avformat_open_input).setPackets av.packets).setAudioStream
    av.bestStream).call .avcodec_alloc_context3

/-- The buffer holds whole interleaved frames: its length is a multiple of the channel
count. -/
def Aligned (s : SoundSource) : Prop :=
  s.data.length % s.channels = 0

/-! ## Concrete inputs -/

/-- A stereo frame of two samples per channel: channel 0 holds 0, 1 and channel 1 holds
10, 11. -/
def exFrame : AVFrame :=
  { nb_samples := 2, data := fun channel i => (10 * channel + i : Nat) }

/-- A resampler that is constructed without error and leaves two stereo samples
`0, 1, 2, 3`. -/
def exSwr : SwrOutcome :=
  { allocErr := 0, allocated := true, initialized := true, convertRet := 0,
    resampled := { nb_samples := 2, data := fun _ i => (i : Nat) } }

/-- A resampler whose allocation fails. -/
def exSwrFails : SwrOutcome :=
  { allocErr := -12, allocated := false, initialized := false, convertRet := -1,
    resampled := { nb_samples := 0, data := fun _ _ => 0 } }

/-- A packet of stream 0 that decodes to one frame. -/
def exPacket : AVPacket :=
  { stream_index := 0, sendPacket := 0, received := [{ frame := exFrame, swr := exSwr }] }

/-- A packet of another stream (stream 1). -/
def exOther : AVPacket :=
  { stream_index := 1, sendPacket := 0, received := [] }

/-- A packet of stream 0 at whose frame the resampler cannot be allocated. -/
def exPacketSwrFails : AVPacket :=
  { stream_index := 0, sendPacket := 0,
    received := [{ frame := exFrame, swr := exSwrFails }] }

/-- A fresh stereo source (selected stream 0) with the given packets unread. -/
def exSource (packets : List AVPacket) : SoundSource :=
  { SoundSource.fresh with channels := 2, packets := packets }

/-- Library answers of a load in which every setup call succeeds; the container yields
the given packets and stream 0 is selected. -/
def exLibAV (packets : List AVPacket) : LibAV :=
  { frameAlloc := true, openInput := 0, findStreamInfo := 0, bestStream := 0,
    codecAlloc := true, parametersToContext := 0, codecOpen := 0, sample_rate := 8000,
    nb_channels := 2, inputDataStart := 4096, packets := packets }

/-- A container loader that returns a blob at address 65536 for every asset, declared
size 1000 bytes and sample rate 22050, with a 44-byte wave header. -/
def exLoaderSDT : LoaderSDT :=
  { assetInfo := { size := 0, sampleRate := 0 }, sizeofWaveHeader := 44,
    load := fun _ _ => (some 65536, { size := 1000, sampleRate := 22050 }) }

/-! ## Release calls, and further concrete inputs -/

/-- The call releases a handle of the decoding context (`av_frame_free`, `av_free` of the
staging buffer, `avio_context_free`, `avformat_close_input`, `avcodec_free_context`). -/
def Call.isRelease : Call → Bool
  | .av_frame_free => true
  | .av_free_buffer => true
  | .avio_context_free => true
  | .avformat_close_input => true
  | .avcodec_free_context => true
  | _ => false

/-- The release calls made so far, oldest first. -/
def SoundSource.released (s : SoundSource) : List Call :=
  s.calls.filter Call.isRelease

/-- Fifty packets of another stream followed by one packet of the selected stream. -/
def exFiftyOthersThenOne : List AVPacket :=
  List.replicate 50 exOther ++ [exPacket]

/-- The value a call of `loadFromFile` hands back to its caller: the function is declared
`void SoundSource::loadFromFile(...)`, so nothing. -/
def loadFromFile_returns (_av : LibAV) (_streaming : Bool) (_s : SoundSource) : Unit := ()

/-- The value a call of `loadSfx` hands back to its caller: the function is declared
`void SoundSource::loadSfx(...)`, so nothing. -/
def loadSfx_returns (_av : LibAV) (_sdt : LoaderSDT) (_index : Nat) (_asWave : Bool)
    (_streaming : Bool) (_s : SoundSource) : Unit := ()

/-- Library answers of a load in which `av_frame_alloc` fails. -/
def exLibAVFrameFails : LibAV :=
  { exLibAV [exPacket] with frameAlloc := false }

/-- Library answers of a load in which `avcodec_alloc_context3` fails. -/
def exLibAVCodecAllocFails : LibAV :=
  { exLibAV [exPacket] with codecAlloc := false }

/-- Library answers of a load in which `avcodec_parameters_to_context` fails. -/
def exLibAVParametersFail : LibAV :=
  { exLibAV [exPacket] with parametersToContext := -22 }

/-- Library answers of a load in which `avcodec_open2` fails. -/
def exLibAVCodecOpenFails : LibAV :=
  { exLibAV [exPacket] with codecOpen := -22 }

/-- A resampler that is constructed without error, whose conversion of this frame fails
(`swr_convert_frame` returns `AVERROR(ENOMEM)`) after `resampled->nb_samples` was set to
1; `resampled->data[0]` reads as `7, 8`. -/
def exSwrConvertFails : SwrOutcome :=
  { allocErr := 0, allocated := true, initialized := true, convertRet := -12,
    resampled := { nb_samples := 1, data := fun _ i => (7 + i : Nat) } }

/-- A packet of stream 0 that decodes to one frame whose resample conversion fails. -/
def exPacketConvertFails : AVPacket :=
  { stream_index := 0, sendPacket := 0,
    received := [{ frame := exFrame, swr := exSwrConvertFails }] }

/-- A stereo source whose buffer already holds `5, 6`, with three packets unread: one of
another stream, one at whose frame the resampler cannot be allocated, one that decodes. -/
def exBufferedSource : SoundSource :=
  { exSource [exOther, exPacketSwrFails, exPacket] with data := [5, 6] }

/-- A packet of stream 0 for which the decoder hands back no frame. -/
def exPacketNoFrame : AVPacket :=
  { stream_index := 0, sendPacket := 0, received := [] }

/-! ## The decoding thread's operations on the packet reader, the decoder and the mutex -/

/-- What the decoding thread does, as far as the buffer's mutex is concerned: the calls
of the packet reader and of the decoder, the construction (`lock`) and destruction
(`unlock`) of `std::lock_guard<std::mutex> lock(mutex)`, and `data.push_back`. -/
inductive Op
  | av_read_frame
  | avcodec_send_packet
  | avcodec_receive_frame
  | lock
  | push_back (sample : Int)
  | unlock
deriving DecidableEq, Repr

/-- The block of `decodeFrames` that writes one frame: the guard is the first statement of
the block, the two nested loops push the samples, the guard dies at the closing brace.
```
if (receiveFrame == 0 && sendPacket == 0) {
    std::lock_guard<std::mutex> lock(mutex);
    for (...) for (...) data.push_back(sample);
}
```
-/
def writeSamplesOps (channels : Nat) (frame : AVFrame) : List Op :=
  [Op.lock] ++ (writeSamples channels frame []).map Op.push_back ++ [Op.unlock]

/-- The operations of the receive loop of `decodeFrames` for one packet; the last
`avcodec_receive_frame` is the call that returns non-zero and ends the loop. -/
def receiveFramesOps (channels : Nat) (sendPacket : Int) : List Received → List Op
  | [] => [Op.avcodec_receive_frame]
  | r :: rest =>
    Op.avcodec_receive_frame ::
      ((if sendPacket = 0 then writeSamplesOps channels r.frame else []) ++
        receiveFramesOps channels sendPacket rest)

/-- The operations of the loop of `decodeFrames(framesToDecode)`, in order.
`av_read_frame` is called when the first conjunct of the loop condition holds; at the end
of the input that call fails and ends the loop. -/
def decodeFramesOps (framesToDecode : Nat) (audioIndex : Int) (channels : Nat) :
    List AVPacket → Nat → List Op
  | [], decodedFrames =>
    if framesToDecode = 0 ∨ decodedFrames < framesToDecode then [Op.av_read_frame] else []
  | p :: rest, decodedFrames =>
    if framesToDecode = 0 ∨ decodedFrames < framesToDecode then
      Op.av_read_frame ::
        ((if p.stream_index = audioIndex then
            Op.avcodec_send_packet :: receiveFramesOps channels p.sendPacket p.received
          else []) ++
          decodeFramesOps framesToDecode audioIndex channels rest
            ((decodedFrames + 1) % SIZE_MOD))
    else []

/-- The block of `decodeAndResampleFrames` that appends one resampled frame: the guard is
constructed after `swr_convert_frame` and dies at the closing brace of the block.
```
if (receiveFrame == 0 && sendPacket == 0) {
    ...; swr_config_frame(...); if (swr_convert_frame(...) < 0) { RW_ERROR(...); }
    std::lock_guard<std::mutex> lock(mutex);
    for (...) data.push_back(...);
    av_frame_unref(resampled);
}
```
-/
def appendResampledOps (channels : Nat) (resampled : AVFrame) : List Op :=
  [Op.lock] ++ (appendResampled channels resampled []).map Op.push_back ++ [Op.unlock]

/-- The operations of the receive loop of `decodeAndResampleFrames` for one packet, up to
the early `return` if one is taken. -/
def resampleFramesOps (channels : Nat) (sendPacket : Int) : List Received → Bool → List Op
  | [], _ => [Op.avcodec_receive_frame]
  | r :: rest, swr =>
    if swr = false ∧ r.swr.allocErr < 0 then [Op.avcodec_receive_frame]
    else if swr = false ∧ r.swr.allocated = false then [Op.avcodec_receive_frame]
    else if swr = false ∧ r.swr.initialized = false then [Op.avcodec_receive_frame]
    else
      Op.avcodec_receive_frame ::
        ((if sendPacket = 0 then appendResampledOps channels r.swr.resampled else []) ++
          resampleFramesOps channels sendPacket rest true)

/-- The operations of the loop of `decodeAndResampleFrames(filePath, framesToDecode)`, in
order, up to the early `return` if one is taken (`swr` and the early return are those of
`resampleFrames`, which do not depend on the buffer). -/
def resampleLoopOps (framesToDecode : Nat) (audioIndex : Int) (channels : Nat) :
    List AVPacket → Nat → Bool → List Op
  | [], decodedFrames, _ =>
    if framesToDecode = 0 ∨ decodedFrames < framesToDecode then [Op.av_read_frame] else []
  | p :: rest, decodedFrames, swr =>
    if framesToDecode = 0 ∨ decodedFrames < framesToDecode then
      if p.stream_index = audioIndex then
        Op.av_read_frame :: Op.avcodec_send_packet ::
          (resampleFramesOps channels p.sendPacket p.received swr ++
            (if (resampleFrames channels p.sendPacket p.received [] swr).2.2 then []
             else resampleLoopOps framesToDecode audioIndex channels rest
               ((decodedFrames + 1) % SIZE_MOD)
               (resampleFrames channels p.sendPacket p.received [] swr).2.1))
      else
        Op.av_read_frame ::
          resampleLoopOps framesToDecode audioIndex channels rest
            ((decodedFrames + 1) % SIZE_MOD) swr
    else []

/-- The samples pushed by a sequence of operations, in order. -/
def pushed : List Op → List Int
  | [] => []
  | Op.push_back v :: ops => v :: pushed ops
  | _ :: ops => pushed ops

/-- The mutex discipline of a sequence of operations, starting with the mutex held or
not: a `push_back` only while the mutex is held; `av_read_frame`, `avcodec_send_packet`
and `avcodec_receive_frame` only while it is not held; `lock` only when not held and
`unlock` only when held; not held at the end. -/
def guardedFrom : Bool → List Op → Bool
  | held, [] => !held
  | held, Op.lock :: ops => !held && guardedFrom true ops
  | held, Op.unlock :: ops => held && guardedFrom false ops
  | held, Op.push_back _ :: ops => held && guardedFrom held ops
  | held, Op.av_read_frame :: ops => !held && guardedFrom held ops
  | held, Op.avcodec_send_packet :: ops => !held && guardedFrom held ops
  | held, Op.avcodec_receive_frame :: ops => !held && guardedFrom held ops

/-! ## The displayed-money increment of `IngameState::tick` -/

/-- The value of an `int32_t` computation whose mathematical result is `x` (two's
complement). -/
def wrapInt32 (x : Int) : Int := (x + 2 ^ 31) % 2 ^ 32 - 2 ^ 31

/-- The loop of the lambda `GetIncrement` and its `return`, from the state
`(difference, r, i)`:
```
while (std::abs(difference) >= 100) {
    difference /= 10;
    r = r * 10 + i;
    i++;
}
return (difference < 0) ? -r : r;
```
The division of `int32_t` truncates toward zero. -/
def GetIncrementLoop (difference r i : Int) : Int :=
  if h : 100 ≤ |difference| then
    GetIncrementLoop (difference.tdiv 10) (wrapInt32 (r * 10 + i)) (wrapInt32 (i + 1))
  else if difference < 0 then wrapInt32 (-r) else r
termination_by difference.natAbs
decreasing_by
  rw [Int.natAbs_tdiv]
  have h2 : 100 ≤ difference.natAbs := by
    have := Int.abs_eq_natAbs difference
    omega
  show difference.natAbs / 10 < difference.natAbs
  omega

/-- The lambda `GetIncrement` of `IngameState::tick`:
```
int32_t r = 1;
int32_t i = 2;
if (difference == 0) { return 0; }
while (...) { ... }
return (difference < 0) ? -r : r;
```
-/
def GetIncrement (difference : Int) : Int :=
  if difference = 0 then 0 else GetIncrementLoop difference 1 2

/-- The decimal number `12...k` made of the digits 1 to `k` (0 for `k = 0`). -/
def digits12 : Nat → Int
  | 0 => 0
  | k + 1 => digits12 k * 10 + ((k + 1 : Nat) : Int)

/-! ## Successive reads of the in-memory blob -/

/-- Successive calls `read_packet(&input, buf, r)` on one cursor, one for each request
`r` of the list in order, each into the caller's buffer `buf`; the results in call
order. -/
def readCalls (mem : Int → Nat) (buf : Nat → Nat) : InputData → List Int → List ReadResult
  | _, [] => []
  | input, r :: rest =>
    read_packet mem input buf r :: readCalls mem buf (read_packet mem input buf r).input rest

/-- The cursor the successive calls of `readCalls` leave. -/
def cursorAfter (mem : Int → Nat) (buf : Nat → Nat) : InputData → List Int → InputData
  | input, [] => input
  | input, r :: rest => cursorAfter mem buf (read_packet mem input buf r).input rest

/-- The bytes one call of `read_packet` delivered: the first `ret` bytes of the caller's
buffer (none when `ret` is not positive). -/
def ReadResult.delivered (res : ReadResult) : List Nat :=
  (List.range res.ret.toNat).map res.buf

/-- The bytes delivered by a sequence of calls, concatenated in call order. -/
def deliveredBytes (results : List ReadResult) : List Nat :=
  results.flatMap ReadResult.delivered

/-- The `n` bytes of memory from address `ptr` on. -/
def blobBytes (mem : Int → Nat) (ptr : Int) (n : Nat) : List Nat :=
  (List.range n).map fun (i : Nat) => mem (ptr + (i : Int))

/-- The calls of a sequence before the first one that returned 0. -/
def untilZero (results : List ReadResult) : List ReadResult :=
  results.takeWhile fun res => decide (res.ret ≠ 0)

/-- A memory whose byte at address `a` is `a mod 256`. -/
def exMemory : Int → Nat := fun a => (a % 256).toNat

/-! ## One update of the displayed money -/

/-- The loop of `GetIncrement` run for at most `fuel` evaluations of its condition, from
the state `(difference, r, i)`: `none` when the loop is still running after them. -/
def GetIncrementFuel : Nat → Int → Int → Int → Option Int
  | 0, _, _, _ => none
  | fuel + 1, difference, r, i =>
    if 100 ≤ |difference| then
      GetIncrementFuel fuel (difference.tdiv 10) (wrapInt32 (r * 10 + i)) (wrapInt32 (i + 1))
    else some (if difference < 0 then wrapInt32 (-r) else r)

/-- The call `std::abs(difference)` on an `int32_t`.  The absolute value of the minimum
`int32_t` is not representable and the call has no defined result there: `a` stands for
whatever it returns. -/
def absInt32 (a : Int) (x : Int) : Int := if x = -2 ^ 31 then a else |x|

/-- The lambda `GetIncrement` with the first evaluation of the loop condition written
out, `std::abs` being `absInt32 a` there; after one division by 10 the difference is not
the minimum `int32_t` any more, and the loop goes on as `GetIncrementLoop`. -/
def GetIncrementAbs (a : Int) (difference : Int) : Int :=
  if difference = 0 then 0
  else if 100 ≤ absInt32 a difference then
    GetIncrementLoop (difference.tdiv 10) (wrapInt32 (1 * 10 + 2)) (wrapInt32 (2 + 1))
  else if difference < 0 then wrapInt32 (-1) else 1

/-- One pass of the body of `while (moneyTimer >= moneyFrequency)` in
`IngameState::tick`, on the two `int32_t` members `money` and `displayedMoney`; returns
the new `displayedMoney`.
```
int32_t difference = world->state->playerInfo.money -
                     world->state->playerInfo.displayedMoney;
world->state->playerInfo.displayedMoney += GetIncrement(difference);
```
-/
def updateDisplayedMoney (a : Int) (money displayedMoney : Int) : Int :=
  wrapInt32 (displayedMoney + GetIncrementAbs a (wrapInt32 (money - displayedMoney)))

/-! ## Trace options of `rw/debug.cpp` -/

/-- The enumerator `TRACE_DEBUG = 0x1` of `enum RW_TRACE_KIND` (`debug.hpp`). -/
def TRACE_DEBUG : Nat := 0x1

/-- The enumerator `TRACE_ERROR = 0x200`. -/
def TRACE_ERROR : Nat := 0x200

/-- The enumerator `TRACE_OPT_DEFAULT = 0x800`. -/
def TRACE_OPT_DEFAULT : Nat := 0x800

/-- The enumerator `TRACE_OPT_VERBOSE = 0x1000`. -/
def TRACE_OPT_VERBOSE : Nat := 0x1000

/-- The enumerator `TRACE_OPT_NOLINENO = 0x2000`. -/
def TRACE_OPT_NOLINENO : Nat := 0x2000

/-- The values of the sixteen enumerators of `enum RW_TRACE_KIND`, in declaration order
(`TRACE_DEBUG` to `TRACE_CUSTOM2`). -/
def RW_TRACE_KIND : List Nat :=
  [0x1, 0x2, 0x4, 0x8, 0x10, 0x20, 0x40, 0x80, 0x100, 0x200, 0x400, 0x800, 0x1000, 0x2000,
   0x4000, 0x8000]

/-- Conversion of a signed value to `UINT32` (modular). -/
def toUInt32 (x : Int) : Nat := (x % 2 ^ 32).toNat

/-- The two statics of `debug.cpp`: `Current_Cmd_Opt` and the table
`static RW_TRACE_KIND Trace_opts[RW_COMPONENT_MAX]`, by index.  The table has
`RW_COMPONENT_MAX` entries (`components_list.inl`, which fixes that constant, is not part
of the sources: the functions below take it as a parameter); `Trace_opts i` is an entry
of the table only for `i < RW_COMPONENT_MAX`. -/
structure TraceState where
  Current_Cmd_Opt : Nat
  Trace_opts : Nat → Nat

/-- How a call into `debug.cpp` ends: it returns, or an `RW_ASSERT_THAT` fails
(`RW_Assertion_Failure_Print` ends the process with `exit(EXIT_ASSERTION)`), or it reads
or writes `Trace_opts[index]` outside the table. -/
inductive TraceResult (α : Type)
  | returns (value : α)
  | assertionFailure
  | outOfBounds (index : Int)

/-- The statics as the program starts: `Current_Cmd_Opt = TRACE_ERROR` and a
zero-initialised table. -/
def TraceState.initial : TraceState :=
  { Current_Cmd_Opt := TRACE_ERROR, Trace_opts := fun _ => 0 }

/-- The local `res_opts` of `Set_tracing_option` and `Set_mod_tracing_option` after
```
RW_TRACE_KIND res_opts = mopts;
if (mopts == TRACE_OPT_DEFAULT || mopts == TRACE_OPT_NOLINENO) {
    res_opts = TRACE_ERROR;
} else if (mopts == TRACE_OPT_VERBOSE) {
    res_opts = static_cast<RW_TRACE_KIND>(0x7fffffff);
}
```
-/
def res_opts (mopts : Nat) : Nat :=
  if mopts = TRACE_OPT_DEFAULT ∨ mopts = TRACE_OPT_NOLINENO then TRACE_ERROR
  else if mopts = TRACE_OPT_VERBOSE then 0x7fffffff
  else mopts

/-- The function `Get_tracing_level(whole)`; `releaseMode` says whether `Release_Mode` is
defined, in which case `RW_ASSERT_THAT(a, b)` is `((void) 1)`.
```
INT32 outcome = static_cast<INT32>(whole);
RW_ASSERT_THAT(outcome < RW_COMPONENT_MAX, ...);
RW_ASSERT_THAT(outcome >= 0, ...);
return Trace_opts[outcome];
```
-/
def Get_tracing_level (RW_COMPONENT_MAX : Nat) (releaseMode : Bool) (t : TraceState)
    (whole : Int) : TraceResult Nat :=
  if releaseMode = false ∧ ¬ (whole < (RW_COMPONENT_MAX : Int)) then .assertionFailure
  else if releaseMode = false ∧ ¬ (0 ≤ whole) then .assertionFailure
  else if 0 ≤ whole ∧ whole < (RW_COMPONENT_MAX : Int) then .returns (t.Trace_opts whole.toNat)
  else .outOfBounds whole

/-- The function `Tracing(tl, tk)`:
```
RW_TRACE_KIND lvl = Get_tracing_level(tl);
return !!(lvl & tk);
```
-/
def Tracing (RW_COMPONENT_MAX : Nat) (releaseMode : Bool) (t : TraceState) (tl : Int)
    (tk : Nat) : TraceResult Bool :=
  match Get_tracing_level RW_COMPONENT_MAX releaseMode t tl with
  | .returns lvl => .returns (decide (lvl &&& tk ≠ 0))
  | .assertionFailure => .assertionFailure
  | .outOfBounds index => .outOfBounds index

/-- The function `Set_tracing_option(mopts)`:
```
Current_Cmd_Opt = res_opts;
UINT32 max = RW_COMPONENT_MAX;
for (UINT32 i = 0; i < max; i++) {
    Trace_opts[i] = res_opts;
}
```
-/
def Set_tracing_option (RW_COMPONENT_MAX : Nat) (mopts : Nat) (t : TraceState) : TraceState :=
  { Current_Cmd_Opt := res_opts mopts
    Trace_opts := (List.range (toUInt32 (RW_COMPONENT_MAX : Int))).foldl
      (fun table i => Function.update table i (res_opts mopts)) t.Trace_opts }

/-- The function `Set_mod_tracing_option(comp, desired)`:
```
UINT32 max = RW_COMPONENT_MAX;
RW_ASSERT_THAT(comp <= max, ...);
Trace_opts[comp] = res_opts;
```
The comparison converts `comp` to `UINT32`; the write is inside the table for
`0 ≤ comp < RW_COMPONENT_MAX`. -/
def Set_mod_tracing_option (RW_COMPONENT_MAX : Nat) (releaseMode : Bool) (t : TraceState)
    (comp : Int) (desired : Nat) : TraceResult TraceState :=
  if releaseMode = false ∧ ¬ (toUInt32 comp ≤ toUInt32 (RW_COMPONENT_MAX : Int)) then
    .assertionFailure
  else if 0 ≤ comp ∧ comp < (RW_COMPONENT_MAX : Int) then
    .returns { t with Trace_opts := Function.update t.Trace_opts comp.toNat (res_opts desired) }
  else .outOfBounds comp

/-- Modelled from the spec: `norm(m)` of the claim on `Set_tracing_option`, "TRACE_ERROR
for m = TRACE_OPT_DEFAULT or TRACE_OPT_NOLINENO, 0x7fffffff for m = TRACE_OPT_VERBOSE,
and m otherwise". -/
def normTraceOption (m : Nat) : Nat :=
  if m = TRACE_OPT_DEFAULT then TRACE_ERROR
  else if m = TRACE_OPT_NOLINENO then TRACE_ERROR
  else if m = TRACE_OPT_VERBOSE then 2147483647
  else m

/-- Two values share a set bit. -/
def sharesBit (a b : Nat) : Prop := ∃ i : Nat, a.testBit i = true ∧ b.testBit i = true

/-- Whether the call passed its `RW_ASSERT_THAT`s (it returned or went on to the table
access). -/
def TraceResult.passedAssertions {α : Type} : TraceResult α → Bool
  | .returns _ => true
  | .assertionFailure => false
  | .outOfBounds _ => true

/-! ## Basic facts about the decode loops -/

theorem foldl_push_eq {α β : Type} (f : α → β) (l : List α) (init : List β) :
    l.foldl (fun d x => d ++ [f x]) init = init ++ l.map f := by
  induction l generalizing init with
  | nil => simp
  | cons x xs ih => simp [ih]

theorem foldl_extend_eq {α β : Type} (g : α → List β) (l : List α) (init : List β) :
    l.foldl (fun d x => d ++ g x) init = init ++ l.flatMap g := by
  induction l generalizing init with
  | nil => simp
  | cons x xs ih => simp [ih]

theorem writeSamples_eq (channels : Nat) (frame : AVFrame) (data : List Int) :
    writeSamples channels frame data = data ++ interleave channels frame := by
  unfold writeSamples interleave
  have h : (fun (d : List Int) (i : Nat) =>
      (List.range channels).foldl (fun d channel => d ++ [frame.data channel i]) d)
      = fun d i => d ++ (List.range channels).map fun channel => frame.data channel i := by
    funext d i
    exact foldl_push_eq (fun channel => frame.data channel i) _ d
  rw [h]
  exact foldl_extend_eq _ _ data

theorem appendResampled_eq (channels : Nat) (resampled : AVFrame) (data : List Int) :
    appendResampled channels resampled data = data ++ resampledSamples channels resampled := by
  unfold appendResampled resampledSamples
  exact foldl_push_eq _ _ data

theorem length_flatMap_const {α β : Type} (g : α → List β) (c : Nat)
    (h : ∀ x, (g x).length = c) (l : List α) : (l.flatMap g).length = l.length * c := by
  induction l with
  | nil => simp
  | cons x xs ih => simp [ih, h, Nat.succ_mul, Nat.add_comm]

theorem length_interleave (channels : Nat) (frame : AVFrame) :
    (interleave channels frame).length = frame.nb_samples * channels := by
  unfold interleave
  rw [length_flatMap_const _ channels (fun i => by simp)]
  simp

theorem receiveFrames_eq (channels : Nat) (sendPacket : Int) (received : List Received)
    (data : List Int) :
    receiveFrames channels sendPacket received data
      = data ++ (if sendPacket = 0 then received else []).flatMap
          fun r => interleave channels r.frame := by
  induction received generalizing data with
  | nil => simp [receiveFrames]
  | cons r rest ih =>
    rw [receiveFrames, ih]
    by_cases h : sendPacket = 0
    · simp [h, writeSamples_eq]
    · simp [h]

theorem decodeFramesLoop_step_data (audioIndex : Int) (channels : Nat) (p : AVPacket)
    (data : List Int) :
    (if p.stream_index = audioIndex then receiveFrames channels p.sendPacket p.received data
      else data) = data ++ packetSamples audioIndex channels p := by
  unfold packetSamples AVPacket.decoded
  by_cases h : p.stream_index = audioIndex
  · simp [h, receiveFrames_eq]
  · simp [h]

/-- With a positive bound `n`, the loop of `decodeFrames` reads `n - decodedFrames` packets
(none when the counter has reached `n`), or all of them when there are fewer. -/
theorem decodeFramesLoop_pos (n : Nat) (audioIndex : Int) (channels : Nat) (hn : 0 < n)
    (hN : n < SIZE_MOD) (packets : List AVPacket) (c : Nat) (data : List Int) :
    decodeFramesLoop n audioIndex channels packets c data
      = { packets := packets.drop (n - c)
          decodedFrames := c + min (n - c) packets.length
          data := data ++ streamSamples audioIndex channels (packets.take (n - c)) } := by
  induction packets generalizing c data with
  | nil => simp [decodeFramesLoop, streamSamples]
  | cons p rest ih =>
    rw [decodeFramesLoop, decodeFramesLoop_step_data]
    by_cases hc : c < n
    · have h1 : (c + 1) % SIZE_MOD = c + 1 := Nat.mod_eq_of_lt (by omega)
      have h2 : n - c = (n - (c + 1)) + 1 := by omega
      rw [if_pos (Or.inr hc), h1, ih, h2]
      simp only [List.drop_succ_cons, List.take_succ_cons, List.length_cons, streamSamples,
        List.flatMap_cons, List.append_assoc, Decoding.mk.injEq, true_and, and_true]
      omega
    · have h0 : n - c = 0 := by omega
      have hg : ¬ (n = 0 ∨ c < n) := by omega
      rw [if_neg hg, h0]
      simp [streamSamples]

/-- With bound 0 the loop of `decodeFrames` reads every packet. -/
theorem decodeFramesLoop_zero (audioIndex : Int) (channels : Nat) (packets : List AVPacket)
    (c : Nat) (data : List Int) :
    (decodeFramesLoop 0 audioIndex channels packets c data).packets = [] ∧
    (decodeFramesLoop 0 audioIndex channels packets c data).data
      = data ++ streamSamples audioIndex channels packets := by
  induction packets generalizing c data with
  | nil => simp [decodeFramesLoop, streamSamples]
  | cons p rest ih =>
    rw [decodeFramesLoop, decodeFramesLoop_step_data, if_pos (Or.inl rfl)]
    refine ⟨(ih _ _).1, ?_⟩
    rw [(ih _ _).2]
    simp [streamSamples]

theorem resampleFrames_ready (channels : Nat) (sendPacket : Int) (received : List Received)
    (h : ∀ r ∈ received, r.swrReady) (data : List Int) (swr : Bool) :
    (resampleFrames channels sendPacket received data swr).1
      = data ++ (if sendPacket = 0 then received else []).flatMap
          (fun r => resampledSamples channels r.swr.resampled) ∧
    (resampleFrames channels sendPacket received data swr).2.2 = false := by
  induction received generalizing data swr with
  | nil => simp [resampleFrames]
  | cons r rest ih =>
    obtain ⟨h1, h2, h3⟩ := h r (List.mem_cons_self _ _)
    have hrest : ∀ r ∈ rest, r.swrReady := fun x hx => h x (List.mem_cons_of_mem _ hx)
    have e1 : ¬ (swr = false ∧ r.swr.allocErr < 0) := by omega
    have e2 : ¬ (swr = false ∧ r.swr.allocated = false) := by simp [h2]
    have e3 : ¬ (swr = false ∧ r.swr.initialized = false) := by simp [h3]
    rw [resampleFrames, if_neg e1, if_neg e2, if_neg e3]
    refine ⟨?_, (ih hrest _ _).2⟩
    rw [(ih hrest _ _).1]
    by_cases hs : sendPacket = 0
    · simp [hs, appendResampled_eq]
    · simp [hs]

/-- While the resampler can be constructed, the loop of `decodeAndResampleFrames` with a
positive bound behaves like that of `decodeFrames` and does not return early. -/
theorem resampleLoop_pos (n : Nat) (audioIndex : Int) (channels : Nat) (hn : 0 < n)
    (hN : n < SIZE_MOD) (packets : List AVPacket) (h : resamplerReady audioIndex packets)
    (c : Nat) (data : List Int) (swr : Bool) :
    (resampleLoop n audioIndex channels packets c data swr).packets = packets.drop (n - c) ∧
    (resampleLoop n audioIndex channels packets c data swr).decodedFrames
      = c + min (n - c) packets.length ∧
    (resampleLoop n audioIndex channels packets c data swr).data
      = data ++ streamResampled audioIndex channels (packets.take (n - c)) ∧
    (resampleLoop n audioIndex channels packets c data swr).aborted = false := by
  induction packets generalizing c data swr with
  | nil => simp [resampleLoop, streamResampled]
  | cons p rest ih =>
    have hrest : resamplerReady audioIndex rest :=
      fun q hq => h q (List.mem_cons_of_mem _ hq)
    rw [resampleLoop]
    by_cases hc : c < n
    · have h1 : (c + 1) % SIZE_MOD = c + 1 := Nat.mod_eq_of_lt (by omega)
      have h2 : n - c = (n - (c + 1)) + 1 := by omega
      rw [if_pos (Or.inr hc), h1]
      by_cases hp : p.stream_index = audioIndex
      · have hr := resampleFrames_ready channels p.sendPacket p.received
          (h p (List.mem_cons_self _ _) hp) data swr
        rw [if_pos hp]
        simp only [hr.2, Bool.false_eq_true, if_false]
        obtain ⟨i1, i2, i3, i4⟩ := ih hrest (c + 1)
          (resampleFrames channels p.sendPacket p.received data swr).1
          (resampleFrames channels p.sendPacket p.received data swr).2.1
        refine ⟨?_, ?_, ?_, i4⟩
        · rw [i1, h2, List.drop_succ_cons]
        · rw [i2, List.length_cons]; omega
        · rw [i3, hr.1, h2, List.take_succ_cons]
          simp [streamResampled, packetResampled, AVPacket.decoded, hp]
      · rw [if_neg hp]
        obtain ⟨i1, i2, i3, i4⟩ := ih hrest (c + 1) data swr
        refine ⟨?_, ?_, ?_, i4⟩
        · rw [i1, h2, List.drop_succ_cons]
        · rw [i2, List.length_cons]; omega
        · rw [i3, h2, List.take_succ_cons]
          simp [streamResampled, packetResampled, hp]
    · have h0 : n - c = 0 := by omega
      have hg : ¬ (n = 0 ∨ c < n) := by omega
      rw [if_neg hg, h0]
      simp [streamResampled]

/-- While the resampler can be constructed, the loop of `decodeAndResampleFrames` with
bound 0 reads every packet and does not return early. -/
theorem resampleLoop_zero (audioIndex : Int) (channels : Nat) (packets : List AVPacket)
    (h : resamplerReady audioIndex packets) (c : Nat) (data : List Int) (swr : Bool) :
    (resampleLoop 0 audioIndex channels packets c data swr).packets = [] ∧
    (resampleLoop 0 audioIndex channels packets c data swr).data
      = data ++ streamResampled audioIndex channels packets ∧
    (resampleLoop 0 audioIndex channels packets c data swr).aborted = false := by
  induction packets generalizing c data swr with
  | nil => simp [resampleLoop, streamResampled]
  | cons p rest ih =>
    have hrest : resamplerReady audioIndex rest :=
      fun q hq => h q (List.mem_cons_of_mem _ hq)
    rw [resampleLoop, if_pos (Or.inl rfl)]
    by_cases hp : p.stream_index = audioIndex
    · have hr := resampleFrames_ready channels p.sendPacket p.received
        (h p (List.mem_cons_self _ _) hp) data swr
      rw [if_pos hp]
      simp only [hr.2, Bool.false_eq_true, if_false]
      obtain ⟨i1, i2, i3⟩ := ih hrest ((c + 1) % SIZE_MOD)
        (resampleFrames channels p.sendPacket p.received data swr).1
        (resampleFrames channels p.sendPacket p.received data swr).2.1
      refine ⟨i1, ?_, i3⟩
      rw [i2, hr.1]
      simp [streamResampled, packetResampled, AVPacket.decoded, hp]
    · rw [if_neg hp]
      obtain ⟨i1, i2, i3⟩ := ih hrest ((c + 1) % SIZE_MOD) data swr
      refine ⟨i1, ?_, i3⟩
      rw [i2]
      simp [streamResampled, packetResampled, hp]

theorem drop_min_length {α : Type} (n : Nat) (l : List α) :
    l.drop (min n l.length) = l.drop n := by
  by_cases h : n ≤ l.length
  · rw [Nat.min_eq_left h]
  · have h2 : l.length ≤ n := by omega
    rw [Nat.min_eq_right h2, List.drop_length, List.drop_eq_nil_of_le h2]

theorem take_min_length {α : Type} (n : Nat) (l : List α) :
    l.take (min n l.length) = l.take n := by
  by_cases h : n ≤ l.length
  · rw [Nat.min_eq_left h]
  · have h2 : l.length ≤ n := by omega
    rw [Nat.min_eq_right h2, List.take_length, List.take_of_length_le h2]

theorem getElem?_flatMap_range {β : Type} (g : Nat → List β) (c : Nat)
    (hg : ∀ i, (g i).length = c) (n i k : Nat) (hi : i < n) (hk : k < c) :
    ((List.range n).flatMap g)[i * c + k]? = (g i)[k]? := by
  induction n with
  | zero => omega
  | succ m ih =>
    rw [List.range_succ, List.flatMap_append]
    have hlen : ((List.range m).flatMap g).length = m * c := by
      rw [length_flatMap_const g c hg]; simp
    by_cases him : i < m
    · have hlt : i * c + k < ((List.range m).flatMap g).length := by
        rw [hlen]
        calc i * c + k < i * c + c := by omega
          _ = (i + 1) * c := by ring
          _ ≤ m * c := Nat.mul_le_mul_right c him
      rw [List.getElem?_append_left hlt]
      exact ih him
    · have hie : i = m := by omega
      subst hie
      have hge : ((List.range i).flatMap g).length ≤ i * c + k := by rw [hlen]; omega
      rw [List.getElem?_append_right hge, hlen]
      simp

/-! ## Alignment of the buffer to the channel count -/

theorem writeSamples_aligned (channels : Nat) (frame : AVFrame) (data : List Int)
    (h : data.length % channels = 0) :
    (writeSamples channels frame data).length % channels = 0 := by
  rw [writeSamples_eq, List.length_append, length_interleave, Nat.add_mul_mod_self_right]
  exact h

theorem appendResampled_aligned (channels : Nat) (resampled : AVFrame) (data : List Int)
    (h : data.length % channels = 0) :
    (appendResampled channels resampled data).length % channels = 0 := by
  rw [appendResampled_eq, List.length_append]
  unfold resampledSamples
  rw [List.length_map, List.length_range, Nat.add_mul_mod_self_right]
  exact h

theorem receiveFrames_aligned (channels : Nat) (sendPacket : Int) (received : List Received)
    (data : List Int) (h : data.length % channels = 0) :
    (receiveFrames channels sendPacket received data).length % channels = 0 := by
  induction received generalizing data with
  | nil => simpa [receiveFrames] using h
  | cons r rest ih =>
    rw [receiveFrames]
    apply ih
    split
    · exact writeSamples_aligned channels r.frame data h
    · exact h

theorem resampleFrames_aligned (channels : Nat) (sendPacket : Int) (received : List Received)
    (data : List Int) (swr : Bool) (h : data.length % channels = 0) :
    (resampleFrames channels sendPacket received data swr).1.length % channels = 0 := by
  induction received generalizing data swr with
  | nil => simpa [resampleFrames] using h
  | cons r rest ih =>
    rw [resampleFrames]
    split
    · exact h
    · split
      · exact h
      · split
        · exact h
        · apply ih
          split
          · exact appendResampled_aligned channels _ data h
          · exact h

theorem decodeFramesLoop_aligned (n : Nat) (audioIndex : Int) (channels : Nat)
    (packets : List AVPacket) (c : Nat) (data : List Int) (h : data.length % channels = 0) :
    (decodeFramesLoop n audioIndex channels packets c data).data.length % channels = 0 := by
  induction packets generalizing c data with
  | nil => simpa [decodeFramesLoop] using h
  | cons p rest ih =>
    rw [decodeFramesLoop]
    split
    · apply ih
      split
      · exact receiveFrames_aligned channels _ _ data h
      · exact h
    · exact h

theorem resampleLoop_aligned (n : Nat) (audioIndex : Int) (channels : Nat)
    (packets : List AVPacket) (c : Nat) (data : List Int) (swr : Bool)
    (h : data.length % channels = 0) :
    (resampleLoop n audioIndex channels packets c data swr).data.length % channels = 0 := by
  induction packets generalizing c data swr with
  | nil => simpa [resampleLoop] using h
  | cons p rest ih =>
    have hr := resampleFrames_aligned channels p.sendPacket p.received data swr h
    rw [resampleLoop]
    split
    · split
      · simp only []
        split
        · exact hr
        · exact ih _ _ _ hr
      · exact ih _ _ _ h
    · exact h

theorem decodeFrames_aligned (n : Nat) (s : SoundSource)
    (h : s.data.length % s.channels = 0) :
    (decodeFrames n s).data.length % (decodeFrames n s).channels = 0 :=
  decodeFramesLoop_aligned n _ _ _ _ _ h

theorem decodeAndResampleFrames_aligned (n : Nat) (s : SoundSource)
    (h : s.data.length % s.channels = 0) :
    (decodeAndResampleFrames n s).data.length % (decodeAndResampleFrames n s).channels = 0 :=
  resampleLoop_aligned n _ _ _ _ _ _ h

/-! ## What the setup stages leave untouched -/

theorem Untouched.refl (s : SoundSource) : Untouched s s :=
  ⟨rfl, rfl, rfl, rfl, rfl, rfl, rfl, rfl⟩

theorem Untouched.trans {a b c : SoundSource} (h1 : Untouched a b) (h2 : Untouched b c) :
    Untouched a c := by
  obtain ⟨a1, a2, a3, a4, a5, a6, a7, a8⟩ := h1
  obtain ⟨b1, b2, b3, b4, b5, b6, b7, b8⟩ := h2
  exact ⟨b1.trans a1, b2.trans a2, b3.trans a3, b4.trans a4, b5.trans a5, b6.trans a6,
    b7.trans a7, b8.trans a8⟩

theorem dispatched_call (s : SoundSource) (c : Call) :
    (s.call c).dispatched = s.dispatched ++ (if c.isAsync then [c] else []) := by
  unfold SoundSource.dispatched SoundSource.call
  rw [List.filter_append]
  cases h : c.isAsync <;> simp [List.filter, h]

theorem Untouched.call {s t : SoundSource} (h : Untouched s t) (c : Call)
    (hc : c.isAsync = false) : Untouched s (t.call c) :=
  h.trans ⟨rfl, rfl, rfl, rfl, rfl, rfl, rfl, by rw [dispatched_call, hc]; simp⟩

theorem Untouched.setPackets {s t : SoundSource} (h : Untouched s t) (ps : List AVPacket) :
    Untouched s (t.setPackets ps) :=
  h.trans ⟨rfl, rfl, rfl, rfl, rfl, rfl, rfl, rfl⟩

theorem Untouched.setAudioStream {s t : SoundSource} (h : Untouched s t) (i : Int) :
    Untouched s (t.setAudioStream i) :=
  h.trans ⟨rfl, rfl, rfl, rfl, rfl, rfl, rfl, rfl⟩

theorem Untouched.setRawSound {s t : SoundSource} (h : Untouched s t) (r : Option Int) :
    Untouched s (t.setRawSound r) :=
  h.trans ⟨rfl, rfl, rfl, rfl, rfl, rfl, rfl, rfl⟩

theorem Untouched.setInput {s t : SoundSource} (h : Untouched s t) (d : Option Int)
    (i : InputData) : Untouched s (t.setInput d i) :=
  h.trans ⟨rfl, rfl, rfl, rfl, rfl, rfl, rfl, rfl⟩

theorem allocateAudioFrame_untouched (av : LibAV) (s : SoundSource) :
    Untouched s (allocateAudioFrame av s).2 := by
  unfold allocateAudioFrame
  split
  · exact (Untouched.refl s).call _ (by rfl)
  · exact Untouched.refl s

theorem allocateFormatContext_untouched (av : LibAV) (s : SoundSource) :
    Untouched s (allocateFormatContext av s).2 := by
  unfold allocateFormatContext
  split
  · exact (Untouched.refl s).call _ (by rfl)
  · exact ((Untouched.refl s).call _ (by rfl)).setPackets _

theorem prepareFormatContextSfx_untouched (av : LibAV) (sdt : LoaderSDT) (index : Nat)
    (asWave : Bool) (s : SoundSource) :
    Untouched s (prepareFormatContextSfx av sdt index asWave s).2.1 := by
  have h0 : ∀ (b : Int) (i : InputData), Untouched s
      (((((s.setRawSound (some b)).setInput (some av.inputDataStart) i).call
        (.av_malloc ioBufferSize)).call (.avio_alloc_context ioBufferSize i)).call
        .avformat_alloc_context) :=
    fun _ _ => (((((Untouched.refl s).setRawSound _).setInput _ _).call _ (by rfl)).call _
      (by rfl)).call _ (by rfl)
  unfold prepareFormatContextSfx
  split
  · exact ((Untouched.refl s).setRawSound _).call _ (by rfl)
  · simp only []
    split
    · exact (((h0 _ _).call _ (by rfl)).call _ (by rfl)).call _ (by rfl)
    · exact ((h0 _ _).call _ (by rfl)).setPackets _

theorem findAudioStream_untouched (av : LibAV) (s : SoundSource) :
    Untouched s (findAudioStream av s).2 := by
  unfold findAudioStream
  split_ifs
  · exact ((Untouched.refl s).call _ (by rfl)).call _ (by rfl)
  · exact ((Untouched.refl s).call _ (by rfl)).call _ (by rfl)
  · exact (Untouched.refl s).setAudioStream _

theorem findAudioStreamSfx_untouched (av : LibAV) (s : SoundSource) :
    Untouched s (findAudioStreamSfx av s).2 := by
  unfold findAudioStreamSfx
  split_ifs
  · exact ((((Untouched.refl s).call _ (by rfl)).call _ (by rfl)).call _ (by rfl)).call _ (by rfl)
  · exact ((((Untouched.refl s).call _ (by rfl)).call _ (by rfl)).call _ (by rfl)).call _ (by rfl)
  · exact (Untouched.refl s).setAudioStream _

theorem prepareCodecContext_untouched (av : LibAV) (s : SoundSource) :
    Untouched s (prepareCodecContext av s).2 := by
  unfold prepareCodecContext
  split_ifs
  · exact ((Untouched.refl s).call _ (by rfl)).call _ (by rfl)
  · exact (((Untouched.refl s).call _ (by rfl)).call _ (by rfl)).call _ (by rfl)
  · exact (((Untouched.refl s).call _ (by rfl)).call _ (by rfl)).call _ (by rfl)
  · exact (Untouched.refl s).call _ (by rfl)

theorem prepareCodecContextSfx_untouched (av : LibAV) (s : SoundSource) :
    Untouched s (prepareCodecContextSfx av s).2 := by
  unfold prepareCodecContextSfx
  split_ifs
  · exact ((((Untouched.refl s).call _ (by rfl)).call _ (by rfl)).call _ (by rfl)).call _ (by rfl)
  · exact (((((Untouched.refl s).call _ (by rfl)).call _ (by rfl)).call _ (by rfl)).call _
      (by rfl)).call _ (by rfl)
  · exact (((((Untouched.refl s).call _ (by rfl)).call _ (by rfl)).call _ (by rfl)).call _
      (by rfl)).call _ (by rfl)
  · exact (Untouched.refl s).call _ (by rfl)

theorem setupSound_untouched (av : LibAV) (s : SoundSource) :
    Untouched s (setupSound av s).2 := by
  have h1 := allocateAudioFrame_untouched av s
  have h2 := h1.trans (allocateFormatContext_untouched av (allocateAudioFrame av s).2)
  have h3 := h2.trans (findAudioStream_untouched av _)
  have h4 := h3.trans (prepareCodecContext_untouched av _)
  unfold setupSound prepareCodecContextWrap
  simp only []
  split_ifs
  · exact h1
  · exact h2
  · exact h3
  · exact h4

theorem setupSfx_untouched (av : LibAV) (sdt : LoaderSDT) (index : Nat) (asWave : Bool)
    (s : SoundSource) : Untouched s (setupSfx av sdt index asWave s).2.1 := by
  have h1 := allocateAudioFrame_untouched av s
  have h2 := h1.trans
    (prepareFormatContextSfx_untouched av sdt index asWave (allocateAudioFrame av s).2)
  have h3 := h2.trans (findAudioStreamSfx_untouched av _)
  have h4 := h3.trans (prepareCodecContextSfx_untouched av _)
  unfold setupSfx prepareCodecContextSfxWrap
  simp only []
  split_ifs
  · exact h1
  · exact h2
  · exact h3
  · exact h4

theorem allocateAudioFrame_ok (av : LibAV) (s : SoundSource)
    (h : (allocateAudioFrame av s).1 = true) :
    (allocateAudioFrame av s).2 = s.call .av_frame_alloc := by
  unfold allocateAudioFrame at *
  split at h
  · simp [*]
  · simp at h

theorem allocateFormatContext_ok (av : LibAV) (s : SoundSource)
    (h : (allocateFormatContext av s).1 = true) :
    (allocateFormatContext av s).2 = (s.call .avformat_open_input).setPackets av.packets := by
  unfold allocateFormatContext at *
  split at h
  · simp at h
  · simp [*]

theorem findAudioStream_ok (av : LibAV) (s : SoundSource)
    (h : (findAudioStream av s).1 = true) :
    (findAudioStream av s).2 = s.setAudioStream av.bestStream := by
  unfold findAudioStream at *
  split_ifs at h ⊢
  rfl

theorem findAudioStreamSfx_ok (av : LibAV) (s : SoundSource)
    (h : (findAudioStreamSfx av s).1 = true) :
    (findAudioStreamSfx av s).2 = s.setAudioStream av.bestStream := by
  unfold findAudioStreamSfx at *
  split_ifs at h ⊢
  rfl

theorem prepareCodecContext_ok (av : LibAV) (s : SoundSource)
    (h : (prepareCodecContext av s).1 = true) :
    (prepareCodecContext av s).2 = s.call .avcodec_alloc_context3 := by
  unfold prepareCodecContext at *
  split_ifs at h ⊢
  rfl

theorem prepareCodecContextSfx_ok (av : LibAV) (s : SoundSource)
    (h : (prepareCodecContextSfx av s).1 = true) :
    (prepareCodecContextSfx av s).2 = s.call .avcodec_alloc_context3 := by
  unfold prepareCodecContextSfx at *
  split_ifs at h ⊢
  rfl

theorem prepareFormatContextSfx_ok (av : LibAV) (sdt : LoaderSDT) (index : Nat)
    (asWave : Bool) (s : SoundSource)
    (h : (prepareFormatContextSfx av sdt index asWave s).1 = true) :
    ∃ blob, (sdt.load index asWave).1 = some blob ∧
      (prepareFormatContextSfx av sdt index asWave s).2.1
        = ((((((s.setRawSound (some blob)).setInput (some av.inputDataStart)
            { ptr := blob,
              size := (sdt.sizeofWaveHeader + (sdt.load index asWave).2.size) % SIZE_MOD }).call
            (.av_malloc ioBufferSize)).call
            (.avio_alloc_context ioBufferSize
              { ptr := blob,
                size := (sdt.sizeofWaveHeader + (sdt.load index asWave).2.size)
                  % SIZE_MOD })).call
            .avformat_alloc_context).call .avformat_open_input).setPackets av.packets ∧
      (prepareFormatContextSfx av sdt index asWave s).2.2.assetInfo
        = (sdt.load index asWave).2 := by
  unfold prepareFormatContextSfx LoaderSDT.loadToMemory at *
  cases hl : (sdt.load index asWave).1 with
  | none =>
    rw [hl] at h
    simp at h
  | some blob =>
    refine ⟨blob, rfl, ?_⟩
    rw [hl] at h
    simp only [] at h ⊢
    split_ifs at h ⊢
    exact ⟨rfl, rfl⟩

theorem setupSound_ok (av : LibAV) (s : SoundSource) (h : (setupSound av s).1 = true) :
    (setupSound av s).2 = setupSoundDone av s := by
  unfold setupSound prepareCodecContextWrap at *
  simp only [] at h ⊢
  by_cases c1 : (allocateAudioFrame av s).1 = false
  · rw [if_pos c1, c1] at h; simp at h
  rw [if_neg c1] at h ⊢
  have e1 := allocateAudioFrame_ok av s (by simpa using c1)
  by_cases c2 : (allocateFormatContext av (allocateAudioFrame av s).2).1 = false
  · rw [if_pos c2, c2] at h; simp at h
  rw [if_neg c2] at h ⊢
  have e2 := allocateFormatContext_ok av _ (by simpa using c2)
  by_cases c3 : (findAudioStream av
      (allocateFormatContext av (allocateAudioFrame av s).2).2).1 = false
  · rw [if_pos c3, c3] at h; simp at h
  rw [if_neg c3] at h ⊢
  have e3 := findAudioStream_ok av _ (by simpa using c3)
  rw [prepareCodecContext_ok av _ h, e3, e2, e1]
  rfl

theorem setupSfx_ok (av : LibAV) (sdt : LoaderSDT) (index : Nat) (asWave : Bool)
    (s : SoundSource) (h : (setupSfx av sdt index asWave s).1 = true) :
    ∃ blob, (sdt.load index asWave).1 = some blob ∧
      (setupSfx av sdt index asWave s).2.1
        = setupSfxDone av sdt blob (sdt.load index asWave).2 s ∧
      (setupSfx av sdt index asWave s).2.2.assetInfo = (sdt.load index asWave).2 := by
  unfold setupSfx prepareCodecContextSfxWrap at *
  simp only [] at h ⊢
  by_cases c1 : (allocateAudioFrame av s).1 = false
  · rw [if_pos c1] at h; simp at h
  rw [if_neg c1] at h ⊢
  have e1 := allocateAudioFrame_ok av s (by simpa using c1)
  by_cases c2 : (prepareFormatContextSfx av sdt index asWave
      (allocateAudioFrame av s).2).1 = false
  · rw [if_pos c2, c2] at h; simp at h
  rw [if_neg c2] at h ⊢
  obtain ⟨blob, hb, e2, e2'⟩ := prepareFormatContextSfx_ok av sdt index asWave _
    (by simpa using c2)
  refine ⟨blob, hb, ?_⟩
  by_cases c3 : (findAudioStreamSfx av
      (prepareFormatContextSfx av sdt index asWave (allocateAudioFrame av s).2).2.1).1 = false
  · rw [if_pos c3] at h; simp at h
  rw [if_neg c3] at h ⊢
  have e3 := findAudioStreamSfx_ok av _ (by simpa using c3)
  simp only [] at h ⊢
  rw [prepareCodecContextSfx_ok av _ h, e3, e2]
  rw [e1] at e2' ⊢
  exact ⟨rfl, e2'⟩

/-! ## The decode calls on a source, and the two loads after a successful setup -/

theorem decodeFrames_pos (n : Nat) (s : SoundSource) (hn : 0 < n) (hN : n < SIZE_MOD) :
    (decodeFrames n s).packets = s.packets.drop (n - s.decodedFrames) ∧
    (decodeFrames n s).decodedFrames
      = s.decodedFrames + min (n - s.decodedFrames) s.packets.length ∧
    (decodeFrames n s).data = s.data ++
      streamSamples s.audioStreamIndex s.channels (s.packets.take (n - s.decodedFrames)) := by
  simp only [decodeFrames, decodeFramesLoop_pos n _ _ hn hN, and_self]

theorem decodeFrames_zero (s : SoundSource) :
    (decodeFrames 0 s).packets = [] ∧
    (decodeFrames 0 s).data
      = s.data ++ streamSamples s.audioStreamIndex s.channels s.packets :=
  decodeFramesLoop_zero s.audioStreamIndex s.channels s.packets s.decodedFrames s.data

theorem streamSamples_take_drop (audioIndex : Int) (channels k : Nat)
    (packets : List AVPacket) :
    streamSamples audioIndex channels (packets.take k) ++
      streamSamples audioIndex channels (packets.drop k)
      = streamSamples audioIndex channels packets := by
  unfold streamSamples
  rw [← List.flatMap_append, List.take_append_drop]

theorem streamResampled_take_drop (audioIndex : Int) (channels k : Nat)
    (packets : List AVPacket) :
    streamResampled audioIndex channels (packets.take k) ++
      streamResampled audioIndex channels (packets.drop k)
      = streamResampled audioIndex channels packets := by
  unfold streamResampled
  rw [← List.flatMap_append, List.take_append_drop]

/-- Preload (`decodeFrames(n)`, `n > 0`) followed by drain (`decodeFrames(0)`). -/
theorem decodeFrames_preload_drain (n : Nat) (s : SoundSource) (hn : 0 < n)
    (hN : n < SIZE_MOD) :
    (decodeFrames 0 (decodeFrames n s)).packets = [] ∧
    (decodeFrames 0 (decodeFrames n s)).data
      = s.data ++ streamSamples s.audioStreamIndex s.channels s.packets ∧
    (decodeFrames 0 (decodeFrames n s)).data
      = (decodeFrames n s).data ++ streamSamples s.audioStreamIndex s.channels
          (s.packets.drop (n - s.decodedFrames)) := by
  obtain ⟨p1, _, p3⟩ := decodeFrames_pos n s hn hN
  obtain ⟨z1, z2⟩ := decodeFrames_zero (decodeFrames n s)
  have hc : (decodeFrames n s).channels = s.channels := rfl
  have ha : (decodeFrames n s).audioStreamIndex = s.audioStreamIndex := rfl
  refine ⟨z1, ?_, ?_⟩
  · rw [z2, p3, p1, hc, ha, List.append_assoc, streamSamples_take_drop]
  · rw [z2, p1, hc, ha]

theorem resamplerReady_drop (audioIndex : Int) (packets : List AVPacket) (k : Nat)
    (h : resamplerReady audioIndex packets) : resamplerReady audioIndex (packets.drop k) :=
  fun p hp => h p (List.mem_of_mem_drop hp)

/-- Preload (`decodeAndResampleFrames(n)`, `n > 0`) followed by drain
(`decodeAndResampleFrames(0)`), while the resampler can be constructed. -/
theorem decodeAndResampleFrames_preload_drain (n : Nat) (s : SoundSource) (hn : 0 < n)
    (hN : n < SIZE_MOD) (h : resamplerReady s.audioStreamIndex s.packets) :
    (decodeAndResampleFrames 0 (decodeAndResampleFrames n s)).packets = [] ∧
    (decodeAndResampleFrames 0 (decodeAndResampleFrames n s)).data
      = s.data ++ streamResampled s.audioStreamIndex s.channels s.packets := by
  obtain ⟨i1, _, i3, _⟩ := resampleLoop_pos n s.audioStreamIndex s.channels hn hN s.packets h
    s.decodedFrames s.data s.swr
  have hp : (decodeAndResampleFrames n s).packets = s.packets.drop (n - s.decodedFrames) := i1
  have hd : (decodeAndResampleFrames n s).data = s.data ++
      streamResampled s.audioStreamIndex s.channels (s.packets.take (n - s.decodedFrames)) := i3
  have hc : (decodeAndResampleFrames n s).channels = s.channels := rfl
  have ha : (decodeAndResampleFrames n s).audioStreamIndex = s.audioStreamIndex := rfl
  have hr : resamplerReady (decodeAndResampleFrames n s).audioStreamIndex
      (decodeAndResampleFrames n s).packets := by
    rw [ha, hp]; exact resamplerReady_drop _ _ _ h
  obtain ⟨z1, z2, _⟩ := resampleLoop_zero (decodeAndResampleFrames n s).audioStreamIndex
    (decodeAndResampleFrames n s).channels (decodeAndResampleFrames n s).packets hr
    (decodeAndResampleFrames n s).decodedFrames (decodeAndResampleFrames n s).data
    (decodeAndResampleFrames n s).swr
  refine ⟨z1, ?_⟩
  have z2' : (decodeAndResampleFrames 0 (decodeAndResampleFrames n s)).data
      = (decodeAndResampleFrames n s).data ++
        streamResampled (decodeAndResampleFrames n s).audioStreamIndex
          (decodeAndResampleFrames n s).channels (decodeAndResampleFrames n s).packets := z2
  rw [z2', hd, hp, hc, ha, List.append_assoc, streamResampled_take_drop]

theorem loadFromFile_sync (av : LibAV) (s : SoundSource) (h : (setupSound av s).1 = true) :
    loadFromFile av false s
      = decodeRestSoundFramesAndCleanup
          (decodeFramesWrap ((exposeSoundMetadata av (setupSound av s).2).call
            .av_packet_alloc)) := by
  unfold loadFromFile
  simp only [h, if_true, Bool.false_eq_true, if_false]

theorem loadSfx_sync (av : LibAV) (sdt : LoaderSDT) (index : Nat) (asWave : Bool)
    (s : SoundSource) (h : (setupSfx av sdt index asWave s).1 = true) :
    loadSfx av sdt index asWave false s
      = decodeRestSfxFramesAndCleanup
          (decodeFramesSfxWrap ((exposeSfxMetadata av (setupSfx av sdt index asWave s).2.2
            (setupSfx av sdt index asWave s).2.1).call .av_packet_alloc)) := by
  unfold loadSfx
  simp only [h, if_true, Bool.false_eq_true, if_false]

theorem loadFromFile_streaming (av : LibAV) (s : SoundSource)
    (h : (setupSound av s).1 = true) :
    loadFromFile av true s
      = ((decodeFramesWrap ((exposeSoundMetadata av (setupSound av s).2).call
            .av_packet_alloc)).call (.async .decodeRestSoundFramesAndCleanup)).setLoadingThread
          .decodeRestSoundFramesAndCleanup := by
  unfold loadFromFile
  simp only [h, if_true]

theorem loadSfx_streaming (av : LibAV) (sdt : LoaderSDT) (index : Nat) (asWave : Bool)
    (s : SoundSource) (h : (setupSfx av sdt index asWave s).1 = true) :
    loadSfx av sdt index asWave true s
      = ((decodeFramesSfxWrap ((exposeSfxMetadata av (setupSfx av sdt index asWave s).2.2
            (setupSfx av sdt index asWave s).2.1).call .av_packet_alloc)).call
            (.async .decodeRestSfxFramesAndCleanup)).setLoadingThread
          .decodeRestSfxFramesAndCleanup := by
  unfold loadSfx
  simp only [h, if_true]

theorem loadFromFile_failed (av : LibAV) (streaming : Bool) (s : SoundSource)
    (h : (setupSound av s).1 = false) : loadFromFile av streaming s = (setupSound av s).2 := by
  unfold loadFromFile
  simp only [h, Bool.false_eq_true, if_false]

theorem loadSfx_failed (av : LibAV) (sdt : LoaderSDT) (index : Nat) (asWave : Bool)
    (streaming : Bool) (s : SoundSource) (h : (setupSfx av sdt index asWave s).1 = false) :
    loadSfx av sdt index asWave streaming s = (setupSfx av sdt index asWave s).2.1 := by
  unfold loadSfx
  simp only [h, Bool.false_eq_true, if_false]

/-! ## Alignment through the loads -/

theorem Aligned.of_eq {s t : SoundSource} (h : Aligned s) (hd : t.data = s.data)
    (hc : t.channels = s.channels) : Aligned t := by
  unfold Aligned at *
  rw [hd, hc]
  exact h

theorem Aligned.of_nil (s : SoundSource) (hd : s.data = []) : Aligned s := by
  unfold Aligned
  rw [hd]
  simp

theorem decodeRestSoundFramesAndCleanup_aligned (s : SoundSource) (h : Aligned s) :
    Aligned (decodeRestSoundFramesAndCleanup s) :=
  Aligned.of_eq (decodeAndResampleFrames_aligned 0 s h) rfl rfl

theorem decodeRestSfxFramesAndCleanup_aligned (s : SoundSource) (h : Aligned s) :
    Aligned (decodeRestSfxFramesAndCleanup s) :=
  Aligned.of_eq (decodeFrames_aligned 0 s h) rfl rfl

theorem afterLoadingThread_aligned (s : SoundSource) (h : Aligned s) :
    Aligned s.afterLoadingThread := by
  unfold SoundSource.afterLoadingThread
  split
  · exact h
  · rename_i task _
    cases task
    · exact decodeRestSoundFramesAndCleanup_aligned s h
    · exact decodeRestSfxFramesAndCleanup_aligned s h

theorem loadFromFile_aligned (av : LibAV) (streaming : Bool) (s : SoundSource)
    (hd : s.data = []) : Aligned (loadFromFile av streaming s) := by
  have h0 : (setupSound av s).2.data = [] := (setupSound_untouched av s).1.trans hd
  by_cases h : (setupSound av s).1 = true
  · have base : Aligned ((exposeSoundMetadata av (setupSound av s).2).call .av_packet_alloc) :=
      Aligned.of_nil _ h0
    have pre := decodeAndResampleFrames_aligned kNrFramesToPreload _ base
    cases streaming
    · rw [loadFromFile_sync av s h]
      exact decodeRestSoundFramesAndCleanup_aligned _ pre
    · rw [loadFromFile_streaming av s h]
      exact Aligned.of_eq pre rfl rfl
  · rw [loadFromFile_failed av streaming s (by simpa using h)]
    exact Aligned.of_nil _ h0

theorem loadSfx_aligned (av : LibAV) (sdt : LoaderSDT) (index : Nat) (asWave : Bool)
    (streaming : Bool) (s : SoundSource) (hd : s.data = []) :
    Aligned (loadSfx av sdt index asWave streaming s) := by
  have h0 : (setupSfx av sdt index asWave s).2.1.data = [] :=
    (setupSfx_untouched av sdt index asWave s).1.trans hd
  by_cases h : (setupSfx av sdt index asWave s).1 = true
  · have base : Aligned ((exposeSfxMetadata av (setupSfx av sdt index asWave s).2.2
        (setupSfx av sdt index asWave s).2.1).call .av_packet_alloc) :=
      Aligned.of_nil _ h0
    have pre := decodeFrames_aligned kNrFramesToPreload _ base
    cases streaming
    · rw [loadSfx_sync av sdt index asWave s h]
      exact decodeRestSfxFramesAndCleanup_aligned _ pre
    · rw [loadSfx_streaming av sdt index asWave s h]
      exact Aligned.of_eq pre rfl rfl
  · rw [loadSfx_failed av sdt index asWave streaming s (by simpa using h)]
    exact Aligned.of_nil _ h0

/-! ## What a synchronous load leaves -/

theorem loadFromFile_sync_calls (av : LibAV) (s : SoundSource)
    (h : (setupSound av s).1 = true) :
    (loadFromFile av false s).calls
      = (setupSound av s).2.calls ++
        [Call.av_packet_alloc, Call.av_frame_free, Call.avcodec_free_context,
         Call.avformat_close_input] := by
  rw [loadFromFile_sync av s h]
  simp [decodeRestSoundFramesAndCleanup, cleanupAfterSoundLoading, decodeFramesWrap,
    decodeAndResampleFrames, exposeSoundMetadata, SoundSource.call, SoundSource.setMetadata]

theorem loadSfx_sync_calls (av : LibAV) (sdt : LoaderSDT) (index : Nat) (asWave : Bool)
    (s : SoundSource) (h : (setupSfx av sdt index asWave s).1 = true) :
    (loadSfx av sdt index asWave false s).calls
      = (setupSfx av sdt index asWave s).2.1.calls ++
        [Call.av_packet_alloc, Call.av_frame_free, Call.avcodec_free_context,
         Call.av_free_buffer, Call.avio_context_free, Call.avformat_close_input] := by
  rw [loadSfx_sync av sdt index asWave s h]
  simp [decodeRestSfxFramesAndCleanup, cleanupAfterSfxLoading, decodeFramesSfxWrap,
    decodeFrames, exposeSfxMetadata, SoundSource.call, SoundSource.setMetadata]

theorem loadFromFile_sync_untouched (av : LibAV) (s : SoundSource)
    (h : (setupSound av s).1 = true) :
    (loadFromFile av false s).loadingThread = s.loadingThread ∧
    (loadFromFile av false s).dispatched = s.dispatched ∧
    (loadFromFile av false s).completionFlag = s.completionFlag := by
  obtain ⟨_, _, _, _, _, u6, u7, u8⟩ := setupSound_untouched av s
  refine ⟨?_, ?_, ?_⟩
  · rw [loadFromFile_sync av s h]; exact u6
  · unfold SoundSource.dispatched at *
    rw [loadFromFile_sync_calls av s h, List.filter_append, u8]
    simp [List.filter, Call.isAsync]
  · rw [loadFromFile_sync av s h]; exact u7

theorem loadSfx_sync_untouched (av : LibAV) (sdt : LoaderSDT) (index : Nat) (asWave : Bool)
    (s : SoundSource) (h : (setupSfx av sdt index asWave s).1 = true) :
    (loadSfx av sdt index asWave false s).loadingThread = s.loadingThread ∧
    (loadSfx av sdt index asWave false s).dispatched = s.dispatched ∧
    (loadSfx av sdt index asWave false s).completionFlag = s.completionFlag := by
  obtain ⟨_, _, _, _, _, u6, u7, u8⟩ := setupSfx_untouched av sdt index asWave s
  refine ⟨?_, ?_, ?_⟩
  · rw [loadSfx_sync av sdt index asWave s h]; exact u6
  · unfold SoundSource.dispatched at *
    rw [loadSfx_sync_calls av sdt index asWave s h, List.filter_append, u8]
    simp [List.filter, Call.isAsync]
  · rw [loadSfx_sync av sdt index asWave s h]; exact u7

theorem loadSfx_sync_decoded (av : LibAV) (sdt : LoaderSDT) (index : Nat) (asWave : Bool)
    (s : SoundSource) (h : (setupSfx av sdt index asWave s).1 = true) :
    (loadSfx av sdt index asWave false s).packets = [] ∧
    (loadSfx av sdt index asWave false s).data
      = s.data ++ streamSamples av.bestStream (toSizeT av.nb_channels) av.packets := by
  obtain ⟨blob, _, e, _⟩ := setupSfx_ok av sdt index asWave s h
  have k := decodeFrames_preload_drain kNrFramesToPreload
    ((exposeSfxMetadata av (setupSfx av sdt index asWave s).2.2
      (setupSfx av sdt index asWave s).2.1).call .av_packet_alloc) (by decide) (by decide)
  have f1 : ((exposeSfxMetadata av (setupSfx av sdt index asWave s).2.2
      (setupSfx av sdt index asWave s).2.1).call .av_packet_alloc).data = s.data :=
    (setupSfx_untouched av sdt index asWave s).1
  have f2 : ((exposeSfxMetadata av (setupSfx av sdt index asWave s).2.2
      (setupSfx av sdt index asWave s).2.1).call .av_packet_alloc).audioStreamIndex
      = av.bestStream := by rw [e]; rfl
  have f3 : ((exposeSfxMetadata av (setupSfx av sdt index asWave s).2.2
      (setupSfx av sdt index asWave s).2.1).call .av_packet_alloc).channels
      = toSizeT av.nb_channels := rfl
  have f4 : ((exposeSfxMetadata av (setupSfx av sdt index asWave s).2.2
      (setupSfx av sdt index asWave s).2.1).call .av_packet_alloc).packets
      = av.packets := by rw [e]; rfl
  rw [f1, f2, f3, f4] at k
  rw [loadSfx_sync av sdt index asWave s h]
  exact ⟨k.1, k.2.1⟩

theorem loadFromFile_sync_decoded (av : LibAV) (s : SoundSource)
    (h : (setupSound av s).1 = true) (hr : resamplerReady av.bestStream av.packets) :
    (loadFromFile av false s).packets = [] ∧
    (loadFromFile av false s).data
      = s.data ++ streamResampled av.bestStream kNumOutputChannels av.packets := by
  have e := setupSound_ok av s h
  have f1 : ((exposeSoundMetadata av (setupSound av s).2).call .av_packet_alloc).data
      = s.data := (setupSound_untouched av s).1
  have f2 : ((exposeSoundMetadata av (setupSound av s).2).call
      .av_packet_alloc).audioStreamIndex = av.bestStream := by rw [e]; rfl
  have f3 : ((exposeSoundMetadata av (setupSound av s).2).call .av_packet_alloc).channels
      = kNumOutputChannels := rfl
  have f4 : ((exposeSoundMetadata av (setupSound av s).2).call .av_packet_alloc).packets
      = av.packets := by rw [e]; rfl
  have k := decodeAndResampleFrames_preload_drain kNrFramesToPreload
    ((exposeSoundMetadata av (setupSound av s).2).call .av_packet_alloc) (by decide)
    (by decide) (by rw [f2, f4]; exact hr)
  rw [f1, f2, f3, f4] at k
  rw [loadFromFile_sync av s h]
  exact k

/-! ## `read_packet` while the remaining length fits an `int` -/

theorem toInt32_of_lt (m : Nat) (hm : m < 2 ^ 31) : toInt32 m = (m : Int) := by
  unfold toInt32
  have h1 : m % 2 ^ 32 = m := Nat.mod_eq_of_lt (by omega)
  rw [h1, if_pos hm]

theorem toSizeT_of_nonneg (x : Int) (h0 : 0 ≤ x) (h1 : x < 2 ^ 64) :
    toSizeT x = x.toNat := by
  unfold toSizeT SIZE_MOD
  rw [Int.emod_eq_of_lt h0 (by exact_mod_cast h1)]

/-- For a request `r ≥ 0` and a remaining length `m < 2^31`, `read_packet` returns
`min(r, m)`, copies that many bytes from the cursor to the start of the caller's buffer,
leaves the rest of the buffer alone and moves the cursor by as much. -/
theorem read_packet_in_range (mem : Int → Nat) (input : InputData) (buf : Nat → Nat)
    (r : Int) (hr : 0 ≤ r) (hm : input.size < 2 ^ 31) :
    (read_packet mem input buf r).ret = min r (input.size : Int) ∧
    (read_packet mem input buf r).input
      = { ptr := input.ptr + min r (input.size : Int),
          size := input.size - (min r (input.size : Int)).toNat } ∧
    (∀ i : Nat, i < (min r (input.size : Int)).toNat →
      (read_packet mem input buf r).buf i = mem (input.ptr + (i : Int))) ∧
    (∀ i : Nat, (min r (input.size : Int)).toNat ≤ i →
      (read_packet mem input buf r).buf i = buf i) := by
  have hmin0 : 0 ≤ min r (input.size : Int) := le_min hr (Int.ofNat_nonneg _)
  have hminle : min r (input.size : Int) ≤ (input.size : Int) := min_le_right _ _
  have hs : toSizeT (min r (input.size : Int)) = (min r (input.size : Int)).toNat :=
    toSizeT_of_nonneg _ hmin0 (by omega)
  have hs2 : toSizeT ((input.size : Int) - min r (input.size : Int))
      = input.size - (min r (input.size : Int)).toNat := by
    rw [toSizeT_of_nonneg _ (by omega) (by omega)]
    omega
  unfold read_packet
  simp only [toInt32_of_lt _ hm, hs, hs2, true_and]
  constructor
  · intro i hi
    rw [if_pos hi]
  · intro i hi
    rw [if_neg (by omega)]

/-! ## The claims -/

/-- C1, as stated, fails: packets of other streams do count toward the bound.  With the
input `[other-stream packet, selected-stream packet]` and counter 0, `decodeFrames(1)`
reads the other-stream packet, `++decodedFrames` makes the counter 1 and the loop stops:
no packet of the selected stream was examined, though `min(1, 1) = 1` are claimed. -/
theorem decodeFrames_counts_other_streams :
    examinedSelected (exSource [exOther, exPacket])
        (decodeFrames 1 (exSource [exOther, exPacket])) = 0 ∧
    min 1 (selectedCount (exSource [exOther, exPacket]).audioStreamIndex
        (exSource [exOther, exPacket]).packets) = 1 ∧
    (exSource [exOther, exPacket]).decodedFrames = 0 ∧
    (decodeFrames 1 (exSource [exOther, exPacket])).decodedFrames = 1 := by
  decide

/-- C1, amended: for every positive `n` (a `size_t`) and every finite packet sequence,
`decodeFrames(n)` on a source whose counter is 0 reads exactly `min(n, number of packets
in the input)` packets, of whatever stream, before stopping; every packet read, selected
or not and however many frames it produced, advances the counter by exactly one; packets
of other streams contribute no samples, the buffer gaining exactly the samples of the
decoded frames of the selected-stream packets among those read.  The same holds for
`decodeAndResampleFrames(n)` (with the resampled samples) as long as the resampler can be
constructed. -/
theorem decode_reads_first_packets (n : Nat) (s : SoundSource) (hn : 0 < n)
    (hN : n < SIZE_MOD) (h0 : s.decodedFrames = 0) :
    ((decodeFrames n s).packets = s.packets.drop (min n s.packets.length) ∧
     (decodeFrames n s).decodedFrames = min n s.packets.length ∧
     (decodeFrames n s).data = s.data ++
        streamSamples s.audioStreamIndex s.channels
          (s.packets.take (min n s.packets.length))) ∧
    (resamplerReady s.audioStreamIndex s.packets →
     (decodeAndResampleFrames n s).packets = s.packets.drop (min n s.packets.length) ∧
     (decodeAndResampleFrames n s).decodedFrames = min n s.packets.length ∧
     (decodeAndResampleFrames n s).data = s.data ++
        streamResampled s.audioStreamIndex s.channels
          (s.packets.take (min n s.packets.length))) := by
  rw [drop_min_length, take_min_length]
  constructor
  · simp only [decodeFrames, decodeFramesLoop_pos n _ _ hn hN, h0, Nat.sub_zero, Nat.zero_add,
      and_self]
  · intro hr
    obtain ⟨i1, i2, i3, _⟩ := resampleLoop_pos n s.audioStreamIndex s.channels hn hN s.packets
      hr s.decodedFrames s.data s.swr
    rw [h0] at i1 i2 i3
    simp only [Nat.sub_zero, Nat.zero_add] at i1 i2 i3
    simp only [decodeAndResampleFrames, h0, i1, i2, i3, and_self]

/-- C1, amended, at a concrete input: bound 1 on `[other-stream packet, selected packet]`. -/
theorem decode_reads_first_packets_witness :
    (0 < 1 ∧ 1 < SIZE_MOD ∧ (exSource [exOther, exPacket]).decodedFrames = 0) ∧
    (decodeFrames 1 (exSource [exOther, exPacket])).decodedFrames
      = min 1 (exSource [exOther, exPacket]).packets.length :=
  ⟨⟨by decide, by decide, rfl⟩,
   (decode_reads_first_packets 1 (exSource [exOther, exPacket]) (by decide) (by decide)
      rfl).1.2.1⟩

/-- C2: for every finite packet sequence, `decodeFrames(0)` returns (the function is
total) and only at the end of the input: on return no packet is left unread, and the
samples of the decoded frames of every selected-stream packet have been appended to the
buffer, in order; the same after `decodeRestSfxFramesAndCleanup`. -/
theorem decodeFrames_zero_exhausts_input (s : SoundSource) :
    (decodeFrames 0 s).packets = [] ∧
    (decodeFrames 0 s).data
      = s.data ++ streamSamples s.audioStreamIndex s.channels s.packets ∧
    (decodeRestSfxFramesAndCleanup s).packets = [] ∧
    (decodeRestSfxFramesAndCleanup s).data
      = s.data ++ streamSamples s.audioStreamIndex s.channels s.packets := by
  have h := decodeFramesLoop_zero s.audioStreamIndex s.channels s.packets s.decodedFrames s.data
  simp only [decodeRestSfxFramesAndCleanup, cleanupAfterSfxLoading, SoundSource.call,
    decodeFrames, h.1, h.2, and_self]

/-- C3: for every input, the buffer after the preload call `decodeFrames(50)` followed by
the drain call `decodeFrames(0)` is the old buffer followed by the samples of every decoded
frame of the selected stream, in packet order and within a packet in frame order; the
preload call appends the samples of a leading part of the packets, and the buffer after
it is an initial segment of the final buffer. -/
theorem preload_then_drain_in_order (s : SoundSource) :
    (decodeFrames 0 (decodeFrames kNrFramesToPreload s)).data
      = s.data ++ streamSamples s.audioStreamIndex s.channels s.packets ∧
    (decodeFrames kNrFramesToPreload s).data
      = s.data ++ streamSamples s.audioStreamIndex s.channels
          (s.packets.take (kNrFramesToPreload - s.decodedFrames)) ∧
    (decodeFrames 0 (decodeFrames kNrFramesToPreload s)).data
      = (decodeFrames kNrFramesToPreload s).data ++
          streamSamples s.audioStreamIndex s.channels
            (s.packets.drop (kNrFramesToPreload - s.decodedFrames)) :=
  ⟨(decodeFrames_preload_drain kNrFramesToPreload s (by decide) (by decide)).2.1,
   (decodeFrames_pos kNrFramesToPreload s (by decide) (by decide)).2.2,
   (decodeFrames_preload_drain kNrFramesToPreload s (by decide) (by decide)).2.2⟩

/-- C4: on the direct path every decoded frame (received while `sendPacket == 0`) is
written by the write loop, which appends exactly `s * c` values for a frame of `s` samples
per channel and a source of `c` channels, leaves the earlier buffer in place, and puts at
position `i * c + ch` of the appended part (`i < s`, `ch < c`) the `i`-th 16-bit sample of
the frame's channel array `ch`. -/
theorem writeSamples_interleaves (channels : Nat) (r : Received) (rest : List Received)
    (data : List Int) :
    receiveFrames channels 0 (r :: rest) data
      = receiveFrames channels 0 rest (writeSamples channels r.frame data) ∧
    (writeSamples channels r.frame data).length
      = data.length + r.frame.nb_samples * channels ∧
    (writeSamples channels r.frame data).take data.length = data ∧
    ∀ i ch, i < r.frame.nb_samples → ch < channels →
      (writeSamples channels r.frame data)[data.length + (i * channels + ch)]?
        = some (r.frame.data ch i) := by
  refine ⟨by simp [receiveFrames], ?_, ?_, ?_⟩
  · rw [writeSamples_eq, List.length_append, length_interleave]
  · rw [writeSamples_eq, List.take_left]
  · intro i ch hi hch
    rw [writeSamples_eq, List.getElem?_append_right (Nat.le_add_right _ _),
      Nat.add_sub_cancel_left]
    unfold interleave
    rw [getElem?_flatMap_range _ channels (fun _ => by simp) _ i ch hi hch]
    simp [hch]

/-- C5: for both origins (`loadFromFile`, `loadSfx`) and both streaming modes, on a source
whose buffer is empty before the load, the length of the sample buffer is a multiple of
the exposed channel count when the load returns and when the dispatched task (if any) has
run to its end; and it stays so at every point between appended frames, because each
single-frame append (the write loop of the direct path, the append loop of the resample
path) keeps the length a multiple of the channel count: no partial interleaved frame is
ever appended. -/
theorem buffer_length_multiple_of_channels (av : LibAV) (sdt : LoaderSDT) (index : Nat)
    (asWave streaming : Bool) (s : SoundSource) (hd : s.data = []) :
    (∀ (channels : Nat) (frame : AVFrame) (data : List Int), data.length % channels = 0 →
      (writeSamples channels frame data).length % channels = 0) ∧
    (∀ (channels : Nat) (resampled : AVFrame) (data : List Int),
      data.length % channels = 0 →
      (appendResampled channels resampled data).length % channels = 0) ∧
    (loadFromFile av streaming s).data.length % (loadFromFile av streaming s).channels = 0 ∧
    (loadFromFile av streaming s).afterLoadingThread.data.length
      % (loadFromFile av streaming s).afterLoadingThread.channels = 0 ∧
    (loadSfx av sdt index asWave streaming s).data.length
      % (loadSfx av sdt index asWave streaming s).channels = 0 ∧
    (loadSfx av sdt index asWave streaming s).afterLoadingThread.data.length
      % (loadSfx av sdt index asWave streaming s).afterLoadingThread.channels = 0 :=
  ⟨writeSamples_aligned, appendResampled_aligned,
   loadFromFile_aligned av streaming s hd,
   afterLoadingThread_aligned _ (loadFromFile_aligned av streaming s hd),
   loadSfx_aligned av sdt index asWave streaming s hd,
   afterLoadingThread_aligned _ (loadSfx_aligned av sdt index asWave streaming s hd)⟩

/-- C5 at a concrete input: a streaming in-memory load of three packets on a fresh
source. -/
theorem buffer_length_multiple_of_channels_witness :
    SoundSource.fresh.data = [] ∧
    (loadSfx (exLibAV [exPacket, exOther, exPacket]) exLoaderSDT 0 true true
        SoundSource.fresh).afterLoadingThread.data.length
      % (loadSfx (exLibAV [exPacket, exOther, exPacket]) exLoaderSDT 0 true true
        SoundSource.fresh).afterLoadingThread.channels = 0 :=
  ⟨rfl, (buffer_length_multiple_of_channels (exLibAV [exPacket, exOther, exPacket])
    exLoaderSDT 0 true true SoundSource.fresh rfl).2.2.2.2.2⟩

/-- C6 fails for a remaining length that does not fit an `int`: `static_cast<int>` of the
`size_t` length 2^31 is -2^31, so with a request of 4096 bytes `read_packet` returns
-2147483648 instead of `min(4096, 2^31) = 4096`, moves the cursor backwards and raises the
remaining length to 2^32; the length handed to `memcpy` is 2^64 - 2^31. -/
theorem read_packet_truncates_large_size :
    (read_packet (fun _ => 0) { ptr := 4294967296, size := 2147483648 } (fun _ => 0) 4096).ret
      = -2147483648 ∧
    (read_packet (fun _ => 0) { ptr := 4294967296, size := 2147483648 } (fun _ => 0)
      4096).input = { ptr := 2147483648, size := 4294967296 } ∧
    toSizeT (min 4096 (toInt32 2147483648)) = 18446744071562067968 ∧
    min (4096 : Int) (2147483648 : Nat) = 4096 := by
  decide

/-- C7: once the cursor is exhausted (remaining length 0), a call of `read_packet` with
any requested size (`r ≥ 0`) returns 0, leaves the caller's buffer as it was and leaves
the cursor position and the remaining length unchanged. -/
theorem read_packet_exhausted (mem : Int → Nat) (ptr : Int) (buf : Nat → Nat) (r : Int)
    (hr : 0 ≤ r) :
    (read_packet mem { ptr := ptr, size := 0 } buf r).ret = 0 ∧
    (read_packet mem { ptr := ptr, size := 0 } buf r).buf = buf ∧
    (read_packet mem { ptr := ptr, size := 0 } buf r).input = { ptr := ptr, size := 0 } := by
  obtain ⟨h1, h2, _, h4⟩ := read_packet_in_range mem { ptr := ptr, size := 0 } buf r hr
    (Nat.two_pow_pos 31)
  have hmin : min r ((0 : Nat) : Int) = 0 := by
    rw [Int.ofNat_zero]; exact min_eq_right hr
  simp only [hmin, Int.toNat_zero, add_zero, Nat.sub_zero] at h1 h2 h4
  exact ⟨h1, funext fun i => h4 i (Nat.zero_le i), h2⟩

/-- C7 at a concrete input: a request of 4096 bytes on an exhausted cursor. -/
theorem read_packet_exhausted_witness :
    (0 : Int) ≤ 4096 ∧
    (read_packet (fun _ => 7) { ptr := 1010, size := 0 } (fun _ => 0) 4096).ret = 0 ∧
    (read_packet (fun _ => 7) { ptr := 1010, size := 0 } (fun _ => 0) 4096).input
      = { ptr := 1010, size := 0 } :=
  ⟨by decide,
   (read_packet_exhausted (fun _ => 7) 1010 (fun _ => 0) 4096 (by decide)).1,
   (read_packet_exhausted (fun _ => 7) 1010 (fun _ => 0) 4096 (by decide)).2.2⟩

/-- C8: when the container loader returns a non-null blob, `prepareFormatContextSfx`
leaves the cursor at the first byte of that blob with remaining length
`sizeof(WaveHeader) + assetInfo.size` (the declared size the loader left in
`sdt.assetInfo`), whatever `asWave` is, and binds the reader
(`avio_alloc_context`) to that cursor with a staging buffer of 4096 bytes obtained from
`av_malloc(4096)`; these are its calls whether or not the container then opens. -/
theorem prepareFormatContextSfx_binds_cursor (av : LibAV) (sdt : LoaderSDT) (index : Nat)
    (asWave : Bool) (s : SoundSource) (blob : Int)
    (hb : (sdt.load index asWave).1 = some blob)
    (hsz : sdt.sizeofWaveHeader + (sdt.load index asWave).2.size < SIZE_MOD) :
    (prepareFormatContextSfx av sdt index asWave s).2.1.input
      = { ptr := blob, size := sdt.sizeofWaveHeader + (sdt.load index asWave).2.size } ∧
    (prepareFormatContextSfx av sdt index asWave s).2.1.raw_sound = some blob ∧
    (prepareFormatContextSfx av sdt index asWave s).2.2.assetInfo
      = (sdt.load index asWave).2 ∧
    (prepareFormatContextSfx av sdt index asWave s).2.1.calls
      = s.calls ++
        [Call.av_malloc 4096,
         Call.avio_alloc_context 4096
           { ptr := blob, size := sdt.sizeofWaveHeader + (sdt.load index asWave).2.size },
         Call.avformat_alloc_context] ++
        (if av.openInput ≠ 0 then
          [Call.av_free_buffer, Call.avio_context_free, Call.av_frame_free]
         else [Call.avformat_open_input]) := by
  unfold prepareFormatContextSfx LoaderSDT.loadToMemory
  rw [hb]
  simp only [Nat.mod_eq_of_lt hsz]
  split_ifs <;>
    simp [SoundSource.call, SoundSource.setInput, SoundSource.setRawSound,
      SoundSource.setPackets, ioBufferSize]

/-- C8 at a concrete input: the example loader (blob at 65536, 44-byte header, declared
size 1000) with `asWave = false`. -/
theorem prepareFormatContextSfx_binds_cursor_witness :
    (exLoaderSDT.load 0 false).1 = some 65536 ∧
    exLoaderSDT.sizeofWaveHeader + (exLoaderSDT.load 0 false).2.size < SIZE_MOD ∧
    (prepareFormatContextSfx (exLibAV []) exLoaderSDT 0 false SoundSource.fresh).2.1.input
      = { ptr := 65536, size := 1044 } :=
  ⟨rfl, by decide,
   (prepareFormatContextSfx_binds_cursor (exLibAV []) exLoaderSDT 0 false SoundSource.fresh
      65536 rfl (by decide)).1⟩

/-- C9, as stated, fails: no function of `SoundSource.cpp` writes a completion flag.  On
a fresh source (flag unset) a load with `streaming = false` whose setup succeeds returns
with the flag still unset, for the in-memory origin and for the file origin. -/
theorem sync_load_leaves_completion_flag_unset :
    (setupSfx (exLibAV [exPacket, exOther, exPacket]) exLoaderSDT 0 true
      SoundSource.fresh).1 = true ∧
    (loadSfx (exLibAV [exPacket, exOther, exPacket]) exLoaderSDT 0 true false
      SoundSource.fresh).completionFlag = false ∧
    (setupSound (exLibAV [exPacket, exOther, exPacket]) SoundSource.fresh).1 = true ∧
    (loadFromFile (exLibAV [exPacket, exOther, exPacket]) false
      SoundSource.fresh).completionFlag = false := by
  decide

/-- C9, amended: for every input whose setup succeeds, a load with `streaming = false` on
a source that holds no task returns with no background task dispatched or outstanding
(`loadingThread` holds no task and no `std::async` call was made); the load does not
write the completion flag, which is on return what it was before. -/
theorem sync_load_dispatches_nothing (av : LibAV) (sdt : LoaderSDT) (index : Nat)
    (asWave : Bool) (s : SoundSource) (h1 : s.loadingThread = none)
    (h2 : s.dispatched = []) :
    ((setupSound av s).1 = true →
      (loadFromFile av false s).loadingThread = none ∧
      (loadFromFile av false s).dispatched = [] ∧
      (loadFromFile av false s).completionFlag = s.completionFlag) ∧
    ((setupSfx av sdt index asWave s).1 = true →
      (loadSfx av sdt index asWave false s).loadingThread = none ∧
      (loadSfx av sdt index asWave false s).dispatched = [] ∧
      (loadSfx av sdt index asWave false s).completionFlag = s.completionFlag) := by
  constructor
  · intro h
    obtain ⟨a, b, c⟩ := loadFromFile_sync_untouched av s h
    exact ⟨a.trans h1, b.trans h2, c⟩
  · intro h
    obtain ⟨a, b, c⟩ := loadSfx_sync_untouched av sdt index asWave s h
    exact ⟨a.trans h1, b.trans h2, c⟩

/-- C9, amended, at a concrete input: a synchronous in-memory load on a fresh source. -/
theorem sync_load_dispatches_nothing_witness :
    (SoundSource.fresh.loadingThread = none ∧ SoundSource.fresh.dispatched = [] ∧
      (setupSfx (exLibAV [exPacket, exOther, exPacket]) exLoaderSDT 0 true
        SoundSource.fresh).1 = true) ∧
    (loadSfx (exLibAV [exPacket, exOther, exPacket]) exLoaderSDT 0 true false
      SoundSource.fresh).loadingThread = none ∧
    (loadSfx (exLibAV [exPacket, exOther, exPacket]) exLoaderSDT 0 true false
      SoundSource.fresh).dispatched = [] :=
  ⟨⟨rfl, rfl, by decide⟩,
   ((sync_load_dispatches_nothing (exLibAV [exPacket, exOther, exPacket]) exLoaderSDT 0 true
      SoundSource.fresh rfl rfl).2 (by decide)).1,
   ((sync_load_dispatches_nothing (exLibAV [exPacket, exOther, exPacket]) exLoaderSDT 0 true
      SoundSource.fresh rfl rfl).2 (by decide)).2.1⟩

/-- C10, as stated, fails for the file origin: when the resampler cannot be allocated,
`decodeAndResampleFrames` returns at once.  With three packets of the selected stream, the
resampler failing at the frames of the first two, the setup succeeds, the preload call
returns at the first packet and the drain call at the second: the load returns with the
third packet unread and an empty buffer (cleanup has run all the same). -/
theorem sync_file_load_stops_when_resampler_fails :
    (setupSound (exLibAV [exPacketSwrFails, exPacketSwrFails, exPacket])
      SoundSource.fresh).1 = true ∧
    (loadFromFile (exLibAV [exPacketSwrFails, exPacketSwrFails, exPacket]) false
      SoundSource.fresh).packets.length = 1 ∧
    (loadFromFile (exLibAV [exPacketSwrFails, exPacketSwrFails, exPacket]) false
      SoundSource.fresh).data = [] ∧
    streamResampled 0 kNumOutputChannels [exPacketSwrFails, exPacketSwrFails, exPacket]
      = [0, 1, 2, 3] := by
  decide

/-- C10, amended: for every input whose setup succeeds, a load with `streaming = false`
has, when it returns, made the preload call and then the drain call inline and after them
the cleanup calls: `av_frame_free`, `avcodec_free_context`, (in-memory origin)
`av_free` of the staging buffer and `avio_context_free`, `avformat_close_input`.  For the
in-memory origin every packet has been read and the buffer holds the full decode; for the
file origin the same holds as long as the resampler can be constructed at the frames of the
selected stream. -/
theorem sync_load_decodes_all_and_releases (av : LibAV) (sdt : LoaderSDT) (index : Nat)
    (asWave : Bool) (s : SoundSource) :
    ((setupSfx av sdt index asWave s).1 = true →
      (loadSfx av sdt index asWave false s).packets = [] ∧
      (loadSfx av sdt index asWave false s).data
        = s.data ++ streamSamples av.bestStream (toSizeT av.nb_channels) av.packets ∧
      (loadSfx av sdt index asWave false s).calls
        = (setupSfx av sdt index asWave s).2.1.calls ++
          [Call.av_packet_alloc, Call.av_frame_free, Call.avcodec_free_context,
           Call.av_free_buffer, Call.avio_context_free, Call.avformat_close_input]) ∧
    ((setupSound av s).1 = true →
      (loadFromFile av false s).calls
        = (setupSound av s).2.calls ++
          [Call.av_packet_alloc, Call.av_frame_free, Call.avcodec_free_context,
           Call.avformat_close_input] ∧
      (resamplerReady av.bestStream av.packets →
        (loadFromFile av false s).packets = [] ∧
        (loadFromFile av false s).data
          = s.data ++ streamResampled av.bestStream kNumOutputChannels av.packets)) := by
  constructor
  · intro h
    exact ⟨(loadSfx_sync_decoded av sdt index asWave s h).1,
      (loadSfx_sync_decoded av sdt index asWave s h).2,
      loadSfx_sync_calls av sdt index asWave s h⟩
  · intro h
    exact ⟨loadFromFile_sync_calls av s h, loadFromFile_sync_decoded av s h⟩

/-- C10, amended, at a concrete input: synchronous loads of three packets on a fresh
source, from memory and from a file. -/
theorem sync_load_decodes_all_and_releases_witness :
    (setupSfx (exLibAV [exPacket, exOther, exPacket]) exLoaderSDT 0 true
      SoundSource.fresh).1 = true ∧
    (loadSfx (exLibAV [exPacket, exOther, exPacket]) exLoaderSDT 0 true false
      SoundSource.fresh).packets = [] ∧
    (setupSound (exLibAV [exPacket, exOther, exPacket]) SoundSource.fresh).1 = true ∧
    (loadFromFile (exLibAV [exPacket, exOther, exPacket]) false SoundSource.fresh).calls
      = (setupSound (exLibAV [exPacket, exOther, exPacket]) SoundSource.fresh).2.calls ++
        [Call.av_packet_alloc, Call.av_frame_free, Call.avcodec_free_context,
         Call.avformat_close_input] :=
  ⟨by decide,
   ((sync_load_decodes_all_and_releases (exLibAV [exPacket, exOther, exPacket]) exLoaderSDT
      0 true SoundSource.fresh).1 (by decide)).1,
   by decide,
   ((sync_load_decodes_all_and_releases (exLibAV [exPacket, exOther, exPacket]) exLoaderSDT
      0 true SoundSource.fresh).2 (by decide)).1⟩

/-! ## What a streaming load leaves -/

theorem released_call (s : SoundSource) (c : Call) :
    (s.call c).released = s.released ++ (if c.isRelease then [c] else []) := by
  unfold SoundSource.released SoundSource.call
  rw [List.filter_append]
  cases h : c.isRelease <;> simp [List.filter, h]

theorem setupSoundDone_released (av : LibAV) (s : SoundSource) :
    (setupSoundDone av s).released = s.released := by
  simp [setupSoundDone, SoundSource.released, SoundSource.call, SoundSource.setPackets,
    SoundSource.setAudioStream, List.filter_append, List.filter, Call.isRelease]

theorem setupSfxDone_released (av : LibAV) (sdt : LoaderSDT) (blob : Int) (info : AssetInfo)
    (s : SoundSource) : (setupSfxDone av sdt blob info s).released = s.released := by
  simp [setupSfxDone, SoundSource.released, SoundSource.call, SoundSource.setPackets,
    SoundSource.setAudioStream, SoundSource.setRawSound, SoundSource.setInput,
    List.filter_append, List.filter, Call.isRelease]

theorem setupSound_released (av : LibAV) (s : SoundSource) (h : (setupSound av s).1 = true) :
    (setupSound av s).2.released = s.released := by
  rw [setupSound_ok av s h, setupSoundDone_released]

theorem setupSfx_released (av : LibAV) (sdt : LoaderSDT) (index : Nat) (asWave : Bool)
    (s : SoundSource) (h : (setupSfx av sdt index asWave s).1 = true) :
    (setupSfx av sdt index asWave s).2.1.released = s.released := by
  obtain ⟨blob, _, e, _⟩ := setupSfx_ok av sdt index asWave s h
  rw [e, setupSfxDone_released]

/-- The source after setup, metadata and `av_packet_alloc`, before the preload call
(file origin): what the decode loops then read. -/
theorem soundReady_fields (av : LibAV) (s : SoundSource) (h : (setupSound av s).1 = true) :
    ((exposeSoundMetadata av (setupSound av s).2).call .av_packet_alloc).data = s.data ∧
    ((exposeSoundMetadata av (setupSound av s).2).call .av_packet_alloc).audioStreamIndex
      = av.bestStream ∧
    ((exposeSoundMetadata av (setupSound av s).2).call .av_packet_alloc).channels
      = kNumOutputChannels ∧
    ((exposeSoundMetadata av (setupSound av s).2).call .av_packet_alloc).packets
      = av.packets ∧
    ((exposeSoundMetadata av (setupSound av s).2).call .av_packet_alloc).decodedFrames
      = s.decodedFrames ∧
    ((exposeSoundMetadata av (setupSound av s).2).call .av_packet_alloc).swr = s.swr := by
  have e := setupSound_ok av s h
  obtain ⟨u1, _, _, u4, u5, _⟩ := setupSound_untouched av s
  refine ⟨u1, ?_, rfl, ?_, u4, u5⟩
  · rw [e]; rfl
  · rw [e]; rfl

/-- The source after setup, metadata and `av_packet_alloc`, before the preload call
(in-memory origin). -/
theorem sfxReady_fields (av : LibAV) (sdt : LoaderSDT) (index : Nat) (asWave : Bool)
    (s : SoundSource) (h : (setupSfx av sdt index asWave s).1 = true) :
    ((exposeSfxMetadata av (setupSfx av sdt index asWave s).2.2
      (setupSfx av sdt index asWave s).2.1).call .av_packet_alloc).data = s.data ∧
    ((exposeSfxMetadata av (setupSfx av sdt index asWave s).2.2
      (setupSfx av sdt index asWave s).2.1).call .av_packet_alloc).audioStreamIndex
      = av.bestStream ∧
    ((exposeSfxMetadata av (setupSfx av sdt index asWave s).2.2
      (setupSfx av sdt index asWave s).2.1).call .av_packet_alloc).channels
      = toSizeT av.nb_channels ∧
    ((exposeSfxMetadata av (setupSfx av sdt index asWave s).2.2
      (setupSfx av sdt index asWave s).2.1).call .av_packet_alloc).packets = av.packets ∧
    ((exposeSfxMetadata av (setupSfx av sdt index asWave s).2.2
      (setupSfx av sdt index asWave s).2.1).call .av_packet_alloc).decodedFrames
      = s.decodedFrames := by
  obtain ⟨blob, _, e, _⟩ := setupSfx_ok av sdt index asWave s h
  obtain ⟨u1, _, _, u4, _⟩ := setupSfx_untouched av sdt index asWave s
  refine ⟨u1, ?_, rfl, ?_, u4⟩
  · rw [e]; rfl
  · rw [e]; rfl

theorem streamed_dispatched (x : SoundSource) (task : LoadTask) :
    ((x.call (.async task)).setLoadingThread task).dispatched
      = x.dispatched ++ [Call.async task] := by
  have h : ((x.call (.async task)).setLoadingThread task).dispatched
      = (x.call (.async task)).dispatched := rfl
  rw [h, dispatched_call]
  rfl

theorem streamed_released (x : SoundSource) (task : LoadTask) :
    ((x.call (.async task)).setLoadingThread task).released = x.released := by
  have h : ((x.call (.async task)).setLoadingThread task).released
      = (x.call (.async task)).released := rfl
  rw [h, released_call]
  simp [Call.isRelease]

theorem ready_dispatched (x : SoundSource) (channels sampleRate : Nat) :
    ((x.setMetadata channels sampleRate).call .av_packet_alloc).dispatched = x.dispatched := by
  rw [dispatched_call]
  simp only [Call.isAsync, Bool.false_eq_true, if_false, List.append_nil]
  rfl

theorem ready_released (x : SoundSource) (channels sampleRate : Nat) :
    ((x.setMetadata channels sampleRate).call .av_packet_alloc).released = x.released := by
  rw [released_call]
  simp only [Call.isRelease, Bool.false_eq_true, if_false, List.append_nil]
  rfl

/-- A streaming in-memory load whose setup succeeds: the state at return. -/
theorem loadSfx_streaming_state (av : LibAV) (sdt : LoaderSDT) (index : Nat) (asWave : Bool)
    (s : SoundSource) (h : (setupSfx av sdt index asWave s).1 = true) :
    (loadSfx av sdt index asWave true s).data = s.data ++
      streamSamples av.bestStream (toSizeT av.nb_channels)
        (av.packets.take (kNrFramesToPreload - s.decodedFrames)) ∧
    (loadSfx av sdt index asWave true s).packets
      = av.packets.drop (kNrFramesToPreload - s.decodedFrames) ∧
    (loadSfx av sdt index asWave true s).loadingThread
      = some LoadTask.decodeRestSfxFramesAndCleanup ∧
    (loadSfx av sdt index asWave true s).dispatched
      = s.dispatched ++ [Call.async LoadTask.decodeRestSfxFramesAndCleanup] ∧
    (loadSfx av sdt index asWave true s).released = s.released ∧
    (loadSfx av sdt index asWave true s).afterLoadingThread
      = decodeRestSfxFramesAndCleanup (loadSfx av sdt index asWave true s) := by
  obtain ⟨f1, f2, f3, f4, f5⟩ := sfxReady_fields av sdt index asWave s h
  obtain ⟨p1, _, p3⟩ := decodeFrames_pos kNrFramesToPreload
    ((exposeSfxMetadata av (setupSfx av sdt index asWave s).2.2
      (setupSfx av sdt index asWave s).2.1).call .av_packet_alloc) (by decide) (by decide)
  rw [f1, f2, f3, f4, f5] at p3
  rw [f4, f5] at p1
  have hd : (decodeFramesSfxWrap ((exposeSfxMetadata av (setupSfx av sdt index asWave s).2.2
      (setupSfx av sdt index asWave s).2.1).call .av_packet_alloc)).dispatched
      = s.dispatched :=
    (ready_dispatched _ _ _).trans (setupSfx_untouched av sdt index asWave s).2.2.2.2.2.2.2
  have hr : (decodeFramesSfxWrap ((exposeSfxMetadata av (setupSfx av sdt index asWave s).2.2
      (setupSfx av sdt index asWave s).2.1).call .av_packet_alloc)).released
      = s.released :=
    (ready_released _ _ _).trans (setupSfx_released av sdt index asWave s h)
  rw [loadSfx_streaming av sdt index asWave s h]
  refine ⟨p3, p1, rfl, ?_, ?_, rfl⟩
  · rw [streamed_dispatched, hd]
  · rw [streamed_released, hr]

/-- A streaming file load whose setup succeeds: the state at return. -/
theorem loadFromFile_streaming_state (av : LibAV) (s : SoundSource)
    (h : (setupSound av s).1 = true) :
    (loadFromFile av true s).loadingThread
      = some LoadTask.decodeRestSoundFramesAndCleanup ∧
    (loadFromFile av true s).dispatched
      = s.dispatched ++ [Call.async LoadTask.decodeRestSoundFramesAndCleanup] ∧
    (loadFromFile av true s).released = s.released ∧
    (loadFromFile av true s).afterLoadingThread
      = decodeRestSoundFramesAndCleanup (loadFromFile av true s) ∧
    (resamplerReady av.bestStream av.packets →
      (loadFromFile av true s).data = s.data ++
        streamResampled av.bestStream kNumOutputChannels
          (av.packets.take (kNrFramesToPreload - s.decodedFrames)) ∧
      (loadFromFile av true s).packets
        = av.packets.drop (kNrFramesToPreload - s.decodedFrames)) := by
  obtain ⟨f1, f2, f3, f4, f5, f6⟩ := soundReady_fields av s h
  have hd : (decodeFramesWrap ((exposeSoundMetadata av (setupSound av s).2).call
      .av_packet_alloc)).dispatched = s.dispatched :=
    (ready_dispatched _ _ _).trans (setupSound_untouched av s).2.2.2.2.2.2.2
  have hr : (decodeFramesWrap ((exposeSoundMetadata av (setupSound av s).2).call
      .av_packet_alloc)).released = s.released :=
    (ready_released _ _ _).trans (setupSound_released av s h)
  rw [loadFromFile_streaming av s h]
  refine ⟨rfl, ?_, ?_, rfl, fun hready => ?_⟩
  · rw [streamed_dispatched, hd]
  · rw [streamed_released, hr]
  · obtain ⟨i1, _, i3, _⟩ := resampleLoop_pos kNrFramesToPreload av.bestStream
      kNumOutputChannels (by decide) (by decide) av.packets hready s.decodedFrames s.data s.swr
    have e : resampleLoop kNrFramesToPreload
        ((exposeSoundMetadata av (setupSound av s).2).call .av_packet_alloc).audioStreamIndex
        ((exposeSoundMetadata av (setupSound av s).2).call .av_packet_alloc).channels
        ((exposeSoundMetadata av (setupSound av s).2).call .av_packet_alloc).packets
        ((exposeSoundMetadata av (setupSound av s).2).call .av_packet_alloc).decodedFrames
        ((exposeSoundMetadata av (setupSound av s).2).call .av_packet_alloc).data
        ((exposeSoundMetadata av (setupSound av s).2).call .av_packet_alloc).swr
        = resampleLoop kNrFramesToPreload av.bestStream kNumOutputChannels av.packets
          s.decodedFrames s.data s.swr := by
      rw [f1, f2, f3, f4, f5, f6]
    exact ⟨(congrArg Resampling.data e).trans i3, (congrArg Resampling.packets e).trans i1⟩

/-! ## When the setup fails -/

theorem allocateAudioFrame_fst (av : LibAV) (s : SoundSource) :
    (allocateAudioFrame av s).1 = av.frameAlloc := by
  unfold allocateAudioFrame
  split <;> simp_all

theorem allocateFormatContext_fst (av : LibAV) (s : SoundSource) :
    (allocateFormatContext av s).1 = decide (av.openInput = 0) := by
  unfold allocateFormatContext
  split <;> simp_all

theorem findAudioStream_fst (av : LibAV) (s : SoundSource) :
    (findAudioStream av s).1 = (decide (0 ≤ av.findStreamInfo) && decide (0 ≤ av.bestStream)) := by
  unfold findAudioStream
  split_ifs <;> simp_all

theorem findAudioStreamSfx_fst (av : LibAV) (s : SoundSource) :
    (findAudioStreamSfx av s).1
      = (decide (0 ≤ av.findStreamInfo) && decide (0 ≤ av.bestStream)) := by
  unfold findAudioStreamSfx
  split_ifs <;> simp_all

theorem prepareCodecContext_fst (av : LibAV) (s : SoundSource) :
    (prepareCodecContext av s).1
      = (av.codecAlloc && decide (av.parametersToContext = 0) && decide (av.codecOpen = 0)) := by
  unfold prepareCodecContext
  split_ifs <;> simp_all

theorem prepareCodecContextSfx_fst (av : LibAV) (s : SoundSource) :
    (prepareCodecContextSfx av s).1
      = (av.codecAlloc && decide (av.parametersToContext = 0) && decide (av.codecOpen = 0)) := by
  unfold prepareCodecContextSfx
  split_ifs <;> simp_all

theorem prepareFormatContextSfx_fst (av : LibAV) (sdt : LoaderSDT) (index : Nat)
    (asWave : Bool) (s : SoundSource) :
    (prepareFormatContextSfx av sdt index asWave s).1
      = ((sdt.load index asWave).1.isSome && decide (av.openInput = 0)) := by
  unfold prepareFormatContextSfx LoaderSDT.loadToMemory
  cases hl : (sdt.load index asWave).1 with
  | none => simp
  | some blob =>
    simp only []
    split_ifs <;> simp_all

/-- The condition of `loadFromFile` in terms of the library's answers. -/
theorem setupSound_fst (av : LibAV) (s : SoundSource) :
    (setupSound av s).1
      = (av.frameAlloc && decide (av.openInput = 0) &&
          (decide (0 ≤ av.findStreamInfo) && decide (0 ≤ av.bestStream)) &&
          (av.codecAlloc && decide (av.parametersToContext = 0) &&
            decide (av.codecOpen = 0))) := by
  unfold setupSound prepareCodecContextWrap
  simp only []
  split_ifs with c1 c2 c3
  · rw [c1]; rw [allocateAudioFrame_fst] at c1; simp [c1]
  · rw [c2]; rw [allocateFormatContext_fst] at c2; rw [allocateAudioFrame_fst] at c1
    simp only [decide_eq_false_iff_not] at c2
    simp [c1, c2]
  · rw [c3]; rw [findAudioStream_fst] at c3; rw [allocateFormatContext_fst] at c2
    rw [allocateAudioFrame_fst] at c1
    simp only [Bool.not_eq_false] at c1 c2
    rw [c1, c2, c3]; simp
  · rw [prepareCodecContext_fst]
    rw [findAudioStream_fst] at c3; rw [allocateFormatContext_fst] at c2
    rw [allocateAudioFrame_fst] at c1
    simp only [Bool.not_eq_false] at c1 c2 c3
    rw [c1, c2, c3]; simp

/-- The condition of `loadSfx` in terms of the answers of the loader and the library. -/
theorem setupSfx_fst (av : LibAV) (sdt : LoaderSDT) (index : Nat) (asWave : Bool)
    (s : SoundSource) :
    (setupSfx av sdt index asWave s).1
      = (av.frameAlloc && ((sdt.load index asWave).1.isSome && decide (av.openInput = 0)) &&
          (decide (0 ≤ av.findStreamInfo) && decide (0 ≤ av.bestStream)) &&
          (av.codecAlloc && decide (av.parametersToContext = 0) &&
            decide (av.codecOpen = 0))) := by
  unfold setupSfx prepareCodecContextSfxWrap
  simp only []
  split_ifs with c1 c2 c3
  · rw [allocateAudioFrame_fst] at c1; simp [c1]
  · rw [c2]; rw [prepareFormatContextSfx_fst] at c2; rw [allocateAudioFrame_fst] at c1
    simp only [Bool.not_eq_false] at c1
    rw [c1, c2]; simp
  · rw [findAudioStreamSfx_fst] at c3; rw [prepareFormatContextSfx_fst] at c2
    rw [allocateAudioFrame_fst] at c1
    simp only [Bool.not_eq_false] at c1 c2
    rw [c1, c2, c3]; simp
  · simp only []
    rw [prepareCodecContextSfx_fst]
    rw [findAudioStreamSfx_fst] at c3; rw [prepareFormatContextSfx_fst] at c2
    rw [allocateAudioFrame_fst] at c1
    simp only [Bool.not_eq_false] at c1 c2 c3
    rw [c1, c2, c3]; simp

/-- The setup of `loadFromFile` fails exactly when one of its stages does. -/
theorem setupSound_false_iff (av : LibAV) (s : SoundSource) :
    (setupSound av s).1 = false ↔
      (av.frameAlloc = false ∨ av.openInput ≠ 0 ∨ av.findStreamInfo < 0 ∨ av.bestStream < 0 ∨
        av.codecAlloc = false ∨ av.parametersToContext ≠ 0 ∨ av.codecOpen ≠ 0) := by
  rw [setupSound_fst]
  have e3 : av.findStreamInfo < 0 ↔ ¬ 0 ≤ av.findStreamInfo := by omega
  have e4 : av.bestStream < 0 ↔ ¬ 0 ≤ av.bestStream := by omega
  rw [e3, e4]
  cases av.frameAlloc <;> cases av.codecAlloc <;> by_cases h2 : av.openInput = 0 <;>
    by_cases h3 : 0 ≤ av.findStreamInfo <;> by_cases h4 : 0 ≤ av.bestStream <;>
    by_cases h6 : av.parametersToContext = 0 <;> by_cases h7 : av.codecOpen = 0 <;>
    simp [h2, h3, h4, h6, h7]

/-- The setup of `loadSfx` fails exactly when one of its stages does. -/
theorem setupSfx_false_iff (av : LibAV) (sdt : LoaderSDT) (index : Nat) (asWave : Bool)
    (s : SoundSource) :
    (setupSfx av sdt index asWave s).1 = false ↔
      (av.frameAlloc = false ∨ (sdt.load index asWave).1 = none ∨ av.openInput ≠ 0 ∨
        av.findStreamInfo < 0 ∨ av.bestStream < 0 ∨
        av.codecAlloc = false ∨ av.parametersToContext ≠ 0 ∨ av.codecOpen ≠ 0) := by
  rw [setupSfx_fst]
  have e3 : av.findStreamInfo < 0 ↔ ¬ 0 ≤ av.findStreamInfo := by omega
  have e4 : av.bestStream < 0 ↔ ¬ 0 ≤ av.bestStream := by omega
  rw [e3, e4]
  cases (sdt.load index asWave).1 <;>
    cases av.frameAlloc <;> cases av.codecAlloc <;> by_cases h2 : av.openInput = 0 <;>
    by_cases h3 : 0 ≤ av.findStreamInfo <;> by_cases h4 : 0 ≤ av.bestStream <;>
    by_cases h6 : av.parametersToContext = 0 <;> by_cases h7 : av.codecOpen = 0 <;>
    simp [h2, h3, h4, h6, h7]

/-! ## The claims on streaming loads, failed setups and cleanup -/

/-- C11, as stated, fails: the preload window counts packets of every stream.  With fifty
packets of another stream in front of one packet of the selected stream, a streaming
in-memory load whose setup succeeds returns with an empty buffer, while the samples of the
first `min(50, 1)` packets of the selected stream are `0, 10, 1, 11`. -/
theorem streaming_preload_counts_other_streams :
    (setupSfx (exLibAV exFiftyOthersThenOne) exLoaderSDT 0 true SoundSource.fresh).1 = true ∧
    (loadSfx (exLibAV exFiftyOthersThenOne) exLoaderSDT 0 true true SoundSource.fresh).data
      = [] ∧
    streamSamples 0 2
      ((exFiftyOthersThenOne.filter fun p => p.stream_index = 0).take
        (min 50 (selectedCount 0 exFiftyOthersThenOne))) = [0, 10, 1, 11] := by
  decide

/-- C11, amended: for every input whose setup succeeds, a load with `streaming = true` on a
source whose counter is 0 has, when it returns (before any step of the background task),
appended exactly the samples of the decoded frames of the selected stream found among the
first `min(50, available)` packets of the container, packets of every stream counting
toward the 50 (file origin: as long as the resampler can be constructed); it has
dispatched exactly one background task, whose body is the drain `decode(0)` followed by
cleanup, and has itself made no release call. -/
theorem streaming_load_preloads_and_dispatches (av : LibAV) (sdt : LoaderSDT) (index : Nat)
    (asWave : Bool) (s : SoundSource) (h0 : s.decodedFrames = 0) :
    ((setupSfx av sdt index asWave s).1 = true →
      (loadSfx av sdt index asWave true s).data = s.data ++
        streamSamples av.bestStream (toSizeT av.nb_channels)
          (av.packets.take (min kNrFramesToPreload av.packets.length)) ∧
      (loadSfx av sdt index asWave true s).loadingThread
        = some LoadTask.decodeRestSfxFramesAndCleanup ∧
      (loadSfx av sdt index asWave true s).dispatched
        = s.dispatched ++ [Call.async LoadTask.decodeRestSfxFramesAndCleanup] ∧
      (loadSfx av sdt index asWave true s).released = s.released ∧
      (loadSfx av sdt index asWave true s).afterLoadingThread
        = cleanupAfterSfxLoading (decodeFrames 0 (loadSfx av sdt index asWave true s))) ∧
    ((setupSound av s).1 = true →
      (loadFromFile av true s).loadingThread
        = some LoadTask.decodeRestSoundFramesAndCleanup ∧
      (loadFromFile av true s).dispatched
        = s.dispatched ++ [Call.async LoadTask.decodeRestSoundFramesAndCleanup] ∧
      (loadFromFile av true s).released = s.released ∧
      (loadFromFile av true s).afterLoadingThread
        = cleanupAfterSoundLoading (decodeAndResampleFrames 0 (loadFromFile av true s)) ∧
      (resamplerReady av.bestStream av.packets →
        (loadFromFile av true s).data = s.data ++
          streamResampled av.bestStream kNumOutputChannels
            (av.packets.take (min kNrFramesToPreload av.packets.length)))) := by
  rw [take_min_length]
  constructor
  · intro h
    obtain ⟨a1, _, a3, a4, a5, a6⟩ := loadSfx_streaming_state av sdt index asWave s h
    rw [h0, Nat.sub_zero] at a1
    exact ⟨a1, a3, a4, a5, a6⟩
  · intro h
    obtain ⟨b1, b2, b3, b4, b5⟩ := loadFromFile_streaming_state av s h
    refine ⟨b1, b2, b3, b4, fun hr => ?_⟩
    have k := (b5 hr).1
    rw [h0, Nat.sub_zero] at k
    exact k

/-- C11, amended, at a concrete input: a streaming in-memory load of three packets on a
fresh source. -/
theorem streaming_load_preloads_and_dispatches_witness :
    (SoundSource.fresh.decodedFrames = 0 ∧
      (setupSfx (exLibAV [exPacket, exOther, exPacket]) exLoaderSDT 0 true
        SoundSource.fresh).1 = true) ∧
    (loadSfx (exLibAV [exPacket, exOther, exPacket]) exLoaderSDT 0 true true
      SoundSource.fresh).dispatched
      = SoundSource.fresh.dispatched ++ [Call.async LoadTask.decodeRestSfxFramesAndCleanup] ∧
    (loadSfx (exLibAV [exPacket, exOther, exPacket]) exLoaderSDT 0 true true
      SoundSource.fresh).released = SoundSource.fresh.released :=
  ⟨⟨rfl, by decide⟩,
   ((streaming_load_preloads_and_dispatches (exLibAV [exPacket, exOther, exPacket])
      exLoaderSDT 0 true SoundSource.fresh rfl).1 (by decide)).2.2.1,
   ((streaming_load_preloads_and_dispatches (exLibAV [exPacket, exOther, exPacket])
      exLoaderSDT 0 true SoundSource.fresh rfl).1 (by decide)).2.2.2.1⟩

/-- C12: for every input whose setup fails at any stage (frame allocation, open or blob
load, stream-info probe, stream selection, codec-context allocation, parameter copy,
decoder open), for both origins and both streaming modes, the load performs no decode: on
a source with an empty buffer, counter 0 and no task, it returns with the buffer empty,
the counter 0, the metadata members as they were (nothing exposed), no task held and no
task dispatched. -/
theorem failed_setup_decodes_nothing (av : LibAV) (sdt : LoaderSDT) (index : Nat)
    (asWave streaming : Bool) (s : SoundSource) (hd : s.data = []) (h0 : s.decodedFrames = 0)
    (ht : s.loadingThread = none) (hn : s.dispatched = []) :
    ((av.frameAlloc = false ∨ av.openInput ≠ 0 ∨ av.findStreamInfo < 0 ∨ av.bestStream < 0 ∨
        av.codecAlloc = false ∨ av.parametersToContext ≠ 0 ∨ av.codecOpen ≠ 0) →
      (loadFromFile av streaming s).data = [] ∧
      (loadFromFile av streaming s).decodedFrames = 0 ∧
      (loadFromFile av streaming s).channels = s.channels ∧
      (loadFromFile av streaming s).sampleRate = s.sampleRate ∧
      (loadFromFile av streaming s).loadingThread = none ∧
      (loadFromFile av streaming s).dispatched = []) ∧
    ((av.frameAlloc = false ∨ (sdt.load index asWave).1 = none ∨ av.openInput ≠ 0 ∨
        av.findStreamInfo < 0 ∨ av.bestStream < 0 ∨
        av.codecAlloc = false ∨ av.parametersToContext ≠ 0 ∨ av.codecOpen ≠ 0) →
      (loadSfx av sdt index asWave streaming s).data = [] ∧
      (loadSfx av sdt index asWave streaming s).decodedFrames = 0 ∧
      (loadSfx av sdt index asWave streaming s).channels = s.channels ∧
      (loadSfx av sdt index asWave streaming s).sampleRate = s.sampleRate ∧
      (loadSfx av sdt index asWave streaming s).loadingThread = none ∧
      (loadSfx av sdt index asWave streaming s).dispatched = []) := by
  constructor
  · intro hf
    have hfail := (setupSound_false_iff av s).2 hf
    obtain ⟨u1, u2, u3, u4, _, u6, _, u8⟩ := setupSound_untouched av s
    rw [loadFromFile_failed av streaming s hfail]
    exact ⟨u1.trans hd, u4.trans h0, u2, u3, u6.trans ht, u8.trans hn⟩
  · intro hf
    have hfail := (setupSfx_false_iff av sdt index asWave s).2 hf
    obtain ⟨u1, u2, u3, u4, _, u6, _, u8⟩ := setupSfx_untouched av sdt index asWave s
    rw [loadSfx_failed av sdt index asWave streaming s hfail]
    exact ⟨u1.trans hd, u4.trans h0, u2, u3, u6.trans ht, u8.trans hn⟩

/-- C12 at a concrete input: a streaming file load in which the parameter copy fails, on
a fresh source. -/
theorem failed_setup_decodes_nothing_witness :
    (SoundSource.fresh.data = [] ∧ SoundSource.fresh.decodedFrames = 0 ∧
      SoundSource.fresh.loadingThread = none ∧ SoundSource.fresh.dispatched = [] ∧
      exLibAVParametersFail.parametersToContext ≠ 0) ∧
    (loadFromFile exLibAVParametersFail true SoundSource.fresh).data = [] ∧
    (loadFromFile exLibAVParametersFail true SoundSource.fresh).dispatched = [] :=
  ⟨⟨rfl, rfl, rfl, rfl, by decide⟩,
   ((failed_setup_decodes_nothing exLibAVParametersFail exLoaderSDT 0 true true
      SoundSource.fresh rfl rfl rfl rfl).1
      (Or.inr (Or.inr (Or.inr (Or.inr (Or.inr (Or.inl (by decide)))))))).1,
   ((failed_setup_decodes_nothing exLibAVParametersFail exLoaderSDT 0 true true
      SoundSource.fresh rfl rfl rfl rfl).1
      (Or.inr (Or.inr (Or.inr (Or.inr (Or.inr (Or.inl (by decide)))))))).2.2.2.2.2⟩

/-- C13, as stated, fails: `loadFromFile` and `loadSfx` are declared `void`.  A load whose
frame allocation fails and a load whose setup succeeds hand the same (empty) value back
to their caller, for both origins: no boolean result reports the failure. -/
theorem load_returns_no_result :
    (setupSound exLibAVFrameFails SoundSource.fresh).1 = false ∧
    (setupSound (exLibAV [exPacket]) SoundSource.fresh).1 = true ∧
    loadFromFile_returns exLibAVFrameFails false SoundSource.fresh
      = loadFromFile_returns (exLibAV [exPacket]) false SoundSource.fresh ∧
    (setupSfx exLibAVFrameFails exLoaderSDT 0 true SoundSource.fresh).1 = false ∧
    (setupSfx (exLibAV [exPacket]) exLoaderSDT 0 true SoundSource.fresh).1 = true ∧
    loadSfx_returns exLibAVFrameFails exLoaderSDT 0 true false SoundSource.fresh
      = loadSfx_returns (exLibAV [exPacket]) exLoaderSDT 0 true false SoundSource.fresh := by
  decide

/-- C13, amended: every setup failure is reported by the failing stage function as a
boolean `false` to the load that called it: the condition of `loadFromFile` (of `loadSfx`)
is false exactly when one of its setup stages failed and true otherwise.  The load itself
returns nothing to its caller; on a failed setup it does nothing besides the
calls of the stages made so far: metadata, decode and dispatch are skipped and the
members a caller reads are as they were. -/
theorem setup_failure_stops_load (av : LibAV) (sdt : LoaderSDT) (index : Nat)
    (asWave streaming : Bool) (s : SoundSource) :
    ((setupSound av s).1 = false ↔
      (av.frameAlloc = false ∨ av.openInput ≠ 0 ∨ av.findStreamInfo < 0 ∨ av.bestStream < 0 ∨
        av.codecAlloc = false ∨ av.parametersToContext ≠ 0 ∨ av.codecOpen ≠ 0)) ∧
    ((setupSound av s).1 = false →
      loadFromFile av streaming s = (setupSound av s).2 ∧
      Untouched s (loadFromFile av streaming s)) ∧
    ((setupSfx av sdt index asWave s).1 = false ↔
      (av.frameAlloc = false ∨ (sdt.load index asWave).1 = none ∨ av.openInput ≠ 0 ∨
        av.findStreamInfo < 0 ∨ av.bestStream < 0 ∨
        av.codecAlloc = false ∨ av.parametersToContext ≠ 0 ∨ av.codecOpen ≠ 0)) ∧
    ((setupSfx av sdt index asWave s).1 = false →
      loadSfx av sdt index asWave streaming s = (setupSfx av sdt index asWave s).2.1 ∧
      Untouched s (loadSfx av sdt index asWave streaming s)) ∧
    loadFromFile_returns av streaming s = () ∧
    loadSfx_returns av sdt index asWave streaming s = () := by
  refine ⟨setupSound_false_iff av s, fun h => ?_, setupSfx_false_iff av sdt index asWave s,
    fun h => ?_, rfl, rfl⟩
  · rw [loadFromFile_failed av streaming s h]
    exact ⟨rfl, setupSound_untouched av s⟩
  · rw [loadSfx_failed av sdt index asWave streaming s h]
    exact ⟨rfl, setupSfx_untouched av sdt index asWave s⟩

/-- C14 fails at the parameter-copy and decoder-open stages: there the stage function
calls `avcodec_free_context` and `avformat_close_input` (after, for the in-memory origin,
the two releases of the custom IO) and returns `false` without `av_frame_free`, so the
frame holder acquired by `allocateAudioFrame` is left unreleased, for both origins.  The
allocation-failure path of the same functions does release it. -/
theorem codec_setup_failure_leaves_frame :
    (setupSound exLibAVParametersFail SoundSource.fresh).1 = false ∧
    (setupSound exLibAVParametersFail SoundSource.fresh).2.calls
      = [Call.av_frame_alloc, Call.avformat_open_input, Call.avcodec_alloc_context3,
         Call.avcodec_free_context, Call.avformat_close_input] ∧
    (setupSound exLibAVCodecOpenFails SoundSource.fresh).2.calls
      = [Call.av_frame_alloc, Call.avformat_open_input, Call.avcodec_alloc_context3,
         Call.avcodec_free_context, Call.avformat_close_input] ∧
    (setupSound exLibAVCodecAllocFails SoundSource.fresh).2.calls
      = [Call.av_frame_alloc, Call.avformat_open_input,
         Call.av_frame_free, Call.avformat_close_input] ∧
    (setupSfx exLibAVParametersFail exLoaderSDT 0 true SoundSource.fresh).1 = false ∧
    (setupSfx exLibAVParametersFail exLoaderSDT 0 true SoundSource.fresh).2.1.calls
      = [Call.av_frame_alloc, Call.av_malloc 4096,
         Call.avio_alloc_context 4096 { ptr := 65536, size := 1044 },
         Call.avformat_alloc_context, Call.avformat_open_input, Call.avcodec_alloc_context3,
         Call.av_free_buffer, Call.avio_context_free, Call.avcodec_free_context,
         Call.avformat_close_input] ∧
    (setupSfx exLibAVCodecOpenFails exLoaderSDT 0 true SoundSource.fresh).2.1.calls
      = [Call.av_frame_alloc, Call.av_malloc 4096,
         Call.avio_alloc_context 4096 { ptr := 65536, size := 1044 },
         Call.avformat_alloc_context, Call.avformat_open_input, Call.avcodec_alloc_context3,
         Call.av_free_buffer, Call.avio_context_free, Call.avcodec_free_context,
         Call.avformat_close_input] ∧
    (setupSfx exLibAVCodecAllocFails exLoaderSDT 0 true SoundSource.fresh).2.1.calls
      = [Call.av_frame_alloc, Call.av_malloc 4096,
         Call.avio_alloc_context 4096 { ptr := 65536, size := 1044 },
         Call.avformat_alloc_context, Call.avformat_open_input,
         Call.av_free_buffer, Call.avio_context_free, Call.av_frame_free,
         Call.avformat_close_input] ∧
    Call.av_frame_free ∉ (loadFromFile exLibAVParametersFail false SoundSource.fresh).calls ∧
    Call.av_frame_free ∉
      (loadSfx exLibAVParametersFail exLoaderSDT 0 true false SoundSource.fresh).calls := by
  decide

/-! ## Cleanup -/

theorem decodeRestSoundFramesAndCleanup_released (x : SoundSource) :
    (decodeRestSoundFramesAndCleanup x).released
      = x.released ++
        [Call.av_frame_free, Call.avcodec_free_context, Call.avformat_close_input] := by
  have h : (decodeAndResampleFrames 0 x).released = x.released := rfl
  unfold decodeRestSoundFramesAndCleanup cleanupAfterSoundLoading
  rw [released_call, released_call, released_call, h]
  simp [Call.isRelease]

theorem decodeRestSfxFramesAndCleanup_released (x : SoundSource) :
    (decodeRestSfxFramesAndCleanup x).released
      = x.released ++
        [Call.av_frame_free, Call.avcodec_free_context, Call.av_free_buffer,
         Call.avio_context_free, Call.avformat_close_input] := by
  have h : (decodeFrames 0 x).released = x.released := rfl
  unfold decodeRestSfxFramesAndCleanup cleanupAfterSfxLoading
  rw [released_call, released_call, released_call, released_call, released_call, h]
  simp [Call.isRelease]

theorem afterLoadingThread_of_none (s : SoundSource) (h : s.loadingThread = none) :
    s.afterLoadingThread = s := by
  unfold SoundSource.afterLoadingThread
  rw [h]

theorem preloadedSound_released (av : LibAV) (s : SoundSource)
    (h : (setupSound av s).1 = true) :
    (decodeFramesWrap ((exposeSoundMetadata av (setupSound av s).2).call
      .av_packet_alloc)).released = s.released :=
  (ready_released _ _ _).trans (setupSound_released av s h)

theorem preloadedSfx_released (av : LibAV) (sdt : LoaderSDT) (index : Nat) (asWave : Bool)
    (s : SoundSource) (h : (setupSfx av sdt index asWave s).1 = true) :
    (decodeFramesSfxWrap ((exposeSfxMetadata av (setupSfx av sdt index asWave s).2.2
      (setupSfx av sdt index asWave s).2.1).call .av_packet_alloc)).released = s.released :=
  (ready_released _ _ _).trans (setupSfx_released av sdt index asWave s h)

/-- A successful file load, once its task (if any) has run, is the decode-rest-and-cleanup
routine applied to a source on which nothing more had been released. -/
theorem loadFromFile_reaches_cleanup (av : LibAV) (streaming : Bool) (s : SoundSource)
    (ht : s.loadingThread = none) (h : (setupSound av s).1 = true) :
    ∃ x, x.released = s.released ∧
      (loadFromFile av streaming s).afterLoadingThread = decodeRestSoundFramesAndCleanup x := by
  cases streaming
  · refine ⟨_, preloadedSound_released av s h, ?_⟩
    rw [afterLoadingThread_of_none _ ((loadFromFile_sync_untouched av s h).1.trans ht)]
    exact loadFromFile_sync av s h
  · obtain ⟨_, _, b3, b4, _⟩ := loadFromFile_streaming_state av s h
    exact ⟨_, b3, b4⟩

/-- A successful in-memory load, once its task (if any) has run, is the
decode-rest-and-cleanup routine applied to a source on which nothing more had been
released. -/
theorem loadSfx_reaches_cleanup (av : LibAV) (sdt : LoaderSDT) (index : Nat)
    (asWave streaming : Bool) (s : SoundSource) (ht : s.loadingThread = none)
    (h : (setupSfx av sdt index asWave s).1 = true) :
    ∃ x, x.released = s.released ∧
      (loadSfx av sdt index asWave streaming s).afterLoadingThread
        = decodeRestSfxFramesAndCleanup x := by
  cases streaming
  · refine ⟨_, preloadedSfx_released av sdt index asWave s h, ?_⟩
    rw [afterLoadingThread_of_none _
      ((loadSfx_sync_untouched av sdt index asWave s h).1.trans ht)]
    exact loadSfx_sync av sdt index asWave s h
  · obtain ⟨_, _, _, _, a5, a6⟩ := loadSfx_streaming_state av sdt index asWave s h
    exact ⟨_, a5, a6⟩

/-- C15: on every load whose setup succeeds (either origin, streaming or not; on a source
that holds no task and on which nothing was released), once the dispatched task (if any)
has run, the release calls made are exactly those of the cleanup routine, each once and
in this order: `av_frame_free`, `avcodec_free_context`, then (in-memory origin only)
`av_free` of the staging buffer and `avio_context_free`, then `avformat_close_input`.
Both the synchronous path and the background task reach them through the same
decode-rest-and-cleanup routine, which is the drain decode followed by the cleanup
calls. -/
theorem cleanup_runs_once_in_order (av : LibAV) (sdt : LoaderSDT) (index : Nat)
    (asWave streaming : Bool) (s : SoundSource) (ht : s.loadingThread = none)
    (hr : s.released = []) :
    ((setupSound av s).1 = true →
      (loadFromFile av streaming s).afterLoadingThread.released
        = [Call.av_frame_free, Call.avcodec_free_context, Call.avformat_close_input] ∧
      ∃ x, x.released = [] ∧
        (loadFromFile av streaming s).afterLoadingThread
          = cleanupAfterSoundLoading (decodeAndResampleFrames 0 x)) ∧
    ((setupSfx av sdt index asWave s).1 = true →
      (loadSfx av sdt index asWave streaming s).afterLoadingThread.released
        = [Call.av_frame_free, Call.avcodec_free_context, Call.av_free_buffer,
           Call.avio_context_free, Call.avformat_close_input] ∧
      ∃ x, x.released = [] ∧
        (loadSfx av sdt index asWave streaming s).afterLoadingThread
          = cleanupAfterSfxLoading (decodeFrames 0 x)) ∧
    (∀ x : SoundSource,
      LoadTask.decodeRestSoundFramesAndCleanup.run x
        = cleanupAfterSoundLoading (decodeAndResampleFrames 0 x) ∧
      (cleanupAfterSoundLoading x).calls = x.calls ++
        [Call.av_frame_free, Call.avcodec_free_context, Call.avformat_close_input]) ∧
    (∀ x : SoundSource,
      LoadTask.decodeRestSfxFramesAndCleanup.run x
        = cleanupAfterSfxLoading (decodeFrames 0 x) ∧
      (cleanupAfterSfxLoading x).calls = x.calls ++
        [Call.av_frame_free, Call.avcodec_free_context, Call.av_free_buffer,
         Call.avio_context_free, Call.avformat_close_input]) := by
  refine ⟨fun h => ?_, fun h => ?_, fun x => ⟨rfl, ?_⟩, fun x => ⟨rfl, ?_⟩⟩
  · obtain ⟨x, hx, e⟩ := loadFromFile_reaches_cleanup av streaming s ht h
    refine ⟨?_, x, hx.trans hr, e⟩
    rw [e, decodeRestSoundFramesAndCleanup_released, hx, hr]
    rfl
  · obtain ⟨x, hx, e⟩ := loadSfx_reaches_cleanup av sdt index asWave streaming s ht h
    refine ⟨?_, x, hx.trans hr, e⟩
    rw [e, decodeRestSfxFramesAndCleanup_released, hx, hr]
    rfl
  · simp [cleanupAfterSoundLoading, SoundSource.call]
  · simp [cleanupAfterSfxLoading, SoundSource.call]

/-- C15 at a concrete input: a streaming in-memory load of three packets on a fresh
source, after its task has run. -/
theorem cleanup_runs_once_in_order_witness :
    (SoundSource.fresh.loadingThread = none ∧ SoundSource.fresh.released = [] ∧
      (setupSfx (exLibAV [exPacket, exOther, exPacket]) exLoaderSDT 0 true
        SoundSource.fresh).1 = true) ∧
    (loadSfx (exLibAV [exPacket, exOther, exPacket]) exLoaderSDT 0 true true
      SoundSource.fresh).afterLoadingThread.released
      = [Call.av_frame_free, Call.avcodec_free_context, Call.av_free_buffer,
         Call.avio_context_free, Call.avformat_close_input] :=
  ⟨⟨rfl, rfl, by decide⟩,
   ((cleanup_runs_once_in_order (exLibAV [exPacket, exOther, exPacket]) exLoaderSDT 0 true
      true SoundSource.fresh rfl rfl).2.1 (by decide)).1⟩

/-! ## Exposed metadata -/

theorem loadFromFile_metadata (av : LibAV) (streaming : Bool) (s : SoundSource)
    (h : (setupSound av s).1 = true) :
    (loadFromFile av streaming s).channels = kNumOutputChannels ∧
    (loadFromFile av streaming s).sampleRate = toSizeT av.sample_rate := by
  cases streaming
  · rw [loadFromFile_sync av s h]
    exact ⟨rfl, rfl⟩
  · rw [loadFromFile_streaming av s h]
    exact ⟨rfl, rfl⟩

theorem loadSfx_metadata (av : LibAV) (sdt : LoaderSDT) (index : Nat)
    (asWave streaming : Bool) (s : SoundSource)
    (h : (setupSfx av sdt index asWave s).1 = true) :
    (loadSfx av sdt index asWave streaming s).channels = toSizeT av.nb_channels ∧
    (loadSfx av sdt index asWave streaming s).sampleRate
      = (sdt.load index asWave).2.sampleRate := by
  obtain ⟨_, _, _, e⟩ := setupSfx_ok av sdt index asWave s h
  have hs : (exposeSfxMetadata av (setupSfx av sdt index asWave s).2.2
      (setupSfx av sdt index asWave s).2.1).sampleRate = (sdt.load index asWave).2.sampleRate :=
    congrArg AssetInfo.sampleRate e
  cases streaming
  · rw [loadSfx_sync av sdt index asWave s h]
    exact ⟨rfl, hs⟩
  · rw [loadSfx_streaming av sdt index asWave s h]
    exact ⟨rfl, hs⟩

/-- C16: after a successful codec setup the exposed metadata depends on the origin.  For
the file origin the channel count is 2 whatever the codec reports, and the sample rate is
the codec context's `sample_rate` (a non-negative `int`); for the in-memory origin the
channel count is the codec context's channel count (a non-negative `int`) and the sample
rate is the declared `assetInfo.sampleRate` of the container, whatever the codec
reports.  This holds for the two expose functions and for the loads, streaming or not. -/
theorem exposed_metadata_by_origin (av : LibAV) (sdt : LoaderSDT) (index : Nat)
    (asWave streaming : Bool) (s : SoundSource) :
    ((exposeSoundMetadata av s).channels = 2 ∧
      (0 ≤ av.sample_rate → av.sample_rate < 2 ^ 31 →
        ((exposeSoundMetadata av s).sampleRate : Int) = av.sample_rate)) ∧
    ((exposeSfxMetadata av sdt s).sampleRate = sdt.assetInfo.sampleRate ∧
      (0 ≤ av.nb_channels → av.nb_channels < 2 ^ 31 →
        ((exposeSfxMetadata av sdt s).channels : Int) = av.nb_channels)) ∧
    ((setupSound av s).1 = true →
      (loadFromFile av streaming s).channels = 2 ∧
      (0 ≤ av.sample_rate → av.sample_rate < 2 ^ 31 →
        ((loadFromFile av streaming s).sampleRate : Int) = av.sample_rate)) ∧
    ((setupSfx av sdt index asWave s).1 = true →
      (loadSfx av sdt index asWave streaming s).sampleRate
        = (sdt.load index asWave).2.sampleRate ∧
      (0 ≤ av.nb_channels → av.nb_channels < 2 ^ 31 →
        ((loadSfx av sdt index asWave streaming s).channels : Int) = av.nb_channels)) := by
  have cast : ∀ x : Int, 0 ≤ x → x < 2 ^ 31 → ((toSizeT x : Nat) : Int) = x := by
    intro x h0 h1
    rw [toSizeT_of_nonneg x h0 (by omega)]
    exact Int.toNat_of_nonneg h0
  refine ⟨⟨rfl, fun h0 h1 => cast _ h0 h1⟩, ⟨rfl, fun h0 h1 => cast _ h0 h1⟩,
    fun h => ?_, fun h => ?_⟩
  · obtain ⟨m1, m2⟩ := loadFromFile_metadata av streaming s h
    exact ⟨m1, fun h0 h1 => by rw [m2]; exact cast _ h0 h1⟩
  · obtain ⟨m1, m2⟩ := loadSfx_metadata av sdt index asWave streaming s h
    exact ⟨m2, fun h0 h1 => by rw [m1]; exact cast _ h0 h1⟩

/-- C16 at a concrete input: a mono codec context at 8000 Hz loaded from a file, and the
example container (declared rate 22050) loaded from memory. -/
theorem exposed_metadata_by_origin_witness :
    (setupSound { exLibAV [exPacket] with nb_channels := 1 } SoundSource.fresh).1 = true ∧
    (loadFromFile { exLibAV [exPacket] with nb_channels := 1 } false
      SoundSource.fresh).channels = 2 ∧
    (setupSfx (exLibAV [exPacket]) exLoaderSDT 0 true SoundSource.fresh).1 = true ∧
    (loadSfx (exLibAV [exPacket]) exLoaderSDT 0 true false SoundSource.fresh).sampleRate
      = (exLoaderSDT.load 0 true).2.sampleRate :=
  ⟨by decide,
   ((exposed_metadata_by_origin { exLibAV [exPacket] with nb_channels := 1 } exLoaderSDT 0
      true false SoundSource.fresh).2.2.1 (by decide)).1,
   by decide,
   ((exposed_metadata_by_origin (exLibAV [exPacket]) exLoaderSDT 0 true false
      SoundSource.fresh).2.2.2 (by decide)).1⟩

/-! ## The resample path when the resampler fails -/

/-- C17 fails when a failed conversion leaves `resampled->nb_samples` non-zero: after
`swr_convert_frame(...) < 0` the code only logs and goes on to the append loop.  With
three packets of one frame each, the conversion failing for the second frame with
`nb_samples = 1` left in `resampled`, the drain call appends the two values `7, 8` for
that frame between the samples of the first and the third; the decode is not aborted and
every packet is read. -/
theorem failed_conversion_still_appends :
    exSwrConvertFails.convertRet < 0 ∧
    (decodeAndResampleFrames 0
      (exSource [exPacket, exPacketConvertFails, exPacket])).data
      = [0, 1, 2, 3, 7, 8, 0, 1, 2, 3] ∧
    (decodeAndResampleFrames 0
      (exSource [exPacket, exPacketConvertFails, exPacket])).packets.length = 0 ∧
    (resampleLoop 0 0 2 [exPacket, exPacketConvertFails, exPacket] 0 [] false).aborted
      = false := by
  decide

theorem resampleFrames_not_ready (channels : Nat) (sendPacket : Int) (r : Received)
    (rs : List Received) (data : List Int) (h : ¬ r.swrReady) :
    (resampleFrames channels sendPacket (r :: rs) data false).1 = data ∧
    (resampleFrames channels sendPacket (r :: rs) data false).2.2 = true := by
  unfold Received.swrReady at h
  rw [resampleFrames]
  by_cases h1 : r.swr.allocErr < 0
  · rw [if_pos ⟨rfl, h1⟩]
    exact ⟨rfl, rfl⟩
  · rw [if_neg (fun c => h1 c.2)]
    by_cases h2 : r.swr.allocated = false
    · rw [if_pos ⟨rfl, h2⟩]
      exact ⟨rfl, rfl⟩
    · rw [if_neg (fun c => h2 c.2)]
      have h3 : r.swr.initialized = false := by
        cases hi : r.swr.initialized
        · rfl
        · exact absurd ⟨by omega, by simpa using h2, hi⟩ h
      rw [if_pos ⟨rfl, h3⟩]
      exact ⟨rfl, rfl⟩

/-- The loop of `decodeAndResampleFrames`, entered with `swr` null, when the first frame
to arrive (after the packets `pre`, which yield no frame of the selected stream) is one
at which the resampler cannot be constructed. -/
theorem resampleLoop_first_frame_fails (n : Nat) (audioIndex : Int) (channels : Nat)
    (hN : n < SIZE_MOD) (pre : List AVPacket) (p : AVPacket) (rest : List AVPacket)
    (r : Received) (rs : List Received)
    (hpre : ∀ q ∈ pre, q.stream_index ≠ audioIndex ∨ q.received = [])
    (hp : p.stream_index = audioIndex) (hrec : p.received = r :: rs) (hr : ¬ r.swrReady)
    (c : Nat) (data : List Int) (hg : n = 0 ∨ c + pre.length < n) :
    (resampleLoop n audioIndex channels (pre ++ p :: rest) c data false).packets = rest ∧
    (resampleLoop n audioIndex channels (pre ++ p :: rest) c data false).data = data ∧
    (resampleLoop n audioIndex channels (pre ++ p :: rest) c data false).aborted = true ∧
    (0 < n →
      (resampleLoop n audioIndex channels (pre ++ p :: rest) c data false).decodedFrames
        = c + pre.length) := by
  induction pre generalizing c with
  | nil =>
    have hg' : n = 0 ∨ c < n := by
      rcases hg with h | h
      · exact Or.inl h
      · exact Or.inr (by simpa using h)
    obtain ⟨f1, f2⟩ := resampleFrames_not_ready channels p.sendPacket r rs data hr
    rw [List.nil_append, resampleLoop, if_pos hg', if_pos hp, hrec]
    simp only [f2, if_true, f1, List.length_nil, Nat.add_zero, implies_true, and_self]
  | cons q pre' ih =>
    have hg' : n = 0 ∨ c < n := by
      rcases hg with h | h
      · exact Or.inl h
      · exact Or.inr (by simp only [List.length_cons] at h; omega)
    have hpre' : ∀ x ∈ pre', x.stream_index ≠ audioIndex ∨ x.received = [] :=
      fun x hx => hpre x (List.mem_cons_of_mem _ hx)
    have hnext : n = 0 ∨ (c + 1) % SIZE_MOD + pre'.length < n := by
      rcases hg with h | h
      · exact Or.inl h
      · simp only [List.length_cons] at h
        have : (c + 1) % SIZE_MOD = c + 1 := Nat.mod_eq_of_lt (by omega)
        exact Or.inr (by omega)
    have hcount : 0 < n → (c + 1) % SIZE_MOD + pre'.length = c + (q :: pre').length := by
      intro hn
      rcases hg with h | h
      · omega
      · simp only [List.length_cons] at h ⊢
        have : (c + 1) % SIZE_MOD = c + 1 := Nat.mod_eq_of_lt (by omega)
        omega
    obtain ⟨i1, i2, i3, i4⟩ := ih hpre' ((c + 1) % SIZE_MOD) hnext
    rw [List.cons_append, resampleLoop, if_pos hg']
    by_cases hq : q.stream_index = audioIndex
    · have hq0 : q.received = [] := by
        rcases hpre q (List.mem_cons_self _ _) with h | h
        · exact absurd hq h
        · exact h
      rw [if_pos hq, hq0]
      simp only [resampleFrames, Bool.false_eq_true, if_false]
      exact ⟨i1, i2, i3, fun hn => (i4 hn).trans (hcount hn)⟩
    · rw [if_neg hq]
      exact ⟨i1, i2, i3, fun hn => (i4 hn).trans (hcount hn)⟩

/-- C18: on the resample path, when the resampler is null and its allocation or
initialisation fails at the first frame that arrives (after packets that yielded no frame
of the selected stream), `decodeAndResampleFrames` returns at once: the loop is left
through an early `return`, the packets after the failing one stay unread, a positive
requested packet count is not reached, and the sample buffer on return is the buffer as
it was: nothing is appended, removed or changed. -/
theorem resampler_failure_keeps_buffer (n : Nat) (s : SoundSource) (hN : n < SIZE_MOD)
    (pre : List AVPacket) (p : AVPacket) (rest : List AVPacket) (r : Received)
    (rs : List Received) (hswr : s.swr = false) (hpk : s.packets = pre ++ p :: rest)
    (hpre : ∀ q ∈ pre, q.stream_index ≠ s.audioStreamIndex ∨ q.received = [])
    (hp : p.stream_index = s.audioStreamIndex) (hrec : p.received = r :: rs)
    (hr : ¬ r.swrReady) (hg : n = 0 ∨ s.decodedFrames + pre.length < n) :
    (decodeAndResampleFrames n s).data = s.data ∧
    (decodeAndResampleFrames n s).packets = rest ∧
    (resampleLoop n s.audioStreamIndex s.channels s.packets s.decodedFrames s.data
      s.swr).aborted = true ∧
    (0 < n → (decodeAndResampleFrames n s).decodedFrames = s.decodedFrames + pre.length ∧
      (decodeAndResampleFrames n s).decodedFrames < n) := by
  obtain ⟨l1, l2, l3, l4⟩ := resampleLoop_first_frame_fails n s.audioStreamIndex s.channels
    hN pre p rest r rs hpre hp hrec hr s.decodedFrames s.data hg
  rw [hswr, hpk]
  refine ⟨?_, ?_, l3, fun hn => ?_⟩
  · simp only [decodeAndResampleFrames, hpk, hswr, l2]
  · simp only [decodeAndResampleFrames, hpk, hswr, l1]
  · have e : (decodeAndResampleFrames n s).decodedFrames = s.decodedFrames + pre.length := by
      simp only [decodeAndResampleFrames, hpk, hswr, l4 hn]
    refine ⟨e, ?_⟩
    rw [e]
    rcases hg with h | h
    · omega
    · exact h

/-- C18 at a concrete input: a drain call on a buffer holding `5, 6`, the resampler
failing at the first frame, which arrives with the second packet. -/
theorem resampler_failure_keeps_buffer_witness :
    (exBufferedSource.swr = false ∧
      exBufferedSource.packets = [exOther] ++ exPacketSwrFails :: [exPacket] ∧
      exPacketSwrFails.stream_index = exBufferedSource.audioStreamIndex) ∧
    (decodeAndResampleFrames 0 exBufferedSource).data = [5, 6] ∧
    (decodeAndResampleFrames 0 exBufferedSource).packets = [exPacket] :=
  ⟨⟨rfl, rfl, rfl⟩,
   (resampler_failure_keeps_buffer 0 exBufferedSource (by decide)
      [exOther] exPacketSwrFails [exPacket] { frame := exFrame, swr := exSwrFails } [] rfl rfl
      (fun q hq => Or.inl (by rw [List.mem_singleton.1 hq]; decide)) rfl rfl
      (fun h => absurd h.1 (by decide)) (Or.inl rfl)).1,
   (resampler_failure_keeps_buffer 0 exBufferedSource (by decide)
      [exOther] exPacketSwrFails [exPacket] { frame := exFrame, swr := exSwrFails } [] rfl rfl
      (fun q hq => Or.inl (by rw [List.mem_singleton.1 hq]; decide)) rfl rfl
      (fun h => absurd h.1 (by decide)) (Or.inl rfl)).2.1⟩

/-! ## The mutex around the appends -/

theorem pushed_append (a b : List Op) : pushed (a ++ b) = pushed a ++ pushed b := by
  induction a with
  | nil => rfl
  | cons op ops ih => cases op <;> simp [pushed, ih]

theorem pushed_map_push_back (xs : List Int) : pushed (xs.map Op.push_back) = xs := by
  induction xs with
  | nil => rfl
  | cons x xs ih => simp [pushed, ih]

theorem pushed_writeSamplesOps (channels : Nat) (frame : AVFrame) :
    pushed (writeSamplesOps channels frame) = interleave channels frame := by
  unfold writeSamplesOps
  rw [pushed_append, pushed_append, pushed_map_push_back, writeSamples_eq]
  simp [pushed]

theorem pushed_appendResampledOps (channels : Nat) (resampled : AVFrame) :
    pushed (appendResampledOps channels resampled) = resampledSamples channels resampled := by
  unfold appendResampledOps
  rw [pushed_append, pushed_append, pushed_map_push_back, appendResampled_eq]
  simp [pushed]

/-- A guarded sequence ends with the mutex not held, so what follows it starts there. -/
theorem guardedFrom_append (a b : List Op) (held : Bool) (h : guardedFrom held a = true) :
    guardedFrom held (a ++ b) = guardedFrom false b := by
  induction a generalizing held with
  | nil =>
    cases held
    · rfl
    · simp [guardedFrom] at h
  | cons op ops ih =>
    cases op <;> cases held <;> simp [guardedFrom] at h ⊢ <;> exact ih _ h

theorem guardedFrom_pushes_unlock (xs : List Int) :
    guardedFrom true (xs.map Op.push_back ++ [Op.unlock]) = true := by
  induction xs with
  | nil => rfl
  | cons x xs ih => simpa [guardedFrom] using ih

/-- One locked section: `lock`, the pushes of one frame, `unlock`. -/
theorem guardedFrom_section (xs : List Int) :
    guardedFrom false ([Op.lock] ++ xs.map Op.push_back ++ [Op.unlock]) = true := by
  have h := guardedFrom_pushes_unlock xs
  simpa [guardedFrom] using h

theorem writeSamplesOps_guarded (channels : Nat) (frame : AVFrame) :
    guardedFrom false (writeSamplesOps channels frame) = true :=
  guardedFrom_section _

theorem appendResampledOps_guarded (channels : Nat) (resampled : AVFrame) :
    guardedFrom false (appendResampledOps channels resampled) = true :=
  guardedFrom_section _

theorem receiveFramesOps_guarded (channels : Nat) (sendPacket : Int)
    (received : List Received) :
    guardedFrom false (receiveFramesOps channels sendPacket received) = true := by
  induction received with
  | nil => rfl
  | cons r rest ih =>
    rw [receiveFramesOps]
    simp only [guardedFrom, Bool.not_false, Bool.true_and]
    split
    · rw [guardedFrom_append _ _ _ (writeSamplesOps_guarded _ _)]
      exact ih
    · exact ih

theorem receiveFramesOps_pushed (channels : Nat) (sendPacket : Int)
    (received : List Received) :
    pushed (receiveFramesOps channels sendPacket received)
      = (if sendPacket = 0 then received else []).flatMap
          fun r => interleave channels r.frame := by
  induction received with
  | nil => simp [receiveFramesOps, pushed]
  | cons r rest ih =>
    rw [receiveFramesOps]
    simp only [pushed, pushed_append, ih]
    by_cases h : sendPacket = 0
    · simp [h, pushed_writeSamplesOps]
    · simp [h, pushed]

theorem decodeFramesOps_guarded (n : Nat) (audioIndex : Int) (channels : Nat)
    (packets : List AVPacket) (c : Nat) :
    guardedFrom false (decodeFramesOps n audioIndex channels packets c) = true := by
  induction packets generalizing c with
  | nil =>
    rw [decodeFramesOps]
    split <;> rfl
  | cons p rest ih =>
    rw [decodeFramesOps]
    split
    · simp only [guardedFrom, Bool.not_false, Bool.true_and]
      split
      · have hs : guardedFrom false
            (Op.avcodec_send_packet :: receiveFramesOps channels p.sendPacket p.received)
            = true := by
          simpa [guardedFrom] using receiveFramesOps_guarded channels p.sendPacket p.received
        rw [guardedFrom_append _ _ _ hs]
        exact ih _
      · exact ih _
    · rfl

/-- The samples `decodeFrames` appends are the samples its operations push, in order. -/
theorem decodeFramesOps_pushed (n : Nat) (audioIndex : Int) (channels : Nat)
    (packets : List AVPacket) (c : Nat) (data : List Int) :
    (decodeFramesLoop n audioIndex channels packets c data).data
      = data ++ pushed (decodeFramesOps n audioIndex channels packets c) := by
  induction packets generalizing c data with
  | nil =>
    rw [decodeFramesLoop, decodeFramesOps]
    split <;> simp [pushed]
  | cons p rest ih =>
    rw [decodeFramesLoop, decodeFramesOps]
    split
    · rw [ih, decodeFramesLoop_step_data]
      simp only [pushed, pushed_append, List.append_assoc]
      congr 2
      unfold packetSamples AVPacket.decoded
      split
      · simp [pushed, receiveFramesOps_pushed]
      · simp [pushed]
    · simp [pushed]

theorem resampleFrames_flags (channels : Nat) (sendPacket : Int) (received : List Received)
    (data : List Int) (swr : Bool) :
    (resampleFrames channels sendPacket received data swr).2
      = (resampleFrames channels sendPacket received [] swr).2 ∧
    (resampleFrames channels sendPacket received data swr).1
      = data ++ pushed (resampleFramesOps channels sendPacket received swr) := by
  induction received generalizing data swr with
  | nil => simp [resampleFrames, resampleFramesOps, pushed]
  | cons r rest ih =>
    rw [resampleFrames, resampleFrames, resampleFramesOps]
    split
    · simp [pushed]
    · split
      · simp [pushed]
      · split
        · simp [pushed]
        · refine ⟨((ih _ true).1).trans ((ih _ true).1).symm, ?_⟩
          rw [(ih _ true).2]
          simp only [pushed, pushed_append, List.append_assoc]
          by_cases h : sendPacket = 0
          · simp [h, appendResampled_eq, pushed_appendResampledOps]
          · simp [h, pushed]

theorem resampleFramesOps_guarded (channels : Nat) (sendPacket : Int)
    (received : List Received) (swr : Bool) :
    guardedFrom false (resampleFramesOps channels sendPacket received swr) = true := by
  induction received generalizing swr with
  | nil => rfl
  | cons r rest ih =>
    rw [resampleFramesOps]
    split
    · rfl
    · split
      · rfl
      · split
        · rfl
        · simp only [guardedFrom, Bool.not_false, Bool.true_and]
          split
          · rw [guardedFrom_append _ _ _ (appendResampledOps_guarded _ _)]
            exact ih _
          · exact ih _

theorem resampleLoopOps_guarded (n : Nat) (audioIndex : Int) (channels : Nat)
    (packets : List AVPacket) (c : Nat) (swr : Bool) :
    guardedFrom false (resampleLoopOps n audioIndex channels packets c swr) = true := by
  induction packets generalizing c swr with
  | nil =>
    rw [resampleLoopOps]
    split <;> rfl
  | cons p rest ih =>
    rw [resampleLoopOps]
    split
    · split
      · simp only [guardedFrom, Bool.not_false, Bool.true_and]
        rw [guardedFrom_append _ _ _ (resampleFramesOps_guarded _ _ _ _)]
        split
        · rfl
        · exact ih _ _
      · simp only [guardedFrom, Bool.not_false, Bool.true_and]
        exact ih _ _
    · rfl

/-- The samples `decodeAndResampleFrames` appends are the samples its operations push, in
order. -/
theorem resampleLoopOps_pushed (n : Nat) (audioIndex : Int) (channels : Nat)
    (packets : List AVPacket) (c : Nat) (data : List Int) (swr : Bool) :
    (resampleLoop n audioIndex channels packets c data swr).data
      = data ++ pushed (resampleLoopOps n audioIndex channels packets c swr) := by
  induction packets generalizing c data swr with
  | nil =>
    rw [resampleLoop, resampleLoopOps]
    split <;> simp [pushed]
  | cons p rest ih =>
    obtain ⟨hf, hd⟩ := resampleFrames_flags channels p.sendPacket p.received data swr
    rw [resampleLoop, resampleLoopOps]
    split
    · split
      · simp only [hf]
        split
        · rw [hd]
          simp [pushed, pushed_append]
        · rw [ih, hd]
          simp [pushed, pushed_append]
      · rw [ih]
        simp [pushed]
    · simp [pushed]

/-- C19: every append to the sample buffer, on the direct path (`decodeFrames`) and on the
resample path (`decodeAndResampleFrames`), is made while the decoding thread holds the
buffer's mutex, and the guard is scoped to the append of one decoded frame: in the
sequence of operations of either loop, for every input, `push_back` occurs only between
the construction and the destruction of the guard, and no `av_read_frame`,
`avcodec_send_packet` or `avcodec_receive_frame` occurs in between (each frame's appends
follow an `avcodec_receive_frame`, so a locked section holds the appends of one frame);
the samples pushed are exactly those the loops append to the buffer. -/
theorem appends_hold_mutex (n : Nat) (audioIndex : Int) (channels : Nat)
    (packets : List AVPacket) (c : Nat) (data : List Int) (swr : Bool) :
    guardedFrom false (decodeFramesOps n audioIndex channels packets c) = true ∧
    (decodeFramesLoop n audioIndex channels packets c data).data
      = data ++ pushed (decodeFramesOps n audioIndex channels packets c) ∧
    guardedFrom false (resampleLoopOps n audioIndex channels packets c swr) = true ∧
    (resampleLoop n audioIndex channels packets c data swr).data
      = data ++ pushed (resampleLoopOps n audioIndex channels packets c swr) :=
  ⟨decodeFramesOps_guarded n audioIndex channels packets c,
   decodeFramesOps_pushed n audioIndex channels packets c data,
   resampleLoopOps_guarded n audioIndex channels packets c swr,
   resampleLoopOps_pushed n audioIndex channels packets c data swr⟩

/-! ## The money increment -/

theorem wrapInt32_of_range (x : Int) (h1 : -2 ^ 31 ≤ x) (h2 : x < 2 ^ 31) : wrapInt32 x = x := by
  unfold wrapInt32
  omega

theorem digits12_range (j : Nat) (h : j ≤ 9) : 0 ≤ digits12 j ∧ digits12 j ≤ 123456789 := by
  interval_cases j <;> decide

theorem GetIncrementLoop_small (d r i : Int) (h : |d| < 100) :
    GetIncrementLoop d r i = if d < 0 then wrapInt32 (-r) else r := by
  rw [GetIncrementLoop, dif_neg (not_le.2 h)]

theorem GetIncrementLoop_step (d r i : Int) (h : 100 ≤ |d|) :
    GetIncrementLoop d r i
      = GetIncrementLoop (d.tdiv 10) (wrapInt32 (r * 10 + i)) (wrapInt32 (i + 1)) := by
  rw [GetIncrementLoop, dif_pos h]

theorem tdiv_ten_neg_iff (d : Int) (h : 10 ≤ d.natAbs) : d.tdiv 10 < 0 ↔ d < 0 := by
  by_cases hd : 0 ≤ d
  · rw [Int.tdiv_eq_ediv hd (by decide)]
    omega
  · have : d = -(-d) := by omega
    rw [this, Int.neg_tdiv, Int.tdiv_eq_ediv (by omega) (by decide)]
    omega

theorem GetIncrementLoop_iter (t : Nat) : ∀ (d : Int) (j : Nat), 1 ≤ j → j + t ≤ 9 →
    0 < d.natAbs → d.natAbs < 10 ^ (t + 2) → (t = 0 ∨ 10 ^ (t + 1) ≤ d.natAbs) →
    GetIncrementLoop d (digits12 j) ((j + 1 : Nat) : Int)
      = if d < 0 then -digits12 (j + t) else digits12 (j + t) := by
  induction t with
  | zero =>
    intro d j hj hjt hpos hlt _
    have habs : |d| < 100 := by
      rw [Int.abs_eq_natAbs]
      have : d.natAbs < 100 := by simpa using hlt
      omega
    obtain ⟨b1, b2⟩ := digits12_range j (by omega)
    rw [GetIncrementLoop_small d _ _ habs, wrapInt32_of_range _ (by omega) (by omega)]
    rfl
  | succ t ih =>
    intro d j hj hjt hpos hlt hge
    have hge' : 10 ^ (t + 2) ≤ d.natAbs := by
      rcases hge with h | h
      · omega
      · exact h
    have h100 : 100 ≤ 10 ^ (t + 2) := by
      calc 100 = 10 ^ 2 := by norm_num
        _ ≤ 10 ^ (t + 2) := Nat.pow_le_pow_right (by norm_num) (by omega)
    have habs : 100 ≤ |d| := by
      rw [Int.abs_eq_natAbs]
      omega
    obtain ⟨b1, b2⟩ := digits12_range j (by omega)
    have hr : wrapInt32 (digits12 j * 10 + ((j + 1 : Nat) : Int)) = digits12 (j + 1) := by
      rw [wrapInt32_of_range _ (by omega) (by omega)]
      rfl
    have hi : wrapInt32 (((j + 1 : Nat) : Int) + 1) = ((j + 1 + 1 : Nat) : Int) := by
      rw [wrapInt32_of_range _ (by omega) (by omega)]
      omega
    have hn : (d.tdiv 10).natAbs = d.natAbs / 10 := Int.natAbs_tdiv d 10
    have hlt' : d.natAbs < 10 * 10 ^ (t + 2) := by
      have e : 10 ^ (t + 1 + 2) = 10 * 10 ^ (t + 2) := by ring
      rw [← e]; exact hlt
    have hge'' : 10 ^ (t + 1) * 10 ≤ d.natAbs := by
      have e : 10 ^ (t + 2) = 10 ^ (t + 1) * 10 := by ring
      rw [← e]; exact hge'
    have q1 : 0 < (d.tdiv 10).natAbs := by
      rw [hn]; exact Nat.div_pos (by omega) (by norm_num)
    have q2 : (d.tdiv 10).natAbs < 10 ^ (t + 2) := by
      rw [hn]; exact Nat.div_lt_of_lt_mul hlt'
    have q3 : 10 ^ (t + 1) ≤ (d.tdiv 10).natAbs := by
      rw [hn]; exact (Nat.le_div_iff_mul_le (by norm_num)).2 hge''
    rw [GetIncrementLoop_step d _ _ habs, hr, hi,
      ih (d.tdiv 10) (j + 1) (by omega) (by omega) q1 q2 (Or.inr q3)]
    have hs := tdiv_ten_neg_iff d (by omega)
    have e : j + 1 + t = j + (t + 1) := by omega
    rw [e]
    by_cases hd : d < 0
    · rw [if_pos hd, if_pos (hs.2 hd)]
    · rw [if_neg hd, if_neg (fun c => hd (hs.1 c))]

/-- The increment for a difference of `k + 1` decimal digits (`k = 1` also for one digit). -/
theorem GetIncrement_of_range (d : Int) (k : Nat) (hk1 : 1 ≤ k) (hk9 : k ≤ 9)
    (hpos : 0 < d.natAbs) (hlo : k = 1 ∨ 10 ^ k ≤ d.natAbs) (hhi : d.natAbs < 10 ^ (k + 1)) :
    GetIncrement d = d.sign * digits12 k := by
  have hd0 : d ≠ 0 := by
    intro h; rw [h] at hpos; simp at hpos
  obtain ⟨t, rfl⟩ : ∃ t, k = t + 1 := ⟨k - 1, by omega⟩
  have h := GetIncrementLoop_iter t d 1 (le_refl 1) (by omega) hpos hhi
    (by rcases hlo with h | h
        · exact Or.inl (by omega)
        · exact Or.inr h)
  have e : 1 + t = t + 1 := by omega
  rw [e] at h
  have h12 : digits12 1 = 1 := by decide
  have h2 : (((1 + 1 : Nat)) : Int) = 2 := by norm_num
  rw [h12, h2] at h
  unfold GetIncrement
  rw [if_neg hd0, h]
  by_cases hneg : d < 0
  · rw [if_pos hneg, Int.sign_eq_neg_one_of_neg hneg]; ring
  · rw [if_neg hneg, Int.sign_eq_one_of_pos (by omega)]; ring

theorem natAbs_lt_of_int32 (d : Int) (hmin : -2 ^ 31 < d) (hmax : d < 2 ^ 31) :
    d.natAbs < 10 ^ 10 := by
  have : (10 : Nat) ^ 10 = 10000000000 := by norm_num
  omega

theorem GetIncrement_digits (d : Int) (hmin : -2 ^ 31 < d) (hmax : d < 2 ^ 31) (hd : d ≠ 0) :
    GetIncrement d
      = d.sign * digits12 (max 1 ((Nat.digits 10 d.natAbs).length - 1)) := by
  have hx : d.natAbs ≠ 0 := Int.natAbs_ne_zero.2 hd
  have hlen := Nat.digits_len 10 d.natAbs (by norm_num) hx
  have hle := Nat.pow_log_le_self 10 hx
  have hlt := Nat.lt_pow_succ_log_self (b := 10) (by norm_num) d.natAbs
  have h10 := natAbs_lt_of_int32 d hmin hmax
  have hL : Nat.log 10 d.natAbs < 10 :=
    (Nat.pow_lt_pow_iff_right (a := 10) (by norm_num)).1 (lt_of_le_of_lt hle h10)
  rw [hlen, Nat.add_sub_cancel]
  by_cases h0 : Nat.log 10 d.natAbs = 0
  · rw [h0] at hlt ⊢
    have : d.natAbs < 10 ^ (1 + 1) := by
      have : d.natAbs < 10 := by simpa using hlt
      omega
    exact GetIncrement_of_range d 1 (le_refl 1) (by norm_num) (by omega) (Or.inl rfl) this
  · have e : max 1 (Nat.log 10 d.natAbs) = Nat.log 10 d.natAbs := by omega
    rw [e]
    exact GetIncrement_of_range d _ (by omega) (by omega) (by omega) (Or.inr hle) hlt

/-- C20: for every 32-bit difference `d` other than the minimum value, `GetIncrement(d)`
is 0 when `d = 0`, and otherwise has the sign of `d` and as magnitude the decimal number
`12...k` made of the digits 1 to `k`, where `k` is the number of decimal digits of `|d|`
minus 1, at least 1: 1 for `|d| < 100`, 12 for `100 ≤ |d| < 1000`, 123 for
`1000 ≤ |d| < 10000`, and so on up to 123456789 (the loop ends for every such `d`: the
function is total). -/
theorem GetIncrement_magnitude (d : Int) (hmin : -2 ^ 31 < d) (hmax : d < 2 ^ 31) :
    (d = 0 → GetIncrement d = 0) ∧
    (d ≠ 0 → GetIncrement d
      = d.sign * digits12 (max 1 ((Nat.digits 10 d.natAbs).length - 1))) ∧
    (d ≠ 0 → |d| < 100 → GetIncrement d = d.sign * 1) ∧
    (∀ k : Nat, 2 ≤ k → k ≤ 9 → 10 ^ k ≤ |d| → |d| < 10 ^ (k + 1) →
      GetIncrement d = d.sign * digits12 k) ∧
    digits12 1 = 1 ∧ digits12 2 = 12 ∧ digits12 3 = 123 ∧ digits12 4 = 1234 ∧
    digits12 9 = 123456789 := by
  refine ⟨fun h => by rw [h]; rfl, GetIncrement_digits d hmin hmax, fun hd h => ?_,
    fun k hk2 hk9 hlo hhi => ?_, by decide, by decide, by decide, by decide, by decide⟩
  · have hx : d.natAbs ≠ 0 := Int.natAbs_ne_zero.2 hd
    have hlt : d.natAbs < 10 ^ (1 + 1) := by
      rw [Int.abs_eq_natAbs] at h
      have : d.natAbs < 100 := by omega
      simpa using this
    have e := GetIncrement_of_range d 1 (le_refl 1) (by norm_num) (by omega) (Or.inl rfl) hlt
    rw [e]
    rfl
  · rw [Int.abs_eq_natAbs] at hlo hhi
    have h1 : 10 ^ k ≤ d.natAbs := by exact_mod_cast hlo
    have h2 : d.natAbs < 10 ^ (k + 1) := by exact_mod_cast hhi
    have hpos : 0 < d.natAbs := lt_of_lt_of_le (Nat.pos_pow_of_pos _ (by norm_num)) h1
    exact GetIncrement_of_range d k (by omega) hk9 hpos (Or.inr h1) h2

/-- C20 at concrete inputs: the differences -1234 and 2147483647. -/
theorem GetIncrement_magnitude_witness :
    ((-2 ^ 31 < (-1234 : Int) ∧ (-1234 : Int) < 2 ^ 31) ∧ GetIncrement (-1234) = -123) ∧
    ((-2 ^ 31 < (2147483647 : Int) ∧ (2147483647 : Int) < 2 ^ 31) ∧
      GetIncrement 2147483647 = 123456789) :=
  ⟨⟨⟨by decide, by decide⟩,
    ((GetIncrement_magnitude (-1234) (by decide) (by decide)).2.2.2.1 3 (by decide)
      (by decide) (by decide) (by decide)).trans (by decide)⟩,
   ⟨⟨by decide, by decide⟩,
    ((GetIncrement_magnitude 2147483647 (by decide) (by decide)).2.2.2.1 9 (by decide)
      (by decide) (by decide) (by decide)).trans (by decide)⟩⟩

/-! ## The bound of a decode call against the counter -/

theorem decodeFramesLoop_reached (n : Nat) (audioIndex : Int) (channels : Nat) (hn : 0 < n)
    (packets : List AVPacket) (c : Nat) (hc : n ≤ c) (data : List Int) :
    decodeFramesLoop n audioIndex channels packets c data
      = { packets := packets, decodedFrames := c, data := data } := by
  have hg : ¬ (n = 0 ∨ c < n) := by omega
  cases packets with
  | nil => rfl
  | cons p rest => rw [decodeFramesLoop, if_neg hg]

theorem resampleLoop_reached (n : Nat) (audioIndex : Int) (channels : Nat) (hn : 0 < n)
    (packets : List AVPacket) (c : Nat) (hc : n ≤ c) (data : List Int) (swr : Bool) :
    resampleLoop n audioIndex channels packets c data swr
      = { packets := packets, decodedFrames := c, data := data, swr := swr,
          aborted := false } := by
  have hg : ¬ (n = 0 ∨ c < n) := by omega
  cases packets with
  | nil => rfl
  | cons p rest => rw [resampleLoop, if_neg hg]

theorem decodeFrames_reached (n : Nat) (s : SoundSource) (hn : 0 < n)
    (hc : n ≤ s.decodedFrames) : decodeFrames n s = s := by
  unfold decodeFrames
  rw [decodeFramesLoop_reached n _ _ hn _ _ hc]

theorem decodeAndResampleFrames_reached (n : Nat) (s : SoundSource) (hn : 0 < n)
    (hc : n ≤ s.decodedFrames) :
    decodeAndResampleFrames n s = { s with swr := false } := by
  unfold decodeAndResampleFrames
  rw [resampleLoop_reached n _ _ hn _ _ hc]
  rfl

theorem decodeAndResampleFrames_swr (n : Nat) (s : SoundSource)
    (h : (resampleLoop n s.audioStreamIndex s.channels s.packets s.decodedFrames s.data
      s.swr).aborted = false) :
    (decodeAndResampleFrames n s).swr = false := by
  unfold decodeAndResampleFrames
  simp only [h]
  rfl

theorem SoundSource.swr_false_eq (t : SoundSource) (h : t.swr = false) :
    { t with swr := false } = t := by
  cases t
  simp only at h
  subst h
  rfl

/-- C21: the bound of a decode call is compared with the cumulative counter
`decodedFrames`, not with a count of the packets read in this call.  For every `n > 0`
(a `size_t`), when the counter has already reached `n`, `decodeFrames(n)` leaves the
source as it is and `decodeAndResampleFrames(n)` reads no packet, appends no sample and
leaves the counter unchanged; in general `decodeFrames(n)` reads the `n - decodedFrames`
next packets.  So after a first call with bound `n` from counter 0 on an input of at least
`n` packets (the counter is then `n`), a second call with the same bound changes nothing,
on the direct path and, while the resampler can be constructed, on the resample path;
with `n = kNrFramesToPreload = 50` these are the two preload wrappers. -/
theorem decode_bound_is_cumulative (n : Nat) (s : SoundSource) (hn : 0 < n)
    (hN : n < SIZE_MOD) :
    (n ≤ s.decodedFrames →
      decodeFrames n s = s ∧
      (decodeAndResampleFrames n s).packets = s.packets ∧
      (decodeAndResampleFrames n s).data = s.data ∧
      (decodeAndResampleFrames n s).decodedFrames = s.decodedFrames) ∧
    (decodeFrames n s).packets = s.packets.drop (n - s.decodedFrames) ∧
    (s.decodedFrames = 0 → n ≤ s.packets.length →
      (decodeFrames n s).decodedFrames = n ∧
      decodeFrames n (decodeFrames n s) = decodeFrames n s ∧
      (resamplerReady s.audioStreamIndex s.packets →
        (decodeAndResampleFrames n s).decodedFrames = n ∧
        decodeAndResampleFrames n (decodeAndResampleFrames n s)
          = decodeAndResampleFrames n s)) ∧
    (n = kNrFramesToPreload → s.decodedFrames = 0 → n ≤ s.packets.length →
      decodeFramesSfxWrap (decodeFramesSfxWrap s) = decodeFramesSfxWrap s ∧
      (resamplerReady s.audioStreamIndex s.packets →
        decodeFramesWrap (decodeFramesWrap s) = decodeFramesWrap s)) := by
  have key : s.decodedFrames = 0 → n ≤ s.packets.length →
      (decodeFrames n s).decodedFrames = n ∧
      decodeFrames n (decodeFrames n s) = decodeFrames n s ∧
      (resamplerReady s.audioStreamIndex s.packets →
        (decodeAndResampleFrames n s).decodedFrames = n ∧
        decodeAndResampleFrames n (decodeAndResampleFrames n s)
          = decodeAndResampleFrames n s) := by
    intro h0 hlen
    have hd : (decodeFrames n s).decodedFrames = n := by
      rw [(decodeFrames_pos n s hn hN).2.1, h0]
      simp only [Nat.sub_zero, Nat.zero_add]
      exact Nat.min_eq_left hlen
    refine ⟨hd, decodeFrames_reached n _ hn (le_of_eq hd.symm), fun hr => ?_⟩
    obtain ⟨_, i2, _, i4⟩ := resampleLoop_pos n s.audioStreamIndex s.channels hn hN
      s.packets hr s.decodedFrames s.data s.swr
    have hd2 : (decodeAndResampleFrames n s).decodedFrames = n := by
      show (resampleLoop n s.audioStreamIndex s.channels s.packets s.decodedFrames s.data
        s.swr).decodedFrames = n
      rw [i2, h0]
      simp only [Nat.sub_zero, Nat.zero_add]
      exact Nat.min_eq_left hlen
    refine ⟨hd2, ?_⟩
    rw [decodeAndResampleFrames_reached n _ hn (le_of_eq hd2.symm)]
    exact SoundSource.swr_false_eq _ (decodeAndResampleFrames_swr n s i4)
  refine ⟨fun hc => ⟨decodeFrames_reached n s hn hc, ?_, ?_, ?_⟩,
    (decodeFrames_pos n s hn hN).1, key, fun hk h0 hlen => ?_⟩
  · rw [decodeAndResampleFrames_reached n s hn hc]
  · rw [decodeAndResampleFrames_reached n s hn hc]
  · rw [decodeAndResampleFrames_reached n s hn hc]
  · obtain ⟨_, k2, k3⟩ := key h0 hlen
    unfold decodeFramesSfxWrap decodeFramesWrap
    rw [← hk]
    exact ⟨k2, fun hr => (k3 hr).2⟩

/-- C21 at concrete inputs: the preload bound 50 on fifty packets of another stream
followed by one selected packet; the second preload call changes nothing, and a call on
the source the first one left (counter 50) changes nothing. -/
theorem decode_bound_is_cumulative_witness :
    ((0 < 50 ∧ 50 < SIZE_MOD ∧ (exSource exFiftyOthersThenOne).decodedFrames = 0 ∧
        50 ≤ (exSource exFiftyOthersThenOne).packets.length) ∧
      decodeFrames 50 (decodeFrames 50 (exSource exFiftyOthersThenOne))
        = decodeFrames 50 (exSource exFiftyOthersThenOne)) ∧
    (50 ≤ (decodeFrames 50 (exSource exFiftyOthersThenOne)).decodedFrames ∧
      (decodeAndResampleFrames 50 (decodeFrames 50 (exSource exFiftyOthersThenOne))).data
        = (decodeFrames 50 (exSource exFiftyOthersThenOne)).data) :=
  ⟨⟨⟨by decide, by decide, rfl, by decide⟩,
    ((decode_bound_is_cumulative 50 (exSource exFiftyOthersThenOne) (by decide)
      (by decide)).2.2.1 rfl (by decide)).2.1⟩,
   ⟨by decide,
    ((decode_bound_is_cumulative 50 (decodeFrames 50 (exSource exFiftyOthersThenOne))
      (by decide) (by decide)).1 (by decide)).2.2.1⟩⟩

/-! ## Successive reads of the blob -/

theorem blobBytes_add (mem : Int → Nat) (ptr : Int) (a b : Nat) :
    blobBytes mem ptr (a + b) = blobBytes mem ptr a ++ blobBytes mem (ptr + (a : Int)) b := by
  unfold blobBytes
  rw [List.range_add, List.map_append, List.map_map]
  congr 1
  apply List.map_congr_left
  intro i _
  simp only [Function.comp_apply, Nat.cast_add, add_assoc]

theorem length_blobBytes (mem : Int → Nat) (ptr : Int) (n : Nat) :
    (blobBytes mem ptr n).length = n := by
  simp [blobBytes]

/-- One call in range: what it returns, delivers and leaves, in terms of
`m = min(r, remaining)` as a natural number. -/
theorem read_packet_step (mem : Int → Nat) (input : InputData) (buf : Nat → Nat)
    (r : Int) (hr : 0 < r) (hm : input.size < 2 ^ 31) :
    ∃ m : Nat, m ≤ input.size ∧ (0 < input.size → 0 < m) ∧ (m = 0 → input.size = 0) ∧
      (read_packet mem input buf r).ret = (m : Int) ∧
      (read_packet mem input buf r).input
        = { ptr := input.ptr + (m : Int), size := input.size - m } ∧
      (read_packet mem input buf r).delivered = blobBytes mem input.ptr m := by
  obtain ⟨h1, h2, h3, _⟩ := read_packet_in_range mem input buf r (le_of_lt hr) hm
  have hmin0 : 0 ≤ min r (input.size : Int) := le_min (le_of_lt hr) (Int.ofNat_nonneg _)
  have hcast : ((min r (input.size : Int)).toNat : Int) = min r (input.size : Int) :=
    Int.toNat_of_nonneg hmin0
  refine ⟨(min r (input.size : Int)).toNat, by omega, fun h => by omega, fun h => by omega,
    by rw [h1, hcast], by rw [h2, hcast], ?_⟩
  unfold ReadResult.delivered blobBytes
  rw [h1]
  apply List.map_congr_left
  intro i hi
  exact h3 i (List.mem_range.1 hi)

/-- Successive reads while the remaining length fits an `int`: the bytes delivered so
far followed by the bytes still under the cursor are the blob, the return values sum to
the number of bytes delivered, and every call on a non-empty rest delivers at least one
byte. -/
theorem readCalls_in_range (mem : Int → Nat) (buf : Nat → Nat) (requests : List Int) :
    ∀ input : InputData, input.size < 2 ^ 31 → (∀ r ∈ requests, 0 < r) →
    deliveredBytes (readCalls mem buf input requests) ++
        blobBytes mem (cursorAfter mem buf input requests).ptr
          (cursorAfter mem buf input requests).size
      = blobBytes mem input.ptr input.size ∧
    ((readCalls mem buf input requests).map ReadResult.ret).sum +
        ((cursorAfter mem buf input requests).size : Int) = (input.size : Int) ∧
    (cursorAfter mem buf input requests).size ≤ input.size - requests.length := by
  induction requests with
  | nil =>
    intro input _ _
    simp [readCalls, cursorAfter, deliveredBytes]
  | cons r rest ih =>
    intro input hm hpos
    obtain ⟨m, hle, _, h0, hret, hin, hdel⟩ :=
      read_packet_step mem input buf r (hpos r (List.mem_cons_self _ _)) hm
    obtain ⟨i1, i2, i3⟩ := ih { ptr := input.ptr + (m : Int), size := input.size - m }
      (by show input.size - m < 2 ^ 31; omega)
      (fun q hq => hpos q (List.mem_cons_of_mem _ hq))
    simp only [readCalls, cursorAfter, deliveredBytes, List.flatMap_cons, List.map_cons,
      List.sum_cons, hin, hdel, hret, List.length_cons] at i1 i2 i3 ⊢
    refine ⟨?_, ?_, ?_⟩
    · have e : input.size = m + (input.size - m) := by omega
      rw [List.append_assoc, i1]
      conv_rhs => rw [e]
      rw [blobBytes_add]
    · omega
    · omega

/-- Successive reads while the remaining length fits an `int`: when a call returns 0,
the calls before the first such call delivered the whole blob and their return values
sum to its length. -/
theorem readCalls_until_zero (mem : Int → Nat) (buf : Nat → Nat) (requests : List Int) :
    ∀ input : InputData, input.size < 2 ^ 31 → (∀ r ∈ requests, 0 < r) →
    (∃ res ∈ readCalls mem buf input requests, res.ret = 0) →
    deliveredBytes (untilZero (readCalls mem buf input requests))
      = blobBytes mem input.ptr input.size ∧
    ((untilZero (readCalls mem buf input requests)).map ReadResult.ret).sum
      = (input.size : Int) := by
  induction requests with
  | nil =>
    intro input _ _ hz
    obtain ⟨res, hres, _⟩ := hz
    simp [readCalls] at hres
  | cons r rest ih =>
    intro input hm hpos hz
    obtain ⟨m, hle, _, h0, hret, hin, hdel⟩ :=
      read_packet_step mem input buf r (hpos r (List.mem_cons_self _ _)) hm
    by_cases hr0 : (read_packet mem input buf r).ret = 0
    · have hm0 : m = 0 := by omega
      have hs0 : input.size = 0 := h0 hm0
      simp [readCalls, untilZero, List.takeWhile_cons, hr0, deliveredBytes, hs0, blobBytes]
    · have hz' : ∃ res ∈ readCalls mem buf
          { ptr := input.ptr + (m : Int), size := input.size - m } rest, res.ret = 0 := by
        obtain ⟨res, hres, hres0⟩ := hz
        simp only [readCalls, List.mem_cons, hin] at hres
        rcases hres with h | h
        · rw [h] at hres0; exact absurd hres0 hr0
        · exact ⟨res, h, hres0⟩
      obtain ⟨i1, i2⟩ := ih { ptr := input.ptr + (m : Int), size := input.size - m }
        (by show input.size - m < 2 ^ 31; omega)
        (fun q hq => hpos q (List.mem_cons_of_mem _ hq)) hz'
      have hstep : untilZero (readCalls mem buf input (r :: rest))
          = read_packet mem input buf r ::
              untilZero (readCalls mem buf (read_packet mem input buf r).input rest) := by
        unfold untilZero
        rw [readCalls, List.takeWhile_cons, if_pos (by simpa using hr0)]
      rw [hstep, hin]
      unfold deliveredBytes at i1 ⊢
      simp only [List.flatMap_cons, List.map_cons, List.sum_cons, hdel, hret, i1, i2]
      refine ⟨?_, ?_⟩
      · have e : input.size = m + (input.size - m) := by omega
        conv_rhs => rw [e]
        rw [blobBytes_add]
      · show (m : Int) + ((input.size - m : Nat) : Int) = (input.size : Int)
        omega

/-- Successive reads while the remaining length fits an `int`: with more positive
requests than the blob has bytes, some call returns 0. -/
theorem readCalls_reaches_zero (mem : Int → Nat) (buf : Nat → Nat) (requests : List Int) :
    ∀ input : InputData, input.size < 2 ^ 31 → (∀ r ∈ requests, 0 < r) →
    input.size < requests.length →
    ∃ res ∈ readCalls mem buf input requests, res.ret = 0 := by
  induction requests with
  | nil =>
    intro input _ _ hlen
    simp at hlen
  | cons r rest ih =>
    intro input hm hpos hlen
    obtain ⟨m, hle, hpm, _, hret, hin, _⟩ :=
      read_packet_step mem input buf r (hpos r (List.mem_cons_self _ _)) hm
    by_cases hs : input.size = 0
    · refine ⟨read_packet mem input buf r, by simp [readCalls], ?_⟩
      rw [hret]
      omega
    · have hm1 : 0 < m := hpm (by omega)
      obtain ⟨res, hres, hres0⟩ :=
        ih { ptr := input.ptr + (m : Int), size := input.size - m }
          (by show input.size - m < 2 ^ 31; omega)
          (fun q hq => hpos q (List.mem_cons_of_mem _ hq))
          (by show input.size - m < rest.length
              simp only [List.length_cons] at hlen
              omega)
      exact ⟨res, by simp only [readCalls, List.mem_cons, hin]; exact Or.inr hres, hres0⟩

/-- Successive reads of a blob whose declared length `L` fits an `int` (`L < 2^31`), for
positive requests: after every call the bytes delivered so far followed by the bytes
still under the cursor are the `L` bytes of the blob, so (bytes delivered so far) +
(remaining length) = `L`, and the return values sum to the number of bytes delivered;
when a call returns 0, the bytes delivered before the first such call are the first `L`
bytes of the blob and the return values sum to `L`; and among more than `L` calls one
returns 0. -/
theorem read_sequence_in_range (mem : Int → Nat) (buf : Nat → Nat) (ptr : Int) (L : Nat)
    (requests : List Int) (hL : L < 2 ^ 31) (hpos : ∀ r ∈ requests, 0 < r) :
    deliveredBytes (readCalls mem buf { ptr := ptr, size := L } requests) ++
        blobBytes mem (cursorAfter mem buf { ptr := ptr, size := L } requests).ptr
          (cursorAfter mem buf { ptr := ptr, size := L } requests).size
      = blobBytes mem ptr L ∧
    (deliveredBytes (readCalls mem buf { ptr := ptr, size := L } requests)).length +
        (cursorAfter mem buf { ptr := ptr, size := L } requests).size = L ∧
    ((readCalls mem buf { ptr := ptr, size := L } requests).map ReadResult.ret).sum
      = ((deliveredBytes (readCalls mem buf { ptr := ptr, size := L } requests)).length : Int) ∧
    ((∃ res ∈ readCalls mem buf { ptr := ptr, size := L } requests, res.ret = 0) →
      deliveredBytes (untilZero (readCalls mem buf { ptr := ptr, size := L } requests))
        = blobBytes mem ptr L ∧
      ((untilZero (readCalls mem buf { ptr := ptr, size := L } requests)).map
        ReadResult.ret).sum = (L : Int)) ∧
    (L < requests.length →
      ∃ res ∈ readCalls mem buf { ptr := ptr, size := L } requests, res.ret = 0) := by
  obtain ⟨a1, a2, _⟩ := readCalls_in_range mem buf requests { ptr := ptr, size := L } hL hpos
  have hlen := congrArg List.length a1
  rw [List.length_append, length_blobBytes, length_blobBytes] at hlen
  refine ⟨a1, hlen, ?_, readCalls_until_zero mem buf requests _ hL hpos,
    readCalls_reaches_zero mem buf requests { ptr := ptr, size := L } hL hpos⟩
  have a2' : ((readCalls mem buf { ptr := ptr, size := L } requests).map ReadResult.ret).sum
      + ((cursorAfter mem buf { ptr := ptr, size := L } requests).size : Int) = (L : Int) := a2
  have hlen' : (deliveredBytes (readCalls mem buf { ptr := ptr, size := L } requests)).length
      + (cursorAfter mem buf { ptr := ptr, size := L } requests).size = L := hlen
  omega

/-- C22 fails for a declared length that does not fit an `int`, by the narrowing
`static_cast<int>(input->size)` of `read_packet`.  With `L = 2^31` and two requests of
4096 bytes the calls return -2147483648 and 0: the return values before the first 0 sum
to `-2^31`, not to `L`, no byte is delivered, and after the first call (bytes delivered)
+ (remaining length) is `2^32`.  With `L = 2^32 + 5` the calls return 5 and 0: only the
first 5 bytes of the blob are delivered and `2^32` bytes remain under the cursor. -/
theorem read_sequence_truncates_large_blob :
    ((readCalls exMemory (fun _ => 0) { ptr := 65536, size := 2147483648 }
        [4096, 4096]).map ReadResult.ret = [-2147483648, 0] ∧
      deliveredBytes (untilZero (readCalls exMemory (fun _ => 0)
        { ptr := 65536, size := 2147483648 } [4096, 4096])) = [] ∧
      (deliveredBytes (readCalls exMemory (fun _ => 0)
        { ptr := 65536, size := 2147483648 } [4096])).length
        + (cursorAfter exMemory (fun _ => 0) { ptr := 65536, size := 2147483648 }
            [4096]).size = 4294967296) ∧
    ((readCalls exMemory (fun _ => 0) { ptr := 65536, size := 4294967301 }
        [4096, 4096]).map ReadResult.ret = [5, 0] ∧
      deliveredBytes (untilZero (readCalls exMemory (fun _ => 0)
        { ptr := 65536, size := 4294967301 } [4096, 4096])) = [0, 1, 2, 3, 4] ∧
      (cursorAfter exMemory (fun _ => 0) { ptr := 65536, size := 4294967301 }
        [4096, 4096]).size = 4294967296) := by
  decide

/-! ## One update of the displayed money -/

theorem GetIncrementFuel_enough (fuel : Nat) : ∀ d r i : Int, d.natAbs < 100 * 10 ^ fuel →
    GetIncrementFuel (fuel + 1) d r i = some (GetIncrementLoop d r i) := by
  induction fuel with
  | zero =>
    intro d r i h
    have habs : |d| < 100 := by
      rw [Int.abs_eq_natAbs]
      simp only [pow_zero, mul_one] at h
      omega
    rw [GetIncrementFuel, if_neg (not_le.2 habs), GetIncrementLoop_small d r i habs]
  | succ fuel ih =>
    intro d r i h
    by_cases habs : 100 ≤ |d|
    · have hn : (d.tdiv 10).natAbs = d.natAbs / 10 := Int.natAbs_tdiv d 10
      have h' : d.natAbs < 10 * (100 * 10 ^ fuel) := by
        have e : 100 * 10 ^ (fuel + 1) = 10 * (100 * 10 ^ fuel) := by ring
        rw [← e]; exact h
      rw [GetIncrementFuel, if_pos habs, GetIncrementLoop_step d r i habs,
        ih _ _ _ (by rw [hn]; exact Nat.div_lt_of_lt_mul h')]
    · rw [GetIncrementFuel, if_neg habs, GetIncrementLoop_small d r i (not_le.1 habs)]

theorem digits12_le_pow (k : Nat) (h1 : 1 ≤ k) (h9 : k ≤ 9) :
    1 ≤ digits12 k ∧ digits12 k ≤ ((10 ^ k : Nat) : Int) := by
  interval_cases k <;> decide

/-- The increment lies between 1 and the difference (between the difference and -1 for
a negative one), for every non-zero difference of at most ten decimal digits. -/
theorem GetIncrement_between (d : Int) (hne : d ≠ 0) (h10 : d.natAbs < 10 ^ 10) :
    (0 < d → 1 ≤ GetIncrement d ∧ GetIncrement d ≤ d) ∧
    (d < 0 → d ≤ GetIncrement d ∧ GetIncrement d ≤ -1) := by
  have hx : d.natAbs ≠ 0 := Int.natAbs_ne_zero.2 hne
  have hle := Nat.pow_log_le_self 10 hx
  have hlt := Nat.lt_pow_succ_log_self (b := 10) (by norm_num) d.natAbs
  have hL : Nat.log 10 d.natAbs < 10 :=
    (Nat.pow_lt_pow_iff_right (a := 10) (by norm_num)).1 (lt_of_le_of_lt hle h10)
  have key : ∃ g : Int, 1 ≤ g ∧ g ≤ (d.natAbs : Int) ∧ GetIncrement d = d.sign * g := by
    by_cases h0 : Nat.log 10 d.natAbs = 0
    · rw [h0] at hlt
      have h100 : d.natAbs < 10 ^ (1 + 1) := by
        have : d.natAbs < 10 := by simpa using hlt
        omega
      refine ⟨digits12 1, by decide, ?_,
        GetIncrement_of_range d 1 (le_refl 1) (by norm_num) (by omega) (Or.inl rfl) h100⟩
      have : digits12 1 = 1 := by decide
      omega
    · obtain ⟨b1, b2⟩ := digits12_le_pow (Nat.log 10 d.natAbs) (by omega) (by omega)
      refine ⟨digits12 (Nat.log 10 d.natAbs), b1, ?_,
        GetIncrement_of_range d _ (by omega) (by omega) (by omega) (Or.inr hle) hlt⟩
      have : ((10 ^ Nat.log 10 d.natAbs : Nat) : Int) ≤ (d.natAbs : Int) := by
        exact_mod_cast hle
      omega
  obtain ⟨g, g1, g2, hg⟩ := key
  constructor
  · intro hpos
    rw [hg, Int.sign_eq_one_of_pos hpos]
    omega
  · intro hneg
    rw [hg, Int.sign_eq_neg_one_of_neg hneg]
    omega

theorem GetIncrementAbs_eq (a d : Int) (hmin : d ≠ -2 ^ 31) :
    GetIncrementAbs a d = GetIncrement d := by
  unfold GetIncrementAbs GetIncrement absInt32
  by_cases h0 : d = 0
  · rw [if_pos h0, if_pos h0]
  · rw [if_neg h0, if_neg h0, if_neg hmin]
    by_cases habs : 100 ≤ |d|
    · rw [if_pos habs, GetIncrementLoop_step d 1 2 habs]
    · rw [if_neg habs, GetIncrementLoop_small d 1 2 (not_le.1 habs)]

theorem GetIncrementAbs_min (a : Int) :
    GetIncrementAbs a (-2 ^ 31) = if 100 ≤ a then -123456789 else -1 := by
  have h := GetIncrementLoop_iter 7 (-214748364) 2 (by norm_num) (by norm_num)
    (by decide) (by decide) (Or.inr (by decide))
  have e1 : digits12 2 = 12 := by decide
  have e2 : (((2 + 1 : Nat)) : Int) = 3 := by norm_num
  have e3 : digits12 (2 + 7) = 123456789 := by decide
  rw [e1, e2, e3, if_pos (by decide)] at h
  have t : (-2 ^ 31 : Int).tdiv 10 = -214748364 := by decide
  have w1 : wrapInt32 (1 * 10 + 2) = 12 := by decide
  have w2 : wrapInt32 (2 + 1) = 3 := by decide
  have w3 : wrapInt32 (-1) = -1 := by decide
  have c0 : ¬ ((-2 ^ 31 : Int) = 0) := by decide
  have c1 : (-2 ^ 31 : Int) < 0 := by decide
  unfold GetIncrementAbs absInt32
  rw [if_neg c0, if_pos (rfl : (-2 ^ 31 : Int) = -2 ^ 31), t, w1, w2, h, w3, if_pos c1]

theorem GetIncrementAbs_between (a d : Int) (hne : d ≠ 0) (hmin : -2 ^ 31 ≤ d)
    (hmax : d < 2 ^ 31) :
    (0 < d → 1 ≤ GetIncrementAbs a d ∧ GetIncrementAbs a d ≤ d) ∧
    (d < 0 → d ≤ GetIncrementAbs a d ∧ GetIncrementAbs a d ≤ -1) := by
  by_cases hm : d = -2 ^ 31
  · rw [hm, GetIncrementAbs_min]
    constructor
    · intro h; exact absurd h (by decide)
    · intro _
      by_cases ha : 100 ≤ a
      · rw [if_pos ha]; decide
      · rw [if_neg ha]; decide
  · rw [GetIncrementAbs_eq a d hm]
    exact GetIncrement_between d hne (natAbs_lt_of_int32 d (by omega) hmax)

/-- C23: for every pair of `int32_t` values `money` and `displayedMoney` whose difference
`d = money - displayedMoney` is representable and non-zero, `GetIncrement(d)` has the
sign of `d` and `1 ≤ |GetIncrement(d)| ≤ |d|`, so one update
`displayedMoney += GetIncrement(d)` does not overflow and moves `displayedMoney` strictly
closer to `money` without passing it; and the loop of `GetIncrement` ends: nine
evaluations of its condition are enough for every such `d`.  At the minimum `int32_t`,
where `std::abs` has no defined result, this holds whatever value `a` the call returns;
for every other `d` the value `a` plays no part. -/
theorem displayed_money_moves_closer (a money displayedMoney : Int)
    (hm : -2 ^ 31 ≤ money ∧ money < 2 ^ 31)
    (hdm : -2 ^ 31 ≤ displayedMoney ∧ displayedMoney < 2 ^ 31)
    (hd : -2 ^ 31 ≤ money - displayedMoney ∧ money - displayedMoney < 2 ^ 31)
    (hne : money - displayedMoney ≠ 0) :
    (GetIncrementAbs a (money - displayedMoney)).sign = (money - displayedMoney).sign ∧
    1 ≤ |GetIncrementAbs a (money - displayedMoney)| ∧
    |GetIncrementAbs a (money - displayedMoney)| ≤ |money - displayedMoney| ∧
    updateDisplayedMoney a money displayedMoney
      = displayedMoney + GetIncrementAbs a (money - displayedMoney) ∧
    |money - updateDisplayedMoney a money displayedMoney| < |money - displayedMoney| ∧
    (displayedMoney < money →
      displayedMoney < updateDisplayedMoney a money displayedMoney ∧
      updateDisplayedMoney a money displayedMoney ≤ money) ∧
    (money < displayedMoney →
      money ≤ updateDisplayedMoney a money displayedMoney ∧
      updateDisplayedMoney a money displayedMoney < displayedMoney) ∧
    GetIncrementFuel 9 (money - displayedMoney) 1 2
      = some (GetIncrementLoop (money - displayedMoney) 1 2) ∧
    (money - displayedMoney ≠ -2 ^ 31 →
      GetIncrementAbs a (money - displayedMoney) = GetIncrement (money - displayedMoney)) := by
  obtain ⟨hp, hn⟩ := GetIncrementAbs_between a (money - displayedMoney) hne hd.1 hd.2
  have hw : wrapInt32 (money - displayedMoney) = money - displayedMoney :=
    wrapInt32_of_range _ hd.1 hd.2
  have hfuel : GetIncrementFuel 9 (money - displayedMoney) 1 2
      = some (GetIncrementLoop (money - displayedMoney) 1 2) :=
    GetIncrementFuel_enough 8 _ 1 2 (by
      have : (100 : Nat) * 10 ^ 8 = 10000000000 := by norm_num
      omega)
  rcases lt_or_gt_of_ne hne with hneg | hpos
  · obtain ⟨g1, g2⟩ := hn hneg
    have hu : updateDisplayedMoney a money displayedMoney
        = displayedMoney + GetIncrementAbs a (money - displayedMoney) := by
      unfold updateDisplayedMoney
      rw [hw, wrapInt32_of_range _ (by omega) (by omega)]
    have hg : GetIncrementAbs a (money - displayedMoney) < 0 := by omega
    refine ⟨?_, ?_, ?_, hu, ?_, fun h => by omega, fun _ => ?_, hfuel,
      fun h => GetIncrementAbs_eq a _ h⟩
    · rw [Int.sign_eq_neg_one_of_neg hg, Int.sign_eq_neg_one_of_neg hneg]
    · rw [abs_of_neg hg]; omega
    · rw [abs_of_neg hg, abs_of_neg hneg]; omega
    · rw [hu, abs_of_neg hneg, abs_of_nonpos (by omega)]; omega
    · rw [hu]; omega
  · obtain ⟨g1, g2⟩ := hp hpos
    have hu : updateDisplayedMoney a money displayedMoney
        = displayedMoney + GetIncrementAbs a (money - displayedMoney) := by
      unfold updateDisplayedMoney
      rw [hw, wrapInt32_of_range _ (by omega) (by omega)]
    have hg : 0 < GetIncrementAbs a (money - displayedMoney) := by omega
    refine ⟨?_, ?_, ?_, hu, ?_, fun _ => ?_, fun h => by omega, hfuel,
      fun h => GetIncrementAbs_eq a _ h⟩
    · rw [Int.sign_eq_one_of_pos hg, Int.sign_eq_one_of_pos hpos]
    · rw [abs_of_pos hg]; omega
    · rw [abs_of_pos hg, abs_of_pos hpos]; omega
    · rw [hu, abs_of_pos hpos, abs_of_nonneg (by omega)]; omega
    · rw [hu]; omega

/-- C23 at concrete inputs: `money = 1000` and `displayedMoney = 0`, where the loop ends
with the increment 123, and `money = -2^31`, `displayedMoney = 0`, the minimum
difference. -/
theorem displayed_money_moves_closer_witness :
    (((-2 ^ 31 ≤ (1000 : Int) ∧ (1000 : Int) < 2 ^ 31) ∧
        (-2 ^ 31 ≤ (0 : Int) ∧ (0 : Int) < 2 ^ 31) ∧
        (-2 ^ 31 ≤ (1000 : Int) - 0 ∧ (1000 : Int) - 0 < 2 ^ 31) ∧ (1000 : Int) - 0 ≠ 0) ∧
      GetIncrementLoop (1000 - 0) 1 2 = 123 ∧
      |1000 - updateDisplayedMoney 0 1000 0| < |(1000 : Int) - 0|) ∧
    ((-2 ^ 31 ≤ (-2 ^ 31 : Int) - 0 ∧ (-2 ^ 31 : Int) - 0 < 2 ^ 31) ∧
      |(-2 ^ 31 : Int) - updateDisplayedMoney (-2 ^ 31) (-2 ^ 31) 0|
        < |(-2 ^ 31 : Int) - 0|) :=
  ⟨⟨⟨⟨by decide, by decide⟩, ⟨by decide, by decide⟩, ⟨by decide, by decide⟩, by decide⟩,
    Option.some.inj (((displayed_money_moves_closer 0 1000 0 ⟨by decide, by decide⟩
      ⟨by decide, by decide⟩ ⟨by decide, by decide⟩ (by decide)).2.2.2.2.2.2.2.1).symm.trans
      (by decide)),
    (displayed_money_moves_closer 0 1000 0 ⟨by decide, by decide⟩
      ⟨by decide, by decide⟩ ⟨by decide, by decide⟩ (by decide)).2.2.2.2.1⟩,
   ⟨⟨by decide, by decide⟩,
    (displayed_money_moves_closer (-2 ^ 31) (-2 ^ 31) 0 ⟨by decide, by decide⟩
      ⟨by decide, by decide⟩ ⟨by decide, by decide⟩ (by decide)).2.2.2.2.1⟩⟩

/-! ## The trace table of `debug.cpp` -/

theorem toUInt32_natCast (n : Nat) (h : n < 2 ^ 32) : toUInt32 (n : Int) = n := by
  unfold toUInt32
  omega

theorem foldl_update_range (r : Nat) (table : Nat → Nat) (n j : Nat) :
    ((List.range n).foldl (fun T i => Function.update T i r) table) j
      = if j < n then r else table j := by
  induction n with
  | zero => simp
  | succ n ih =>
    rw [List.range_succ, List.foldl_append, List.foldl_cons, List.foldl_nil]
    by_cases hj : j = n
    · subst hj
      simp
    · rw [Function.update_noteq hj, ih]
      by_cases h1 : j < n
      · rw [if_pos h1, if_pos (by omega)]
      · rw [if_neg h1, if_neg (by omega)]

theorem Set_tracing_option_entry (RW_COMPONENT_MAX mopts : Nat) (t : TraceState)
    (hmax : RW_COMPONENT_MAX < 2 ^ 32) (j : Nat) :
    (Set_tracing_option RW_COMPONENT_MAX mopts t).Trace_opts j
      = if j < RW_COMPONENT_MAX then res_opts mopts else t.Trace_opts j := by
  unfold Set_tracing_option
  simp only [toUInt32_natCast _ hmax, foldl_update_range]

theorem res_opts_eq_norm (m : Nat) : res_opts m = normTraceOption m := by
  unfold res_opts normTraceOption
  by_cases h1 : m = TRACE_OPT_DEFAULT
  · simp [h1]
  · by_cases h2 : m = TRACE_OPT_NOLINENO
    · simp [h2]
    · simp [h1, h2]

theorem sharesBit_iff (a b : Nat) : sharesBit a b ↔ a &&& b ≠ 0 := by
  unfold sharesBit
  constructor
  · rintro ⟨i, h1, h2⟩ h0
    have := Nat.testBit_and a b i
    rw [h0, Nat.zero_testBit, h1, h2] at this
    exact absurd this (by decide)
  · intro h
    obtain ⟨i, hi⟩ := Nat.ne_zero_implies_bit_true h
    rw [Nat.testBit_and, Bool.and_eq_true] at hi
    exact ⟨i, hi⟩

theorem Get_tracing_level_in_range (RW_COMPONENT_MAX : Nat) (releaseMode : Bool)
    (t : TraceState) (c : Int) (h0 : 0 ≤ c) (h1 : c < (RW_COMPONENT_MAX : Int)) :
    Get_tracing_level RW_COMPONENT_MAX releaseMode t c = .returns (t.Trace_opts c.toNat) := by
  unfold Get_tracing_level
  rw [if_neg (fun h => h.2 h1), if_neg (fun h => h.2 h0), if_pos ⟨h0, h1⟩]

theorem Tracing_in_range (RW_COMPONENT_MAX : Nat) (releaseMode : Bool)
    (t : TraceState) (c : Int) (k : Nat) (h0 : 0 ≤ c) (h1 : c < (RW_COMPONENT_MAX : Int)) :
    Tracing RW_COMPONENT_MAX releaseMode t c k
      = .returns (decide (t.Trace_opts c.toNat &&& k ≠ 0)) := by
  unfold Tracing
  rw [Get_tracing_level_in_range RW_COMPONENT_MAX releaseMode t c h0 h1]

/-- For a component index inside the table (`0 ≤ comp < RW_COMPONENT_MAX`),
`Set_mod_tracing_option` passes its check, returns, sets that component's entry and
leaves every other entry and `Current_Cmd_Opt` as they were. -/
theorem Set_mod_tracing_option_in_range (RW_COMPONENT_MAX : Nat) (releaseMode : Bool)
    (t : TraceState) (comp : Int) (desired : Nat) (hmax : RW_COMPONENT_MAX < 2 ^ 32)
    (h0 : 0 ≤ comp) (h1 : comp < (RW_COMPONENT_MAX : Int)) :
    ∃ t' : TraceState,
      Set_mod_tracing_option RW_COMPONENT_MAX releaseMode t comp desired = .returns t' ∧
      t'.Trace_opts comp.toNat = res_opts desired ∧
      (∀ j : Nat, j ≠ comp.toNat → t'.Trace_opts j = t.Trace_opts j) ∧
      t'.Current_Cmd_Opt = t.Current_Cmd_Opt := by
  have hc : toUInt32 comp ≤ toUInt32 (RW_COMPONENT_MAX : Int) := by
    unfold toUInt32
    omega
  refine ⟨{ t with Trace_opts := Function.update t.Trace_opts comp.toNat (res_opts desired) },
    ?_, ?_, ?_, rfl⟩
  · unfold Set_mod_tracing_option
    rw [if_neg (fun h => h.2 hc), if_pos ⟨h0, h1⟩]
  · simp
  · intro j hj
    exact Function.update_noteq hj _ _

/-- C24 fails at `comp = RW_COMPONENT_MAX`, whatever the number of components: that index
passes the check `comp <= max` of `Set_mod_tracing_option` (with or without
`Release_Mode`), and the write `Trace_opts[comp]` goes to index `RW_COMPONENT_MAX`, one
past the last entry of the table of `RW_COMPONENT_MAX` entries.  The reader
`Get_tracing_level` checks `outcome < RW_COMPONENT_MAX` and stops at the same index when
assertions are compiled in. -/
theorem Set_mod_tracing_option_writes_past_table (RW_COMPONENT_MAX : Nat)
    (releaseMode : Bool) (t : TraceState) (desired : Nat) :
    (Set_mod_tracing_option RW_COMPONENT_MAX releaseMode t (RW_COMPONENT_MAX : Int)
      desired).passedAssertions = true ∧
    Set_mod_tracing_option RW_COMPONENT_MAX releaseMode t (RW_COMPONENT_MAX : Int) desired
      = .outOfBounds (RW_COMPONENT_MAX : Int) ∧
    ¬ ((RW_COMPONENT_MAX : Int) < (RW_COMPONENT_MAX : Int)) ∧
    Get_tracing_level RW_COMPONENT_MAX false t (RW_COMPONENT_MAX : Int)
      = .assertionFailure := by
  have e : Set_mod_tracing_option RW_COMPONENT_MAX releaseMode t (RW_COMPONENT_MAX : Int)
      desired = .outOfBounds (RW_COMPONENT_MAX : Int) := by
    unfold Set_mod_tracing_option
    rw [if_neg (fun h => h.2 (le_refl _)), if_neg (fun h => lt_irrefl _ h.2)]
  refine ⟨by rw [e]; rfl, e, lt_irrefl _, ?_⟩
  unfold Get_tracing_level
  rw [if_pos ⟨rfl, lt_irrefl _⟩]

theorem verbose_and_pos (k : Nat) (h0 : 0 < k) (h1 : k < 2 ^ 31) : 2147483647 &&& k ≠ 0 := by
  have e : (2147483647 : Nat) = 2 ^ 31 - 1 := by norm_num
  rw [e, Nat.and_comm, Nat.and_pow_two_sub_one_eq_mod, Nat.mod_eq_of_lt h1]
  omega

theorem mem_RW_TRACE_KIND_range (k : Nat) (hk : k ∈ RW_TRACE_KIND) : 0 < k ∧ k < 2 ^ 31 := by
  simp only [RW_TRACE_KIND, List.mem_cons, List.mem_singleton, List.not_mem_nil,
    or_false] at hk
  rcases hk with h | h | h | h | h | h | h | h | h | h | h | h | h | h | h | h <;>
    (rw [h]; decide)

theorem error_and_kind (k : Nat) (hk : k ∈ RW_TRACE_KIND) :
    TRACE_ERROR &&& k ≠ 0 ↔ k = TRACE_ERROR := by
  simp only [RW_TRACE_KIND, List.mem_cons, List.mem_singleton, List.not_mem_nil,
    or_false] at hk
  rcases hk with h | h | h | h | h | h | h | h | h | h | h | h | h | h | h | h <;>
    (rw [h]; decide)

/-- C25: after `Set_tracing_option(m)`, for every component `c` of the table
(`0 ≤ c < RW_COMPONENT_MAX`) and every trace kind `k`, `Tracing(c, k)` returns, and returns
true exactly when `norm(m)` and `k` share a set bit (`norm(m) & k` is non-zero), where
`norm(m)` is `TRACE_ERROR` for `m = TRACE_OPT_DEFAULT` or `TRACE_OPT_NOLINENO`,
`0x7fffffff` for `m = TRACE_OPT_VERBOSE` and `m` otherwise.  In particular after
`TRACE_OPT_VERBOSE` every kind is traced for every component (each of the sixteen
enumerators, and every non-zero value below `2^31`), and after `TRACE_OPT_DEFAULT` a kind
is traced exactly when it contains the `TRACE_ERROR` bit, among the enumerators
`TRACE_ERROR` alone. -/
theorem tracing_after_Set_tracing_option (RW_COMPONENT_MAX : Nat) (releaseMode : Bool)
    (t : TraceState) (m : Nat) (c : Int) (k : Nat) (hmax : RW_COMPONENT_MAX < 2 ^ 32)
    (h0 : 0 ≤ c) (h1 : c < (RW_COMPONENT_MAX : Int)) :
    Tracing RW_COMPONENT_MAX releaseMode (Set_tracing_option RW_COMPONENT_MAX m t) c k
      = .returns (decide (normTraceOption m &&& k ≠ 0)) ∧
    (Tracing RW_COMPONENT_MAX releaseMode (Set_tracing_option RW_COMPONENT_MAX m t) c k
      = .returns true ↔ sharesBit (normTraceOption m) k) ∧
    (m = TRACE_OPT_VERBOSE → (k ∈ RW_TRACE_KIND ∨ (0 < k ∧ k < 2 ^ 31)) →
      Tracing RW_COMPONENT_MAX releaseMode (Set_tracing_option RW_COMPONENT_MAX m t) c k
        = .returns true) ∧
    (m = TRACE_OPT_DEFAULT →
      (Tracing RW_COMPONENT_MAX releaseMode (Set_tracing_option RW_COMPONENT_MAX m t) c k
        = .returns true ↔ sharesBit TRACE_ERROR k) ∧
      (k ∈ RW_TRACE_KIND →
        (Tracing RW_COMPONENT_MAX releaseMode (Set_tracing_option RW_COMPONENT_MAX m t) c k
          = .returns true ↔ k = TRACE_ERROR))) := by
  have hlt : c.toNat < RW_COMPONENT_MAX := by omega
  have key : Tracing RW_COMPONENT_MAX releaseMode (Set_tracing_option RW_COMPONENT_MAX m t)
      c k = .returns (decide (normTraceOption m &&& k ≠ 0)) := by
    rw [Tracing_in_range _ _ _ c k h0 h1, Set_tracing_option_entry _ _ _ hmax, if_pos hlt,
      res_opts_eq_norm]
  have iff1 : ∀ a : Nat, (TraceResult.returns (decide (a &&& k ≠ 0)) = .returns true)
      ↔ a &&& k ≠ 0 := by
    intro a
    rw [TraceResult.returns.injEq, decide_eq_true_iff]
  refine ⟨key, ?_, ?_, ?_⟩
  · rw [key, iff1, sharesBit_iff]
  · intro hm hk
    have hr : 0 < k ∧ k < 2 ^ 31 := by
      rcases hk with h | h
      · exact mem_RW_TRACE_KIND_range k h
      · exact h
    have hn : normTraceOption m = 2147483647 := by rw [hm]; decide
    rw [key, iff1, hn]
    exact verbose_and_pos k hr.1 hr.2
  · intro hm
    have hn : normTraceOption m = TRACE_ERROR := by rw [hm]; decide
    refine ⟨?_, fun hk => ?_⟩
    · rw [key, iff1, hn, sharesBit_iff]
    · rw [key, iff1, hn]
      exact error_and_kind k hk

/-- C25 at concrete inputs: four components; after `TRACE_OPT_VERBOSE` the kind
`TRACE_DEBUG` is traced for component 2, after `TRACE_OPT_DEFAULT` it is not. -/
theorem tracing_after_Set_tracing_option_witness :
    ((4 < 2 ^ 32 ∧ (0 : Int) ≤ 2 ∧ (2 : Int) < ((4 : Nat) : Int)) ∧
      Tracing 4 false (Set_tracing_option 4 TRACE_OPT_VERBOSE TraceState.initial) 2
        TRACE_DEBUG = .returns true) ∧
    Tracing 4 false (Set_tracing_option 4 TRACE_OPT_DEFAULT TraceState.initial) 2
      TRACE_DEBUG = .returns false :=
  ⟨⟨⟨by decide, by decide, by decide⟩,
    (tracing_after_Set_tracing_option 4 false TraceState.initial TRACE_OPT_VERBOSE 2
      TRACE_DEBUG (by decide) (by decide) (by decide)).2.2.1 rfl
      (Or.inr ⟨by decide, by decide⟩)⟩,
   (tracing_after_Set_tracing_option 4 false TraceState.initial TRACE_OPT_DEFAULT 2
      TRACE_DEBUG (by decide) (by decide) (by decide)).1.trans
      (congrArg TraceResult.returns (by decide))⟩

end OpenRW
